import Mathlib

/-! Tone manager of liblinphone: a shallow embedding.

Source: `src/conference/session/tone-manager.cpp`.

The tone manager keeps one tone state per call session and arbitrates the single
audio output between ringback, ringtone and transient tones.  The embedding is a
state-passing translation: every member function of `ToneManager` becomes a
function on the record `ToneManager`, which holds the members of the C++ object
together with the fields of `LinphoneCore` the code writes (`ringstream`, the
ringtone player, `tones`).  What the code only reads (sound cards, configuration
flags, the current call, the attributes of a session object, results of engine
commands) is the record `Env`.  Every command sent to the media engine is appended
to the field `engine`, oldest first, so that "no resource call is made" is a
statement about that list.
-/

namespace Linphone

/-! ## Enumerations -/

/-- The enum `ToneManager::State`. -/
inductive State where
  | None
  | Call
  | Ringback
  | Ringtone
  | Tone
  deriving DecidableEq, Repr

/-- The enum `CallSession::State` (declared in `call-session.h`). -/
inductive CallState where
  | Idle
  | IncomingReceived
  | PushIncomingReceived
  | OutgoingInit
  | OutgoingProgress
  | OutgoingRinging
  | OutgoingEarlyMedia
  | Connected
  | StreamsRunning
  | Pausing
  | Paused
  | Resuming
  | Referred
  | Error
  | End
  | PausedByRemote
  | UpdatedByRemote
  | IncomingEarlyMedia
  | Updating
  | Released
  | EarlyUpdatedByRemote
  | EarlyUpdating
  deriving DecidableEq, Repr

/-- The enum `LinphoneReason`; only `LinphoneReasonTransferred` is named by the
tone manager, the other values are kept by their number. -/
inductive LinphoneReason where
  | Transferred
  | other (code : Nat)
  deriving DecidableEq, Repr

/-- The enum `LinphoneToneID`. -/
inductive LinphoneToneID where
  | Undefined
  | Busy
  | CallWaiting
  | CallOnHold
  | CallLost
  | CallEnd
  deriving DecidableEq, Repr

/-- The enum `AudioResourceType` of the tone manager. -/
inductive AudioResourceType where
  | ToneGenerator
  | LocalPlayer
  deriving DecidableEq, Repr

/-- Event identifiers delivered to the notify callbacks.  The two constants the
code switches on are named; every other value is `other`. -/
inductive EventId where
  | MS_PLAYER_EOF
  | MS_DTMF_GEN_END
  | other (code : Nat)
  deriving DecidableEq, Repr

/-- Stream types passed to `ms_snd_card_set_stream_type`. -/
inductive StreamType where
  | MS_SND_CARD_STREAM_VOICE
  | MS_SND_CARD_STREAM_RING
  | MS_SND_CARD_STREAM_DTMF
  deriving DecidableEq, Repr

/-! ## Identities -/

/-- The identity of a `std::shared_ptr<CallSession>`: the address it holds. -/
abbrev Session := Nat

/-- The null session pointer.  The entry points dereference their argument, so
they are meant for sessions other than `nullptr`. -/
def nullptr : Session := 0

/-- The identity of a non-null `MSSndCard *`. -/
abbrev SndCard := Nat

/-- An `MSFilter *` the tone manager can obtain: the tone generator or the local
player of the audio stream of the current call (or conference), or the generator
or the source of `lc->ringstream`. -/
inductive Filter where
  | stream_dtmfgen
  | stream_local_player
  | ring_gendtmf
  | ring_source
  deriving DecidableEq, Repr

/-! ## Records -/

/-- The struct `MSDtmfGenCustomTone`.  `amplitude` is a float in the source; the
two literals the code stores (`1` and `0.5f`) are kept exactly, counted in halves. -/
structure MSDtmfGenCustomTone where
  duration : Int
  frequencies0 : Int
  frequencies1 : Int
  amplitude_halves : Nat
  interval : Int
  repeat_count : Int
  deriving DecidableEq, Repr

/-- The struct `LinphoneToneDescription`; `audiofile = none` is a null pointer. -/
structure LinphoneToneDescription where
  reason : LinphoneReason
  toneid : LinphoneToneID
  audiofile : Option String
  deriving DecidableEq, Repr

/-- The struct `LinphoneCoreToneManagerStats`: seven `int` counters, which the code
only sets to 0 and increments with `++`.  A field holds the count as an integer;
the `int` in memory is `toInt32` of the field. -/
structure LinphoneCoreToneManagerStats where
  number_of_startRingbackTone : Int
  number_of_startRingtone : Int
  number_of_startErrorTone : Int
  number_of_startNamedTone : Int
  number_of_stopRingbackTone : Int
  number_of_stopRingtone : Int
  number_of_stopTone : Int
  deriving DecidableEq, Repr

/-- What the tone manager reads of a `RingStream`: the card it is bound to, the
file it was started with (`ring_start` is given `remote_ring` for a ringback and
`NULL` for a tone stream), and whether its `source` and `gendtmf` filters exist. -/
structure RingStream where
  card : Option SndCard
  file : Option String
  source : Bool
  gendtmf : Bool
  deriving DecidableEq, Repr

/-- What the tone manager reads of an `AudioStream`: whether `dtmfgen` and
`local_player` are non-null. -/
structure AudioStream where
  dtmfgen : Bool
  local_player : Bool
  deriving DecidableEq, Repr

/-- An `AudioDevice`: `getSoundCard()`. -/
structure AudioDevice where
  soundCard : Option SndCard
  deriving DecidableEq, Repr

/-- What the tone manager reads of the current call: `getOutputAudioDevice()` and
`linphone_call_get_stream(call, LinphoneStreamTypeAudio)`. -/
structure Call where
  outputAudioDevice : Option AudioDevice
  audioStream : Option AudioStream
  deriving DecidableEq, Repr

/-- What the tone manager reads of a `CallSession` object. -/
structure CallSession where
  state : CallState
  transferState : CallState
  reason : LinphoneReason
  inConference : Bool
  currentOutputAudioDevice : Option AudioDevice

/-- Arguments of `ms_filter_call_method`. -/
inductive Method where
  | MS_PLAYER_SET_LOOP (loopms : Int)
  | MS_PLAYER_OPEN (audiofile : String)
  | MS_PLAYER_START
  | MS_PLAYER_CLOSE
  | MS_DTMF_GEN_STOP
  | MS_DTMF_GEN_PLAY_CUSTOM (tone : MSDtmfGenCustomTone)
  | MS_DTMF_GEN_SET_DEFAULT_AMPLITUDE
  | MS_DTMF_GEN_PLAY (dtmf : Char)
  | MS_DTMF_GEN_START (dtmf : Char)
  deriving DecidableEq, Repr

/-- The two notify callbacks the tone manager registers. -/
inductive Callback where
  | on_file_player_end
  | on_play_tone_end
  deriving DecidableEq, Repr

/-- One call into the media engine or the core made by the tone manager. -/
inductive Cmd where
  | ring_start (file : Option String) (interval : Int) (card : Option SndCard)
  | ring_stop
  | ms_snd_card_set_stream_type (card : Option SndCard) (type : StreamType)
  | linphone_ringtoneplayer_start (card : SndCard) (ringfile : Option String) (interval : Int)
  | linphone_ringtoneplayer_stop
  | ms_filter_call_method (f : Filter) (m : Method)
  | ms_filter_add_notify_callback (f : Filter) (cb : Callback)
  | ms_filter_remove_notify_callback (f : Filter) (cb : Callback)
  | createTimer (delay : Nat)
  | destroyTimer
  deriving DecidableEq, Repr

/-- Everything the tone manager reads and never writes. -/
structure Env where
  /-- Value of `linphone_core_tone_indications_enabled(lc)`. -/
  tone_indications_enabled : Bool
  /-- Value of `linphone_core_is_native_ringing_enabled(lc)`. -/
  native_ringing_enabled : Bool
  /-- Value of `linphone_core_callkit_enabled(lc)`. -/
  callkit_enabled : Bool
  /-- Value of `linphone_core_is_in_conference(lc)`. -/
  is_in_conference : Bool
  /-- Value of `linphone_conference_get_audio_stream(lc->conf_ctx)`. -/
  conference_audio_stream : Option AudioStream
  /-- Value of `linphone_core_get_current_call(lc)`, also `getCore()->getCurrentCall()`. -/
  current_call : Option Call
  play_sndcard : Option SndCard
  ring_sndcard : Option SndCard
  lsd_card : Option SndCard
  remote_ring : Option String
  local_ring : Option String
  use_files : Bool
  /-- Status returned by `ms_filter_call_method(f, MS_PLAYER_OPEN, audiofile)`. -/
  ms_player_open : String → Int
  /-- The session object behind a session pointer. -/
  session : Session → CallSession

/-- The members of `ToneManager` and the fields of `LinphoneCore` it writes. -/
structure ToneManager where
  /-- The member `mSessions`, a `std::map` kept in key order. -/
  mSessions : List (Session × State)
  mStats : LinphoneCoreToneManagerStats
  /-- The member `mTimer`: `some delay` when a timer is armed. -/
  mTimer : Option Nat
  mDtmfStreamStarted : Bool
  /-- The field `lc->ringstream`. -/
  ringstream : Option RingStream
  /-- Value of `linphone_ringtoneplayer_is_started(lc->ringtoneplayer)`. -/
  ringtoneplayer_started : Bool
  /-- The list `lc->tones`. -/
  tones : List LinphoneToneDescription
  /-- The commands issued so far, oldest first. -/
  engine : List Cmd
  deriving DecidableEq, Repr

/-! ## The session table -/

/-- The assignment `m[k] = v` of `std::map`: replace the value of `k`, or insert
the pair at its place in key order. -/
def mapAssign : List (Session × State) → Session → State → List (Session × State)
  | [], k, v => [(k, v)]
  | (k1, v1) :: rest, k, v =>
    if k < k1 then (k, v) :: (k1, v1) :: rest
    else if k = k1 then (k, v) :: rest
    else (k1, v1) :: mapAssign rest k v

/-- The lookup `m.find(k)` of `std::map`. -/
def mapFind : List (Session × State) → Session → Option State
  | [], _ => none
  | (k1, v1) :: rest, k => if k1 = k then some v1 else mapFind rest k

/-- The removal `m.erase(k)` of `std::map`. -/
def mapErase (m : List (Session × State)) (k : Session) : List (Session × State) :=
  m.filter (fun e => e.1 != k)

/-- The zero statistics `{0, 0, 0, 0, 0, 0, 0}`. -/
def zeroStats : LinphoneCoreToneManagerStats :=
  { number_of_startRingbackTone := 0, number_of_startRingtone := 0,
    number_of_startErrorTone := 0, number_of_startNamedTone := 0,
    number_of_stopRingbackTone := 0, number_of_stopRingtone := 0,
    number_of_stopTone := 0 }

/-- The constructor `ToneManager::ToneManager` on a core with no ring stream, a
stopped ringtone player and the tone list `tones`. -/
def ToneManager.create (tones : List LinphoneToneDescription) : ToneManager :=
  { mSessions := [], mStats := zeroStats, mTimer := none, mDtmfStreamStarted := false,
    ringstream := none, ringtoneplayer_started := false, tones := tones, engine := [] }

/-- The member function `ToneManager::setState`. -/
def setState (session : Session) (newState : State) (tm : ToneManager) : ToneManager :=
  { tm with mSessions := mapAssign tm.mSessions session newState }

/-- The member function `ToneManager::getState`. -/
def getState (tm : ToneManager) (session : Session) : State :=
  match mapFind tm.mSessions session with
  | some st => st
  | none => State.None

/-- The member function `ToneManager::isAnotherSessionInState`. -/
def isAnotherSessionInState (tm : ToneManager) (me : Session) (state : State) : Bool :=
  tm.mSessions.any (fun it => it.2 == state && it.1 != me)

/-- The member function `ToneManager::getSessionInState`: the boolean result and
the value of the reference parameter `session` afterwards. -/
def getSessionInState (tm : ToneManager) (state : State) (session : Session) :
    Bool × Session :=
  match tm.mSessions.find? (fun it => it.2 == state) with
  | some it => (true, it.1)
  | none => (false, session)

/-- The member function `ToneManager::isThereACall`. -/
def isThereACall (tm : ToneManager) : Bool :=
  tm.mSessions.any (fun it => it.2 == State.Call)

/-- The member function `ToneManager::removeSession`. -/
def removeSession (session : Session) (tm : ToneManager) : ToneManager :=
  { tm with mSessions := mapErase tm.mSessions session }

/-- The member function `ToneManager::resetStats`. -/
def resetStats (tm : ToneManager) : ToneManager :=
  { tm with mStats := zeroStats }

/-! ## Engine commands and counters -/

/-- Record one command in the engine log. -/
def emit (c : Cmd) (tm : ToneManager) : ToneManager :=
  { tm with engine := tm.engine ++ [c] }

/-- The statement `mStats->number_of_startRingbackTone++`. -/
def incStartRingbackTone (tm : ToneManager) : ToneManager :=
  { tm with mStats := { tm.mStats with
      number_of_startRingbackTone := tm.mStats.number_of_startRingbackTone + 1 } }

/-- The statement `mStats->number_of_startRingtone++`. -/
def incStartRingtone (tm : ToneManager) : ToneManager :=
  { tm with mStats := { tm.mStats with
      number_of_startRingtone := tm.mStats.number_of_startRingtone + 1 } }

/-- The statement `mStats->number_of_startErrorTone++`. -/
def incStartErrorTone (tm : ToneManager) : ToneManager :=
  { tm with mStats := { tm.mStats with
      number_of_startErrorTone := tm.mStats.number_of_startErrorTone + 1 } }

/-- The statement `mStats->number_of_startNamedTone++`. -/
def incStartNamedTone (tm : ToneManager) : ToneManager :=
  { tm with mStats := { tm.mStats with
      number_of_startNamedTone := tm.mStats.number_of_startNamedTone + 1 } }

/-- The statement `mStats->number_of_stopRingbackTone++`. -/
def incStopRingbackTone (tm : ToneManager) : ToneManager :=
  { tm with mStats := { tm.mStats with
      number_of_stopRingbackTone := tm.mStats.number_of_stopRingbackTone + 1 } }

/-- The statement `mStats->number_of_stopRingtone++`. -/
def incStopRingtone (tm : ToneManager) : ToneManager :=
  { tm with mStats := { tm.mStats with
      number_of_stopRingtone := tm.mStats.number_of_stopRingtone + 1 } }

/-- The statement `mStats->number_of_stopTone++`. -/
def incStopTone (tm : ToneManager) : ToneManager :=
  { tm with mStats := { tm.mStats with
      number_of_stopTone := tm.mStats.number_of_stopTone + 1 } }

/-- The engine call `lc->ringstream = ring_start(factory, file, interval, card)`:
the new stream is bound to `card`, plays `file` and has both filters. -/
def ring_start (file : Option String) (interval : Int) (card : Option SndCard)
    (tm : ToneManager) : ToneManager :=
  { emit (Cmd.ring_start file interval card) tm with
    ringstream := some { card := card, file := file, source := true, gendtmf := true } }

/-- The statements `ring_stop(lc->ringstream); lc->ringstream = NULL;`. -/
def ring_stop (tm : ToneManager) : ToneManager :=
  { emit Cmd.ring_stop tm with ringstream := none }

/-- Modelled from the spec: `linphone_ringtoneplayer_start` is defined in
`coreapi/ringtoneplayer.c`, which is not among the sources; the spec calls its
effect "start ringtone physically", after which the ringtone player is started. -/
def linphone_ringtoneplayer_start (card : SndCard) (ringfile : Option String) (interval : Int)
    (tm : ToneManager) : ToneManager :=
  { emit (Cmd.linphone_ringtoneplayer_start card ringfile interval) tm with
    ringtoneplayer_started := true }

/-- Modelled from the spec: `linphone_ringtoneplayer_stop` is defined in
`coreapi/ringtoneplayer.c`, which is not among the sources; it stops ringtone
playback, after which the ringtone player is no longer started. -/
def linphone_ringtoneplayer_stop (tm : ToneManager) : ToneManager :=
  { emit Cmd.linphone_ringtoneplayer_stop tm with ringtoneplayer_started := false }

/-! ## Timer -/

/-- The member function `ToneManager::createTimerToCleanTonePlayer`. -/
def createTimerToCleanTonePlayer (delay : Nat) (tm : ToneManager) : ToneManager :=
  match tm.mTimer with
  | none => { emit (Cmd.createTimer delay) tm with mTimer := some delay }
  | some _ => tm

/-- The member function `ToneManager::deleteTimer`. -/
def deleteTimer (tm : ToneManager) : ToneManager :=
  match tm.mTimer with
  | some _ => { emit Cmd.destroyTimer (incStopTone tm) with mTimer := none }
  | none => tm

/-! ## Tone descriptions -/

/-- The member function `ToneManager::getToneFromReason`. -/
def getToneFromReason (tm : ToneManager) (reason : LinphoneReason) :
    Option LinphoneToneDescription :=
  tm.tones.find? (fun tone => tone.reason == reason)

/-- The member function `ToneManager::getToneFromId`. -/
def getToneFromId (tm : ToneManager) (id : LinphoneToneID) : Option LinphoneToneDescription :=
  tm.tones.find? (fun tone => tone.toneid == id)

/-- The member function `ToneManager::setTone`. -/
def setTone (reason : LinphoneReason) (id : LinphoneToneID) (audiofile : Option String)
    (tm : ToneManager) : ToneManager :=
  let tones1 :=
    match getToneFromReason tm reason with
    | some tone => tm.tones.erase tone
    | none => tm.tones
  { tm with tones := tones1 ++ [{ reason := reason, toneid := id, audiofile := audiofile }] }

/-! ## Sound -/

/-- The filter of a ring stream for a resource type: `gendtmf` or `source`. -/
def ringFilter (rtype : AudioResourceType) (rs : RingStream) : Option Filter :=
  match rtype with
  | AudioResourceType.ToneGenerator => if rs.gendtmf then some Filter.ring_gendtmf else none
  | AudioResourceType.LocalPlayer => if rs.source then some Filter.ring_source else none

/-- The tail of `getAudioResource` once `create` is known to hold: start a tone
ring stream on `ringcard`, set its default amplitude, return its filter. -/
def createRingStream (rtype : AudioResourceType) (ringcard : Option SndCard)
    (tm : ToneManager) : Option Filter × ToneManager :=
  let tm1 := ring_start none 0 ringcard tm
  let tm2 := emit (Cmd.ms_filter_call_method Filter.ring_gendtmf
    Method.MS_DTMF_GEN_SET_DEFAULT_AMPLITUDE) tm1
  (ringFilter rtype { card := ringcard, file := none, source := true, gendtmf := true }, tm2)

/-- The member function `ToneManager::getAudioResource`: the filter returned
(`none` for `NULL`) and the state afterwards. -/
def getAudioResource (env : Env) (rtype : AudioResourceType) (card : Option SndCard)
    (create : Bool) (tm : ToneManager) : Option Filter × ToneManager :=
  let stream : Option AudioStream :=
    match env.current_call with
    | some call => call.audioStream
    | none => if env.is_in_conference then env.conference_audio_stream else none
  let audioResource : Option Filter :=
    match stream with
    | some st =>
      match rtype with
      | AudioResourceType.ToneGenerator => if st.dtmfgen then some Filter.stream_dtmfgen else none
      | AudioResourceType.LocalPlayer =>
        if st.local_player then some Filter.stream_local_player else none
    | none => none
  match audioResource with
  | some f => (some f, tm)
  | none =>
    let tm1 : ToneManager :=
      match card, tm.ringstream with
      | some c, some rs => if some c ≠ rs.card then ring_stop tm else tm
      | _, _ => tm
    match tm1.ringstream with
    | some rs => (ringFilter rtype rs, tm1)
    | none =>
      if env.use_files then
        if create then createRingStream rtype none tm1 else (none, tm1)
      else
        let ringcard : Option SndCard :=
          match env.lsd_card with
          | some c => some c
          | none =>
            match card with
            | some c => some c
            | none => env.ring_sndcard
        match ringcard with
        | none => (none, tm1)
        | some rc =>
          let tm2 := emit (Cmd.ms_snd_card_set_stream_type (some rc)
            StreamType.MS_SND_CARD_STREAM_DTMF) tm1
          if create then createRingStream rtype (some rc) tm2 else (none, tm2)

/-- The member function `ToneManager::playFile`: the status returned and the
state afterwards. -/
def playFile (env : Env) (audiofile : String) (tm : ToneManager) : Int × ToneManager :=
  let r := getAudioResource env AudioResourceType.LocalPlayer env.play_sndcard true tm
  match r.1 with
  | none => (-1, r.2)
  | some f =>
    let tm1 := emit (Cmd.ms_filter_call_method f (Method.MS_PLAYER_SET_LOOP (-1))) r.2
    let tm2 := emit (Cmd.ms_filter_call_method f (Method.MS_PLAYER_OPEN audiofile)) tm1
    if env.ms_player_open audiofile ≠ 0 then (-1, tm2)
    else
      let tm3 := emit (Cmd.ms_filter_call_method f Method.MS_PLAYER_START) tm2
      match tm3.ringstream with
      | some rs =>
        if rs.source then
          (0, emit (Cmd.ms_filter_add_notify_callback Filter.ring_source
            Callback.on_file_player_end) tm3)
        else (0, tm3)
      | none => (0, tm3)

/-- The tone all of whose fields are zero but `amplitude = 1`. -/
def defaultTone : MSDtmfGenCustomTone :=
  { duration := 0, frequencies0 := 0, frequencies1 := 0, amplitude_halves := 2,
    interval := 0, repeat_count := 0 }

/-- The member function `ToneManager::generateToneFromId`. -/
def generateToneFromId (toneId : LinphoneToneID) : MSDtmfGenCustomTone :=
  match toneId with
  | LinphoneToneID.CallOnHold =>
    { defaultTone with repeat_count := 3, duration := 300, frequencies0 := 440, interval := 2000 }
  | LinphoneToneID.CallWaiting =>
    { defaultTone with duration := 300, frequencies0 := 440, interval := 2000 }
  | LinphoneToneID.Busy =>
    { defaultTone with duration := 500, frequencies0 := 440, interval := 500, repeat_count := 3 }
  | LinphoneToneID.CallLost =>
    { defaultTone with duration := 250, frequencies0 := 620, interval := 250, repeat_count := 3 }
  | LinphoneToneID.CallEnd =>
    { defaultTone with duration := 200, frequencies0 := 480, interval := 200, repeat_count := 2,
                       amplitude_halves := 1 }
  | LinphoneToneID.Undefined => defaultTone

/-- The value `(unsigned int) delay` of `playTone`, where
`int delay = (tone.duration + tone.interval) * tone.repeat_count + 1000`. -/
def cleanupDelay (tone : MSDtmfGenCustomTone) : Nat :=
  (((tone.duration + tone.interval) * tone.repeat_count + 1000) % 4294967296).toNat

/-- The local variable `card` of `playTone` when the generator is requested: the
sound card of the current output audio device of a non-null session, else the
default play card. -/
def playToneCard (env : Env) (session : Session) : Option SndCard :=
  let card : Option SndCard :=
    if session ≠ nullptr then
      match (env.session session).currentOutputAudioDevice with
      | some audioDevice => audioDevice.soundCard
      | none => none
    else none
  match card with
  | some c => some c
  | none => env.play_sndcard

/-- The member function `ToneManager::playTone`. -/
def playTone (env : Env) (session : Session) (tone : MSDtmfGenCustomTone)
    (tm : ToneManager) : ToneManager :=
  let r := getAudioResource env AudioResourceType.ToneGenerator (playToneCard env session) true tm
  match r.1 with
  | none => r.2
  | some f =>
    if tone.duration > 0 then
      let tm1 := emit (Cmd.ms_filter_call_method f (Method.MS_DTMF_GEN_PLAY_CUSTOM tone)) r.2
      let tm2 := emit (Cmd.ms_filter_remove_notify_callback f Callback.on_play_tone_end) tm1
      let tm3 := emit (Cmd.ms_filter_add_notify_callback f Callback.on_play_tone_end) tm2
      if tone.repeat_count > 0 then createTimerToCleanTonePlayer (cleanupDelay tone) tm3
      else tm3
    else r.2

/-! ## Start -/

/-- The member function `ToneManager::doStartErrorTone`. -/
def doStartErrorTone (env : Env) (session : Session) (reason : LinphoneReason)
    (tm : ToneManager) : ToneManager :=
  match getToneFromReason tm reason with
  | some tone =>
    match tone.audiofile with
    | some audiofile => (playFile env audiofile tm).2
    | none =>
      if tone.toneid ≠ LinphoneToneID.Undefined then
        playTone env session (generateToneFromId tone.toneid) tm
      else tm
  | none => tm

/-- The member function `ToneManager::doStartNamedTone`. -/
def doStartNamedTone (env : Env) (session : Session) (toneId : LinphoneToneID)
    (tm : ToneManager) : ToneManager :=
  match getToneFromId tm toneId with
  | some tone =>
    match tone.audiofile with
    | some audiofile => (playFile env audiofile tm).2
    | none => playTone env session (generateToneFromId toneId) tm
  | none => playTone env session (generateToneFromId toneId) tm

/-- The member function `ToneManager::doStartRingbackTone`. -/
def doStartRingbackTone (env : Env) (_session : Session) (tm : ToneManager) : ToneManager :=
  match env.play_sndcard with
  | none => tm
  | some play_sndcard =>
    let ringCard0 : Option SndCard :=
      match env.lsd_card with
      | some c => some c
      | none => some play_sndcard
    let ringCard : Option SndCard :=
      match env.current_call with
      | some call =>
        match call.outputAudioDevice with
        | some audioDevice => audioDevice.soundCard
        | none => ringCard0
      | none => ringCard0
    match env.remote_ring with
    | some remote_ring =>
      let tm1 := emit (Cmd.ms_snd_card_set_stream_type ringCard
        StreamType.MS_SND_CARD_STREAM_VOICE) tm
      ring_start (some remote_ring) 2000 (if env.use_files then none else ringCard) tm1
    | none => tm

/-- The member function `ToneManager::doStartRingtone`. -/
def doStartRingtone (env : Env) (session : Session) (tm : ToneManager) : ToneManager :=
  if isAnotherSessionInState tm session State.Call
      || isAnotherSessionInState tm session State.Ringtone then
    if env.tone_indications_enabled then
      doStartNamedTone env session LinphoneToneID.CallWaiting tm
    else tm
  else
    let ringcard : Option SndCard :=
      match env.lsd_card with
      | some c => some c
      | none => env.ring_sndcard
    match ringcard with
    | some rc =>
      if !env.native_ringing_enabled then
        if !env.callkit_enabled then
          let tm1 := emit (Cmd.ms_snd_card_set_stream_type (some rc)
            StreamType.MS_SND_CARD_STREAM_RING) tm
          linphone_ringtoneplayer_start rc env.local_ring 2000 tm1
        else tm
      else tm
    | none => tm

/-! ## Stop -/

/-- The member function `ToneManager::doStopRingbackTone`. -/
def doStopRingbackTone (tm : ToneManager) : ToneManager :=
  match tm.ringstream with
  | some _ => ring_stop tm
  | none => tm

/-- The member function `ToneManager::doStopTone`. -/
def doStopTone (env : Env) (tm : ToneManager) : ToneManager :=
  let tm1 := doStopRingbackTone tm
  if isThereACall tm1 then
    let r := getAudioResource env AudioResourceType.LocalPlayer env.play_sndcard false tm1
    let tm2 : ToneManager :=
      match r.1 with
      | some f => emit (Cmd.ms_filter_call_method f Method.MS_PLAYER_CLOSE) r.2
      | none => r.2
    let q := getAudioResource env AudioResourceType.ToneGenerator none false tm2
    match q.1 with
    | some f => emit (Cmd.ms_filter_call_method f Method.MS_DTMF_GEN_STOP) q.2
    | none => q.2
  else tm1

/-- The member function `ToneManager::doStopAllTones`. -/
def doStopAllTones (env : Env) (tm : ToneManager) : ToneManager :=
  let tm1 := doStopTone env tm
  if tm1.ringtoneplayer_started then linphone_ringtoneplayer_stop tm1 else tm1

/-- The member function `ToneManager::doStopRingtone`. -/
def doStopRingtone (env : Env) (session : Session) (tm : ToneManager) : ToneManager :=
  if isAnotherSessionInState tm session State.Call then doStopTone env tm
  else if tm.ringtoneplayer_started then linphone_ringtoneplayer_stop tm
  else tm

/-- The member function `ToneManager::doStop`. -/
def doStop (env : Env) (session : Session) (newState : State) (tm : ToneManager) : ToneManager :=
  match getState tm session with
  | State.Ringback => incStopRingbackTone (setState session newState (doStopRingbackTone tm))
  | State.Ringtone => incStopRingtone (setState session newState (doStopRingtone env session tm))
  | State.Tone => incStopTone (setState session newState (doStopTone env tm))
  | State.Call =>
    let tm1 : ToneManager :=
      if isAnotherSessionInState tm session State.Ringtone then incStopTone (doStopTone env tm)
      else tm
    setState session newState tm1
  | State.None => tm

/-! ## Callbacks of the file player and the tone generator -/

/-- The member function `ToneManager::updateRings`. -/
def updateRings (env : Env) (tm : ToneManager) : ToneManager :=
  let r := getSessionInState tm State.Ringtone nullptr
  if r.1 then incStartRingtone (doStartRingtone env r.2 tm)
  else
    let q := getSessionInState tm State.Ringback r.2
    if q.1 then
      match tm.ringstream with
      | none => incStartRingbackTone (doStartRingbackTone env q.2 tm)
      | some _ => tm
    else tm

/-- The member function `ToneManager::onFilePlayerEnd`. -/
def onFilePlayerEnd (env : Env) (eventId : EventId) (tm : ToneManager) : ToneManager :=
  match eventId with
  | EventId.MS_PLAYER_EOF => updateRings env (incStopTone (doStopTone env tm))
  | _ => tm

/-- The member function `ToneManager::onPlayToneEnd`. -/
def onPlayToneEnd (env : Env) (eventId : EventId) (tm : ToneManager) : ToneManager :=
  match eventId with
  | EventId.MS_DTMF_GEN_END =>
    let tm1 : ToneManager :=
      match tm.mTimer with
      | none => incStopTone tm
      | some _ => tm
    updateRings env tm1
  | _ => tm

/-! ## Public entry points for tones -/

/-- The member function `ToneManager::startRingbackTone`. -/
def startRingbackTone (env : Env) (session : Session) (tm : ToneManager) : ToneManager :=
  if getState tm session = State.Ringback then tm
  else
    let tm1 := incStartRingbackTone (setState session State.Ringback tm)
    if (env.session session).inConference then tm1
    else if !isAnotherSessionInState tm1 session State.Ringback then
      doStartRingbackTone env session (doStopAllTones env tm1)
    else tm1

/-- The member function `ToneManager::startRingtone`. -/
def startRingtone (env : Env) (session : Session) (tm : ToneManager) : ToneManager :=
  let tm1 := setState session State.Ringtone tm
  if !isAnotherSessionInState tm1 session State.Ringtone
      && !isAnotherSessionInState tm1 session State.Ringback then
    incStartRingtone (doStartRingtone env session (doStopAllTones env tm1))
  else tm1

/-- The member function `ToneManager::startErrorTone`. -/
def startErrorTone (env : Env) (session : Session) (reason : LinphoneReason)
    (tm : ToneManager) : ToneManager :=
  let tm1 := setState session State.Tone tm
  if env.tone_indications_enabled then
    incStartErrorTone (doStartErrorTone env session reason (doStopAllTones env tm1))
  else tm1

/-- The member function `ToneManager::startNamedTone`. -/
def startNamedTone (env : Env) (session : Session) (toneId : LinphoneToneID)
    (tm : ToneManager) : ToneManager :=
  let tm1 := setState session State.Tone tm
  if env.tone_indications_enabled then
    incStartNamedTone (doStartNamedTone env session toneId (doStopAllTones env tm1))
  else tm1

/-- The member function `ToneManager::goToCall`. -/
def goToCall (env : Env) (session : Session) (tm : ToneManager) : ToneManager :=
  doStop env session State.Call tm

/-- The member function `ToneManager::stop(session)`. -/
def stop (env : Env) (session : Session) (tm : ToneManager) : ToneManager :=
  doStop env session State.None tm

/-- The member function `ToneManager::update`. -/
def update (env : Env) (session : Session) (tm : ToneManager) : ToneManager :=
  match (env.session session).state with
  | CallState.UpdatedByRemote | CallState.Updating =>
    if isAnotherSessionInState tm session State.Ringtone then
      incStartRingtone (doStartRingtone env session tm)
    else tm
  | CallState.Error | CallState.End =>
    let tm1 := doStop env session State.None tm
    if env.tone_indications_enabled then
      let tm2 : ToneManager :=
        if (env.session session).transferState = CallState.Connected then
          doStartErrorTone env session LinphoneReason.Transferred tm1
        else doStartErrorTone env session (env.session session).reason tm1
      incStartErrorTone tm2
    else tm1
  | CallState.StreamsRunning | CallState.Paused | CallState.PausedByRemote =>
    updateRings env (setState session State.Call tm)
  | _ => tm

/-! ## Sequences of calls -/

/-- One call of an entry point or of a completion callback. -/
inductive Op where
  | startRingbackTone (session : Session)
  | startRingtone (session : Session)
  | startErrorTone (session : Session) (reason : LinphoneReason)
  | startNamedTone (session : Session) (toneId : LinphoneToneID)
  | goToCall (session : Session)
  | stop (session : Session)
  | removeSession (session : Session)
  | update (session : Session)
  | onFilePlayerEnd (eventId : EventId)
  | onPlayToneEnd (eventId : EventId)

/-- Run one call in the environment found at the time of the call. -/
def Op.run (env : Env) (op : Op) (tm : ToneManager) : ToneManager :=
  match op with
  | Op.startRingbackTone s => Linphone.startRingbackTone env s tm
  | Op.startRingtone s => Linphone.startRingtone env s tm
  | Op.startErrorTone s reason => Linphone.startErrorTone env s reason tm
  | Op.startNamedTone s toneId => Linphone.startNamedTone env s toneId tm
  | Op.goToCall s => Linphone.goToCall env s tm
  | Op.stop s => Linphone.stop env s tm
  | Op.removeSession s => Linphone.removeSession s tm
  | Op.update s => Linphone.update env s tm
  | Op.onFilePlayerEnd e => Linphone.onFilePlayerEnd env e tm
  | Op.onPlayToneEnd e => Linphone.onPlayToneEnd env e tm

/-- Run a sequence of calls, each with its own environment, first call first. -/
def runOps (ops : List (Env × Op)) (tm : ToneManager) : ToneManager :=
  ops.foldl (fun acc eo => eo.2.run eo.1 acc) tm

/-- A ringback is playing: `lc->ringstream` exists and was started on a ring file
(`doStartRingbackTone` is the only place that gives `ring_start` a file). -/
def ringbackActive (tm : ToneManager) : Bool :=
  match tm.ringstream with
  | some rs => rs.file.isSome
  | none => false

/-- Mutual exclusion of the two ring indications: the ringtone player is not
started while a ringback ring stream is active. -/
def ringsExclusive (tm : ToneManager) : Bool :=
  !(tm.ringtoneplayer_started && ringbackActive tm)

/-- A call of one of the two writers of the session table. -/
inductive TableOp where
  | setState (session : Session) (state : State)
  | removeSession (session : Session)
  deriving DecidableEq

/-- Run one table call. -/
def TableOp.run (op : TableOp) (tm : ToneManager) : ToneManager :=
  match op with
  | TableOp.setState s st => Linphone.setState s st tm
  | TableOp.removeSession s => Linphone.removeSession s tm

/-- Run a sequence of table calls, first call first. -/
def runTableOps (ops : List TableOp) (tm : ToneManager) : ToneManager :=
  ops.foldl (fun acc op => op.run acc) tm

/-- Commands that start playback: starting a ring stream or the ringtone player,
opening or starting a file player, playing a custom tone or a DTMF. -/
def Cmd.isPlay (c : Cmd) : Bool :=
  match c with
  | Cmd.ring_start _ _ _ => true
  | Cmd.linphone_ringtoneplayer_start _ _ _ => true
  | Cmd.ms_filter_call_method _ (Method.MS_PLAYER_OPEN _) => true
  | Cmd.ms_filter_call_method _ Method.MS_PLAYER_START => true
  | Cmd.ms_filter_call_method _ (Method.MS_DTMF_GEN_PLAY_CUSTOM _) => true
  | Cmd.ms_filter_call_method _ (Method.MS_DTMF_GEN_PLAY _) => true
  | Cmd.ms_filter_call_method _ (Method.MS_DTMF_GEN_START _) => true
  | _ => false

/-- Commands that start the ringtone player. -/
def Cmd.isRingtoneStart (c : Cmd) : Bool :=
  match c with
  | Cmd.linphone_ringtoneplayer_start _ _ _ => true
  | _ => false

/-- The state `tm2` comes from `tm1` by issuing further commands, all of which
satisfy `P`. -/
def Emits (P : Cmd → Prop) (tm1 tm2 : ToneManager) : Prop :=
  ∃ cmds : List Cmd, tm2.engine = tm1.engine ++ cmds ∧ ∀ c ∈ cmds, P c

/-- Commands other than a start of the ringtone player; when `quiet` holds, also
no command that starts playback. -/
def calm (quiet : Bool) (c : Cmd) : Prop :=
  c.isRingtoneStart = false ∧ (quiet = true → c.isPlay = false)

/-- Only audio resources differ between `tm1` and `tm2`: the session table, the
statistics, the tone list and the DTMF-stream flag are the same. -/
structure AudioOnly (tm1 tm2 : ToneManager) : Prop where
  mSessions : tm2.mSessions = tm1.mSessions
  mStats : tm2.mStats = tm1.mStats
  tones : tm2.tones = tm1.tones
  mDtmfStreamStarted : tm2.mDtmfStreamStarted = tm1.mDtmfStreamStarted

/-- The state `tm2` comes from `tm1` by commands satisfying `P` that neither
touch the table, the statistics or the tone list nor start or stop the ringtone
player. -/
structure Keeps (P : Cmd → Prop) (tm1 tm2 : ToneManager) : Prop where
  audio : AudioOnly tm1 tm2
  player : tm2.ringtoneplayer_started = tm1.ringtoneplayer_started
  emits : Emits P tm1 tm2

/-- An environment with two sound cards, both ring files and nothing else: no
call, no conference, tone indications enabled, every file opens. -/
def plainEnv : Env :=
  { tone_indications_enabled := true, native_ringing_enabled := false, callkit_enabled := false,
    is_in_conference := false, conference_audio_stream := none, current_call := none,
    play_sndcard := some 1, ring_sndcard := some 2, lsd_card := none,
    remote_ring := some "ringback.wav", local_ring := some "ring.wav", use_files := false,
    ms_player_open := fun _ => 0,
    session := fun _ =>
      { state := CallState.Idle, transferState := CallState.Idle,
        reason := LinphoneReason.other 0, inConference := false,
        currentOutputAudioDevice := none } }

/-- The environment `plainEnv` with tone indications disabled. -/
def quietEnv : Env :=
  { plainEnv with tone_indications_enabled := false }

/-- The environment `plainEnv` in which every session reports the call state
`Updating`. -/
def updatingEnv : Env :=
  { plainEnv with
    session := fun _ =>
      { state := CallState.Updating, transferState := CallState.Idle,
        reason := LinphoneReason.other 0, inConference := false,
        currentOutputAudioDevice := none } }

/-- The environment `plainEnv` in which every session reports the call state
`StreamsRunning` and session `1` is marked as in conference. -/
def answeredEnv : Env :=
  { plainEnv with
    session := fun s =>
      { state := CallState.StreamsRunning, transferState := CallState.Idle,
        reason := LinphoneReason.other 0, inConference := decide (s = 1),
        currentOutputAudioDevice := none } }

/-- The environment `plainEnv` with a current call whose audio stream has a tone
generator and a local player. -/
def callEnv : Env :=
  { plainEnv with
    current_call := some { outputAudioDevice := none,
                           audioStream := some { dtmfgen := true, local_player := true } } }

/-- The tone list holds at most one descriptor per reason. -/
def oneDescriptorPerReason (tones : List LinphoneToneDescription) : Prop :=
  tones.Pairwise (fun a b => a.reason ≠ b.reason)

/-- Commands by which tones are played and stopped: the set-up of a tone ring
stream (`ring_stop`, `ring_start` without a file, the DTMF stream type), every
filter method, the notify callbacks and the creation of the cleanup timer. -/
def Cmd.isToneCmd (c : Cmd) : Bool :=
  match c with
  | Cmd.ring_stop => true
  | Cmd.ring_start none _ _ => true
  | Cmd.ms_snd_card_set_stream_type _ StreamType.MS_SND_CARD_STREAM_DTMF => true
  | Cmd.ms_filter_call_method _ _ => true
  | Cmd.ms_filter_add_notify_callback _ _ => true
  | Cmd.ms_filter_remove_notify_callback _ _ => true
  | Cmd.createTimer _ => true
  | _ => false

/-- Commands that start a ringback: `ring_start` on a ring file. -/
def Cmd.isRingbackStart (c : Cmd) : Bool :=
  match c with
  | Cmd.ring_start (some _) _ _ => true
  | _ => false

/-- The environment `plainEnv` with CallKit enabled. -/
def callkitEnv : Env :=
  { plainEnv with callkit_enabled := true }

/-- The environment `plainEnv` without sound cards and ring files, with tone
indications disabled, in which no file opens. -/
def deafEnv : Env :=
  { plainEnv with
    tone_indications_enabled := false, play_sndcard := none, ring_sndcard := none,
    remote_ring := none, local_ring := none, ms_player_open := fun _ => -1 }

/-- The environment `plainEnv` in which every session reports the call state `End`
and the transfer state `Connected`. -/
def endedEnv : Env :=
  { plainEnv with
    session := fun _ =>
      { state := CallState.End, transferState := CallState.Connected,
        reason := LinphoneReason.other 0, inConference := false,
        currentOutputAudioDevice := none } }

/-! ## Entry points of the core API, the timer callback -/

/-- The member function `ToneManager::linphoneCorePlayDtmf`.  `in_call` is the
value of `linphone_core_in_call(lc)`. -/
def linphoneCorePlayDtmf (env : Env) (in_call : Bool) (dtmf : Char) (duration : Int)
    (tm : ToneManager) : ToneManager :=
  let r := getSessionInState tm State.Tone nullptr
  let tm1 : ToneManager := if r.1 then doStop env r.2 State.None tm else tm
  let card : Option SndCard := if in_call then env.play_sndcard else env.ring_sndcard
  let q := getAudioResource env AudioResourceType.ToneGenerator card true tm1
  match q.1 with
  | none => q.2
  | some f =>
    if duration > 0 then emit (Cmd.ms_filter_call_method f (Method.MS_DTMF_GEN_PLAY dtmf)) q.2
    else emit (Cmd.ms_filter_call_method f (Method.MS_DTMF_GEN_START dtmf)) q.2

/-- The member function `ToneManager::linphoneCoreStopDtmf`. -/
def linphoneCoreStopDtmf (env : Env) (tm : ToneManager) : ToneManager :=
  let q := getAudioResource env AudioResourceType.ToneGenerator none false tm
  match q.1 with
  | some f => emit (Cmd.ms_filter_call_method f Method.MS_DTMF_GEN_STOP) q.2
  | none => q.2

/-- The member function `ToneManager::linphoneCorePlayLocal`: the status returned
and the state afterwards. -/
def linphoneCorePlayLocal (env : Env) (audiofile : String) (tm : ToneManager) :
    Int × ToneManager :=
  playFile env audiofile tm

/-- The member function `ToneManager::linphoneCoreStartDtmfStream`. -/
def linphoneCoreStartDtmfStream (env : Env) (tm : ToneManager) : ToneManager :=
  { (getAudioResource env AudioResourceType.ToneGenerator env.ring_sndcard true tm).2 with
    mDtmfStreamStarted := true }

/-- The member function `ToneManager::linphoneCoreStopRinging`. -/
def linphoneCoreStopRinging (env : Env) (tm : ToneManager) : ToneManager :=
  doStopRingtone env nullptr tm

/-- The member function `ToneManager::stop()` without argument. -/
def stopTones (env : Env) (tm : ToneManager) : ToneManager :=
  doStopTone env tm

/-- The member function `ToneManager::linphoneCoreStopDtmfStream`. -/
def linphoneCoreStopDtmfStream (env : Env) (tm : ToneManager) : ToneManager :=
  if !tm.mDtmfStreamStarted then tm
  else { stopTones env tm with mDtmfStreamStarted := false }

/-- The enum `MSPlayerState` of the media engine. -/
inductive MSPlayerState where
  | MSPlayerClosed
  | MSPlayerPaused
  | MSPlayerPlaying
  deriving DecidableEq, Repr

/-- The callback that `createTimerToCleanTonePlayer` hands to `createTimer`:
the boolean it returns and the state afterwards.  `status` and `state` are what
`ms_filter_call_method(source, MS_PLAYER_GET_STATE, &state)` gives when the
source exists. -/
def cleanTonePlayerCallback (status : Int) (state : MSPlayerState) (tm : ToneManager) :
    Bool × ToneManager :=
  let source : Bool :=
    match tm.ringstream with
    | some rs => rs.source
    | none => false
  if source && status = 0 then
    if state ≠ MSPlayerState.MSPlayerPlaying then (false, deleteTimer tm)
    else (false, tm)
  else if !source then (false, deleteTimer tm)
  else (true, tm)

/-- One call of any operation of the tone manager that can write its state,
`resetStats` apart. -/
inductive ManagerOp where
  | entry (op : Op)
  | linphoneCorePlayDtmf (in_call : Bool) (dtmf : Char) (duration : Int)
  | linphoneCoreStopDtmf
  | linphoneCorePlayLocal (audiofile : String)
  | linphoneCoreStartDtmfStream
  | linphoneCoreStopRinging
  | linphoneCoreStopDtmfStream
  | stopTones
  | setTone (reason : LinphoneReason) (id : LinphoneToneID) (audiofile : Option String)
  | timerCallback (status : Int) (state : MSPlayerState)

/-- Run one operation. -/
def ManagerOp.run (env : Env) (op : ManagerOp) (tm : ToneManager) : ToneManager :=
  match op with
  | ManagerOp.entry o => o.run env tm
  | ManagerOp.linphoneCorePlayDtmf in_call dtmf duration =>
    Linphone.linphoneCorePlayDtmf env in_call dtmf duration tm
  | ManagerOp.linphoneCoreStopDtmf => Linphone.linphoneCoreStopDtmf env tm
  | ManagerOp.linphoneCorePlayLocal audiofile => (Linphone.linphoneCorePlayLocal env audiofile tm).2
  | ManagerOp.linphoneCoreStartDtmfStream => Linphone.linphoneCoreStartDtmfStream env tm
  | ManagerOp.linphoneCoreStopRinging => Linphone.linphoneCoreStopRinging env tm
  | ManagerOp.linphoneCoreStopDtmfStream => Linphone.linphoneCoreStopDtmfStream env tm
  | ManagerOp.stopTones => Linphone.stopTones env tm
  | ManagerOp.setTone reason id audiofile => Linphone.setTone reason id audiofile tm
  | ManagerOp.timerCallback status state => (cleanTonePlayerCallback status state tm).2

/-- Every counter of `a` is at most the same counter of `b`. -/
def statsLe (a b : LinphoneCoreToneManagerStats) : Prop :=
  a.number_of_startRingbackTone ≤ b.number_of_startRingbackTone
  ∧ a.number_of_startRingtone ≤ b.number_of_startRingtone
  ∧ a.number_of_startErrorTone ≤ b.number_of_startErrorTone
  ∧ a.number_of_startNamedTone ≤ b.number_of_startNamedTone
  ∧ a.number_of_stopRingbackTone ≤ b.number_of_stopRingbackTone
  ∧ a.number_of_stopRingtone ≤ b.number_of_stopRingtone
  ∧ a.number_of_stopTone ≤ b.number_of_stopTone

/-- Commands by which `getAudioResource` sets up the tone ring stream. -/
def Cmd.isSetupCmd (c : Cmd) : Bool :=
  match c with
  | Cmd.ring_stop => true
  | Cmd.ring_start none 0 _ => true
  | Cmd.ms_snd_card_set_stream_type _ StreamType.MS_SND_CARD_STREAM_DTMF => true
  | Cmd.ms_filter_call_method Filter.ring_gendtmf Method.MS_DTMF_GEN_SET_DEFAULT_AMPLITUDE => true
  | _ => false

/-- The environment `quietEnv` in which every session reports the call state
`Updating`. -/
def quietUpdatingEnv : Env :=
  { updatingEnv with tone_indications_enabled := false }

/-- Commands that start a file player: `MS_PLAYER_START`. -/
def Cmd.isPlayerStart (c : Cmd) : Bool :=
  match c with
  | Cmd.ms_filter_call_method _ Method.MS_PLAYER_START => true
  | _ => false

/-- The state in which the cleanup timer is armed while the source of the ring
stream plays a file: from a fresh manager in `plainEnv`, `startNamedTone 1 Busy`
creates the tone ring stream and arms the timer for 4000 ms, then
`linphoneCorePlayLocal "local.wav"` starts that file on the source of the same
ring stream. -/
def timerArmedWhilePlaying : ToneManager :=
  (linphoneCorePlayLocal plainEnv "local.wav"
    (startNamedTone plainEnv 1 LinphoneToneID.Busy (ToneManager.create []))).2

/-! ## Conference parameters (`coreapi/linphoneconference.c`) -/

/-- Modelled from the spec: the class `ConferenceParams` is declared in
`conference/conference.h`, which is not among the sources; what the C getters
and setters use of it is three capability flags, audio, video and chat, each
written by its own `enable...` method and read by its own `...Enabled` method. -/
structure ConferenceParams where
  mEnableAudio : Bool
  mEnableVideo : Bool
  mEnableChat : Bool
  deriving DecidableEq, Repr

/-- Modelled from the spec: `ConferenceParams::enableVideo` writes the video flag. -/
def ConferenceParams.enableVideo (set : Bool) (params : ConferenceParams) : ConferenceParams :=
  { params with mEnableVideo := set }

/-- Modelled from the spec: `ConferenceParams::audioEnabled` reads the audio flag. -/
def ConferenceParams.audioEnabled (params : ConferenceParams) : Bool :=
  params.mEnableAudio

/-- Modelled from the spec: `ConferenceParams::videoEnabled` reads the video flag. -/
def ConferenceParams.videoEnabled (params : ConferenceParams) : Bool :=
  params.mEnableVideo

/-- Modelled from the spec: `ConferenceParams::chatEnabled` reads the chat flag. -/
def ConferenceParams.chatEnabled (params : ConferenceParams) : Bool :=
  params.mEnableChat

/-- The function `linphone_conference_params_set_audio_enabled`. -/
def linphone_conference_params_set_audio_enabled (params : ConferenceParams) (enable : Bool) :
    ConferenceParams :=
  ConferenceParams.enableVideo (if enable then true else false) params

/-- The function `linphone_conference_params_is_audio_enabled`. -/
def linphone_conference_params_is_audio_enabled (params : ConferenceParams) : Bool :=
  if ConferenceParams.audioEnabled params then true else false

/-- The function `linphone_conference_params_set_video_enabled`. -/
def linphone_conference_params_set_video_enabled (params : ConferenceParams) (enable : Bool) :
    ConferenceParams :=
  ConferenceParams.enableVideo (if enable then true else false) params

/-- The function `linphone_conference_params_is_video_enabled`. -/
def linphone_conference_params_is_video_enabled (params : ConferenceParams) : Bool :=
  if ConferenceParams.videoEnabled params then true else false

/-- The function `linphone_conference_params_set_chat_enabled`. -/
def linphone_conference_params_set_chat_enabled (params : ConferenceParams) (enable : Bool) :
    ConferenceParams :=
  ConferenceParams.enableVideo (if enable then true else false) params

/-- The function `linphone_conference_params_is_chat_enabled`. -/
def linphone_conference_params_is_chat_enabled (params : ConferenceParams) : Bool :=
  if ConferenceParams.chatEnabled params then true else false

/-! ## Notions used by the statements about stopping, restarting and counting -/

/-- The invariant of `std::map`: the keys are in strictly increasing order, so no
session is listed twice. -/
def sortedTable (m : List (Session × State)) : Prop :=
  m.Pairwise (fun a b => a.1 < b.1)

/-- The local variable `stream` of `getAudioResource`: the audio stream of the
current call, else that of the conference when the core is in conference. -/
def currentStream (env : Env) : Option AudioStream :=
  match env.current_call with
  | some call => call.audioStream
  | none => if env.is_in_conference then env.conference_audio_stream else none

/-- The value an `int` variable holds when it stands for the integer `n`: `n`
reduced to 32 bits in two's complement.  The code only sets the counters of
`LinphoneCoreToneManagerStats` to 0 and increments them with `++`; a field of
the record counts these increments, and the `int` in memory is `toInt32` of the
field, because `++` on an `int` adds one modulo 2^32 (at `INT_MAX` = 2147483647
it gives -2147483648): `toInt32 (n + 1)` is `toInt32 (toInt32 n + 1)`. -/
def toInt32 (n : Int) : Int :=
  (n + 2147483648) % 4294967296 - 2147483648

/-- The values of the seven `int` counters in memory. -/
def intStats (m : LinphoneCoreToneManagerStats) : LinphoneCoreToneManagerStats :=
  { number_of_startRingbackTone := toInt32 m.number_of_startRingbackTone,
    number_of_startRingtone := toInt32 m.number_of_startRingtone,
    number_of_startErrorTone := toInt32 m.number_of_startErrorTone,
    number_of_startNamedTone := toInt32 m.number_of_startNamedTone,
    number_of_stopRingbackTone := toInt32 m.number_of_stopRingbackTone,
    number_of_stopRingtone := toInt32 m.number_of_stopRingtone,
    number_of_stopTone := toInt32 m.number_of_stopTone }

/-- Every `int` counter is below `INT_MAX`. -/
def belowIntMax (m : LinphoneCoreToneManagerStats) : Prop :=
  toInt32 m.number_of_startRingbackTone < 2147483647
  ∧ toInt32 m.number_of_startRingtone < 2147483647
  ∧ toInt32 m.number_of_startErrorTone < 2147483647
  ∧ toInt32 m.number_of_startNamedTone < 2147483647
  ∧ toInt32 m.number_of_stopRingbackTone < 2147483647
  ∧ toInt32 m.number_of_stopRingtone < 2147483647
  ∧ toInt32 m.number_of_stopTone < 2147483647

/-- From `a` to `b` the start counters are the same and each stop counter is the
same or one more. -/
def stopsStep (a b : LinphoneCoreToneManagerStats) : Prop :=
  b.number_of_startRingbackTone = a.number_of_startRingbackTone
  ∧ b.number_of_startRingtone = a.number_of_startRingtone
  ∧ b.number_of_startErrorTone = a.number_of_startErrorTone
  ∧ b.number_of_startNamedTone = a.number_of_startNamedTone
  ∧ (b.number_of_stopRingbackTone = a.number_of_stopRingbackTone
      ∨ b.number_of_stopRingbackTone = a.number_of_stopRingbackTone + 1)
  ∧ (b.number_of_stopRingtone = a.number_of_stopRingtone
      ∨ b.number_of_stopRingtone = a.number_of_stopRingtone + 1)
  ∧ (b.number_of_stopTone = a.number_of_stopTone
      ∨ b.number_of_stopTone = a.number_of_stopTone + 1)

/-- From `a` to `b` the stop counters are the same and each start counter is the
same or one more. -/
def startsStep (a b : LinphoneCoreToneManagerStats) : Prop :=
  (b.number_of_startRingbackTone = a.number_of_startRingbackTone
      ∨ b.number_of_startRingbackTone = a.number_of_startRingbackTone + 1)
  ∧ (b.number_of_startRingtone = a.number_of_startRingtone
      ∨ b.number_of_startRingtone = a.number_of_startRingtone + 1)
  ∧ (b.number_of_startErrorTone = a.number_of_startErrorTone
      ∨ b.number_of_startErrorTone = a.number_of_startErrorTone + 1)
  ∧ (b.number_of_startNamedTone = a.number_of_startNamedTone
      ∨ b.number_of_startNamedTone = a.number_of_startNamedTone + 1)
  ∧ b.number_of_stopRingbackTone = a.number_of_stopRingbackTone
  ∧ b.number_of_stopRingtone = a.number_of_stopRingtone
  ∧ b.number_of_stopTone = a.number_of_stopTone

/-- From `a` to `b` each counter is the same or one more. -/
def statsStep (a b : LinphoneCoreToneManagerStats) : Prop :=
  (b.number_of_startRingbackTone = a.number_of_startRingbackTone
      ∨ b.number_of_startRingbackTone = a.number_of_startRingbackTone + 1)
  ∧ (b.number_of_startRingtone = a.number_of_startRingtone
      ∨ b.number_of_startRingtone = a.number_of_startRingtone + 1)
  ∧ (b.number_of_startErrorTone = a.number_of_startErrorTone
      ∨ b.number_of_startErrorTone = a.number_of_startErrorTone + 1)
  ∧ (b.number_of_startNamedTone = a.number_of_startNamedTone
      ∨ b.number_of_startNamedTone = a.number_of_startNamedTone + 1)
  ∧ (b.number_of_stopRingbackTone = a.number_of_stopRingbackTone
      ∨ b.number_of_stopRingbackTone = a.number_of_stopRingbackTone + 1)
  ∧ (b.number_of_stopRingtone = a.number_of_stopRingtone
      ∨ b.number_of_stopRingtone = a.number_of_stopRingtone + 1)
  ∧ (b.number_of_stopTone = a.number_of_stopTone
      ∨ b.number_of_stopTone = a.number_of_stopTone + 1)

/-- The environment `plainEnv` in which every session reports the call state
`Error`, the transfer state `Idle` and the reason number 486. -/
def erroredEnv : Env :=
  { plainEnv with
    session := fun _ =>
      { state := CallState.Error, transferState := CallState.Idle,
        reason := LinphoneReason.other 486, inConference := false,
        currentOutputAudioDevice := none } }

/-- The environment `callEnv` in which every session reports the call state `End`
and the transfer state `Connected`. -/
def endedCallEnv : Env :=
  { callEnv with
    session := fun _ =>
      { state := CallState.End, transferState := CallState.Connected,
        reason := LinphoneReason.other 0, inConference := false,
        currentOutputAudioDevice := none } }

/-- A tone list with a file for reason `Transferred` and another file for the
reason number 486. -/
def twoErrorTones : List LinphoneToneDescription :=
  [{ reason := LinphoneReason.Transferred, toneid := LinphoneToneID.Undefined,
     audiofile := some "transfer.wav" },
   { reason := LinphoneReason.other 486, toneid := LinphoneToneID.Busy,
     audiofile := some "busy.wav" }]

/-! ## The session table: lookups after writes -/

theorem mapFind_mapAssign_self (m : List (Session × State)) (k : Session) (v : State) :
    mapFind (mapAssign m k v) k = some v := by
  induction m with
  | nil => simp [mapAssign, mapFind]
  | cons e rest ih =>
    obtain ⟨k1, v1⟩ := e
    simp only [mapAssign]
    split_ifs with h1 h2
    · simp [mapFind]
    · simp [mapFind]
    · have h3 : k1 ≠ k := fun h => h2 h.symm
      simp [mapFind, h3, ih]

theorem mapFind_mapAssign_other (m : List (Session × State)) (k k2 : Session) (v : State)
    (h : k2 ≠ k) : mapFind (mapAssign m k v) k2 = mapFind m k2 := by
  induction m with
  | nil => simp [mapAssign, mapFind, h.symm]
  | cons e rest ih =>
    obtain ⟨k1, v1⟩ := e
    simp only [mapAssign]
    split_ifs with h1 h2
    · simp [mapFind, h.symm]
    · subst h2
      simp [mapFind, h.symm]
    · simp [mapFind, ih]

theorem mapFind_mapErase_self (m : List (Session × State)) (k : Session) :
    mapFind (mapErase m k) k = none := by
  induction m with
  | nil => simp [mapErase, mapFind]
  | cons e rest ih =>
    obtain ⟨k1, v1⟩ := e
    by_cases h : k1 = k
    · simpa [mapErase, h] using ih
    · have h2 : mapFind (mapErase rest k) k = none := ih
      simp [mapErase, h, mapFind] at h2 ⊢
      exact h2

theorem mapFind_mapErase_other (m : List (Session × State)) (k k2 : Session) (h : k2 ≠ k) :
    mapFind (mapErase m k) k2 = mapFind m k2 := by
  induction m with
  | nil => simp [mapErase, mapFind]
  | cons e rest ih =>
    obtain ⟨k1, v1⟩ := e
    have ih2 : mapFind (List.filter (fun e => e.1 != k) rest) k2 = mapFind rest k2 := ih
    by_cases h1 : k1 = k
    · subst h1
      simp [mapErase, mapFind, h.symm, ih2]
    · simp [mapErase, h1, mapFind, ih2]

theorem mem_of_mapFind (m : List (Session × State)) (k : Session) (v : State)
    (h : mapFind m k = some v) : (k, v) ∈ m := by
  induction m with
  | nil => simp [mapFind] at h
  | cons e rest ih =>
    obtain ⟨k1, v1⟩ := e
    by_cases h1 : k1 = k
    · subst h1
      simp [mapFind] at h
      simp [h]
    · simp [mapFind, h1] at h
      exact List.mem_cons_of_mem _ (ih h)

theorem getState_setState_self (tm : ToneManager) (s : Session) (st : State) :
    getState (setState s st tm) s = st := by
  simp [getState, setState, mapFind_mapAssign_self]

theorem getState_setState_other (tm : ToneManager) (s t : Session) (st : State) (h : t ≠ s) :
    getState (setState s st tm) t = getState tm t := by
  simp [getState, setState, mapFind_mapAssign_other _ _ _ _ h]

theorem getState_removeSession_self (tm : ToneManager) (s : Session) :
    getState (removeSession s tm) s = State.None := by
  simp [getState, removeSession, mapFind_mapErase_self]

theorem getState_removeSession_other (tm : ToneManager) (s t : Session) (h : t ≠ s) :
    getState (removeSession s tm) t = getState tm t := by
  simp [getState, removeSession, mapFind_mapErase_other _ _ _ h]

theorem getState_congr (tm1 tm2 : ToneManager) (h : tm2.mSessions = tm1.mSessions)
    (s : Session) : getState tm2 s = getState tm1 s := by
  simp [getState, h]

theorem isAnotherSessionInState_congr (tm1 tm2 : ToneManager)
    (h : tm2.mSessions = tm1.mSessions) (s : Session) (st : State) :
    isAnotherSessionInState tm2 s st = isAnotherSessionInState tm1 s st := by
  simp [isAnotherSessionInState, h]

theorem isAnotherSessionInState_of_getState (tm : ToneManager) (s t : Session) (st : State)
    (hne : t ≠ s) (hst : st ≠ State.None) (h : getState tm t = st) :
    isAnotherSessionInState tm s st = true := by
  have hf : mapFind tm.mSessions t = some st := by
    unfold getState at h
    split at h
    · rename_i v hv
      rw [hv, h]
    · exact absurd h.symm hst
  have hm := mem_of_mapFind _ _ _ hf
  simp only [isAnotherSessionInState, List.any_eq_true]
  exact ⟨(t, st), hm, by simp [hne]⟩

/-! ## Composition of frames -/

theorem AudioOnly.same (tm : ToneManager) : AudioOnly tm tm :=
  ⟨Eq.refl _, Eq.refl _, Eq.refl _, Eq.refl _⟩

theorem AudioOnly.andThen {a b c : ToneManager} (h1 : AudioOnly a b) (h2 : AudioOnly b c) :
    AudioOnly a c :=
  ⟨h2.mSessions.trans h1.mSessions, h2.mStats.trans h1.mStats, h2.tones.trans h1.tones,
    h2.mDtmfStreamStarted.trans h1.mDtmfStreamStarted⟩

theorem Emits.nothing (P : Cmd → Prop) (tm : ToneManager) : Emits P tm tm :=
  ⟨[], by simp, by simp⟩

theorem Emits.append {P : Cmd → Prop} {a b c : ToneManager} (h1 : Emits P a b)
    (h2 : Emits P b c) : Emits P a c := by
  obtain ⟨l1, e1, p1⟩ := h1
  obtain ⟨l2, e2, p2⟩ := h2
  refine ⟨l1 ++ l2, ?_, ?_⟩
  · rw [e2, e1, List.append_assoc]
  · intro x hx
    rcases List.mem_append.mp hx with h | h
    · exact p1 x h
    · exact p2 x h

theorem Emits.weaken {P Q : Cmd → Prop} {a b : ToneManager} (hPQ : ∀ c, P c → Q c)
    (h : Emits P a b) : Emits Q a b := by
  obtain ⟨l, e, p⟩ := h
  exact ⟨l, e, fun c hc => hPQ c (p c hc)⟩

theorem Emits.single {P : Cmd → Prop} (c : Cmd) (tm : ToneManager) (h : P c) :
    Emits P tm (emit c tm) :=
  ⟨[c], Eq.refl _, by simpa using h⟩

theorem Keeps.unchanged (P : Cmd → Prop) (tm : ToneManager) : Keeps P tm tm :=
  ⟨AudioOnly.same tm, Eq.refl _, Emits.nothing P tm⟩

theorem Keeps.comp {P : Cmd → Prop} {a b c : ToneManager} (h1 : Keeps P a b)
    (h2 : Keeps P b c) : Keeps P a c :=
  ⟨h1.audio.andThen h2.audio, h2.player.trans h1.player, h1.emits.append h2.emits⟩

theorem Keeps.relax {P Q : Cmd → Prop} {a b : ToneManager} (hPQ : ∀ c, P c → Q c)
    (h : Keeps P a b) : Keeps Q a b :=
  ⟨h.audio, h.player, h.emits.weaken hPQ⟩

theorem Keeps.command {P : Cmd → Prop} (c : Cmd) (tm : ToneManager) (h : P c) :
    Keeps P tm (emit c tm) :=
  ⟨⟨Eq.refl _, Eq.refl _, Eq.refl _, Eq.refl _⟩, Eq.refl _, Emits.single c tm h⟩

theorem Keeps.ring_stop {P : Cmd → Prop} (tm : ToneManager) (h : P Cmd.ring_stop) :
    Keeps P tm (ring_stop tm) :=
  ⟨⟨Eq.refl _, Eq.refl _, Eq.refl _, Eq.refl _⟩, Eq.refl _, ⟨[Cmd.ring_stop], Eq.refl _, by simpa using h⟩⟩

theorem Keeps.ring_start {P : Cmd → Prop} (file : Option String) (interval : Int)
    (card : Option SndCard) (tm : ToneManager) (h : P (Cmd.ring_start file interval card)) :
    Keeps P tm (ring_start file interval card tm) :=
  ⟨⟨Eq.refl _, Eq.refl _, Eq.refl _, Eq.refl _⟩, Eq.refl _,
    ⟨[Cmd.ring_start file interval card], Eq.refl _, by simpa using h⟩⟩

/-! ## What the resource functions leave alone -/

theorem getAudioResource_fields (env : Env) (rtype : AudioResourceType)
    (card : Option SndCard) (create : Bool) (tm : ToneManager) :
    (getAudioResource env rtype card create tm).2.mSessions = tm.mSessions
    ∧ (getAudioResource env rtype card create tm).2.mStats = tm.mStats
    ∧ (getAudioResource env rtype card create tm).2.tones = tm.tones
    ∧ (getAudioResource env rtype card create tm).2.mDtmfStreamStarted = tm.mDtmfStreamStarted
    ∧ (getAudioResource env rtype card create tm).2.ringtoneplayer_started
        = tm.ringtoneplayer_started
    ∧ (getAudioResource env rtype card create tm).2.mTimer = tm.mTimer
    ∧ ∃ cmds : List Cmd,
        (getAudioResource env rtype card create tm).2.engine = tm.engine ++ cmds
        ∧ ∀ c ∈ cmds, c.isRingtoneStart = false ∧ ((!create) = true → c.isPlay = false) := by
  unfold getAudioResource
  simp only []
  repeat' split
  all_goals
    simp_all [createRingStream, ring_start, ring_stop, emit, Cmd.isRingtoneStart, Cmd.isPlay]

theorem getAudioResource_spec (env : Env) (rtype : AudioResourceType)
    (card : Option SndCard) (create : Bool) (tm : ToneManager) :
    Keeps (calm (!create)) tm (getAudioResource env rtype card create tm).2
    ∧ (getAudioResource env rtype card create tm).2.mTimer = tm.mTimer := by
  obtain ⟨h1, h2, h3, h4, h5, h6, h7⟩ := getAudioResource_fields env rtype card create tm
  exact ⟨⟨⟨h1, h2, h3, h4⟩, h5, h7⟩, h6⟩

theorem getAudioResource_keeps (env : Env) (rtype : AudioResourceType)
    (card : Option SndCard) (create : Bool) (tm : ToneManager) :
    Keeps (calm (!create)) tm (getAudioResource env rtype card create tm).2 :=
  (getAudioResource_spec env rtype card create tm).1

theorem calm_weaken (q : Bool) (c : Cmd) (h : calm q c) : calm false c :=
  ⟨h.1, by simp⟩

theorem doStopRingbackTone_keeps (tm : ToneManager) :
    Keeps (calm true) tm (doStopRingbackTone tm) := by
  unfold doStopRingbackTone
  split
  · exact Keeps.ring_stop tm ⟨by rfl, fun _ => by rfl⟩
  · exact Keeps.unchanged _ tm

theorem doStopTone_keeps (env : Env) (tm : ToneManager) :
    Keeps (calm true) tm (doStopTone env tm) := by
  unfold doStopTone
  simp only []
  have h1 := doStopRingbackTone_keeps tm
  split
  · have h2 := getAudioResource_keeps env AudioResourceType.LocalPlayer env.play_sndcard false
      (doStopRingbackTone tm)
    have h3 : Keeps (calm true) tm
        (match (getAudioResource env AudioResourceType.LocalPlayer env.play_sndcard false
            (doStopRingbackTone tm)).1 with
          | some f => emit (Cmd.ms_filter_call_method f Method.MS_PLAYER_CLOSE)
              (getAudioResource env AudioResourceType.LocalPlayer env.play_sndcard false
                (doStopRingbackTone tm)).2
          | none => (getAudioResource env AudioResourceType.LocalPlayer env.play_sndcard false
                (doStopRingbackTone tm)).2) := by
      split
      · exact (h1.comp h2).comp (Keeps.command _ _ ⟨by rfl, fun _ => by rfl⟩)
      · exact h1.comp h2
    have h4 := getAudioResource_keeps env AudioResourceType.ToneGenerator none false
    split
    · exact (h3.comp (h4 _)).comp (Keeps.command _ _ ⟨by rfl, fun _ => by rfl⟩)
    · exact h3.comp (h4 _)
  · exact h1

theorem calm_false_emit (c : Cmd) (tm : ToneManager) (h : c.isRingtoneStart = false) :
    Keeps (calm false) tm (emit c tm) :=
  Keeps.command c tm ⟨h, by simp⟩

theorem createTimerToCleanTonePlayer_keeps (delay : Nat) (tm : ToneManager) :
    Keeps (calm false) tm (createTimerToCleanTonePlayer delay tm) := by
  unfold createTimerToCleanTonePlayer
  split
  · exact ⟨⟨Eq.refl _, Eq.refl _, Eq.refl _, Eq.refl _⟩, Eq.refl _,
      ⟨[Cmd.createTimer delay], Eq.refl _, by simp [calm, Cmd.isRingtoneStart]⟩⟩
  · exact Keeps.unchanged _ tm

theorem playFile_keeps (env : Env) (audiofile : String) (tm : ToneManager) :
    Keeps (calm false) tm (playFile env audiofile tm).2 := by
  unfold playFile
  simp only []
  have h0 := (getAudioResource_keeps env AudioResourceType.LocalPlayer env.play_sndcard true
    tm).relax (calm_weaken _)
  split
  · exact h0
  · rename_i f hf
    have h1 := h0.comp (calm_false_emit (Cmd.ms_filter_call_method f
      (Method.MS_PLAYER_SET_LOOP (-1))) _ (by rfl))
    have h2 := h1.comp (calm_false_emit (Cmd.ms_filter_call_method f
      (Method.MS_PLAYER_OPEN audiofile)) _ (by rfl))
    split
    · exact h2
    · have h3 := h2.comp (calm_false_emit (Cmd.ms_filter_call_method f
        Method.MS_PLAYER_START) _ (by rfl))
      split
      · split
        · exact h3.comp (calm_false_emit _ _ (by rfl))
        · exact h3
      · exact h3

theorem playTone_keeps (env : Env) (session : Session) (tone : MSDtmfGenCustomTone)
    (tm : ToneManager) : Keeps (calm false) tm (playTone env session tone tm) := by
  unfold playTone
  simp only []
  have h0 := (getAudioResource_keeps env AudioResourceType.ToneGenerator
    (playToneCard env session) true tm).relax (calm_weaken _)
  split
  · exact h0
  · rename_i f hf
    split
    · have h1 := h0.comp (calm_false_emit (Cmd.ms_filter_call_method f
        (Method.MS_DTMF_GEN_PLAY_CUSTOM tone)) _ (by rfl))
      have h2 := h1.comp (calm_false_emit (Cmd.ms_filter_remove_notify_callback f
        Callback.on_play_tone_end) _ (by rfl))
      have h3 := h2.comp (calm_false_emit (Cmd.ms_filter_add_notify_callback f
        Callback.on_play_tone_end) _ (by rfl))
      split
      · exact h3.comp (createTimerToCleanTonePlayer_keeps _ _)
      · exact h3
    · exact h0

theorem doStartNamedTone_keeps (env : Env) (session : Session) (toneId : LinphoneToneID)
    (tm : ToneManager) : Keeps (calm false) tm (doStartNamedTone env session toneId tm) := by
  unfold doStartNamedTone
  split
  · split
    · exact playFile_keeps env _ tm
    · exact playTone_keeps env session _ tm
  · exact playTone_keeps env session _ tm

theorem doStartErrorTone_keeps (env : Env) (session : Session) (reason : LinphoneReason)
    (tm : ToneManager) : Keeps (calm false) tm (doStartErrorTone env session reason tm) := by
  unfold doStartErrorTone
  split
  · split
    · exact playFile_keeps env _ tm
    · split
      · exact playTone_keeps env session _ tm
      · exact Keeps.unchanged _ tm
  · exact Keeps.unchanged _ tm

theorem doStartRingbackTone_keeps (env : Env) (session : Session) (tm : ToneManager) :
    Keeps (calm false) tm (doStartRingbackTone env session tm) := by
  unfold doStartRingbackTone
  split
  · exact Keeps.unchanged _ tm
  · simp only []
    split
    · exact (calm_false_emit _ tm (by rfl)).comp
        (Keeps.ring_start _ _ _ _ ⟨by rfl, by simp⟩)
    · exact Keeps.unchanged _ tm

theorem linphone_ringtoneplayer_stop_spec (tm : ToneManager) :
    AudioOnly tm (linphone_ringtoneplayer_stop tm)
    ∧ Emits (calm true) tm (linphone_ringtoneplayer_stop tm)
    ∧ (linphone_ringtoneplayer_stop tm).ringtoneplayer_started = false :=
  ⟨⟨Eq.refl _, Eq.refl _, Eq.refl _, Eq.refl _⟩,
    ⟨[Cmd.linphone_ringtoneplayer_stop], Eq.refl _,
      by simp [calm, Cmd.isRingtoneStart, Cmd.isPlay]⟩, Eq.refl _⟩

theorem doStopAllTones_spec (env : Env) (tm : ToneManager) :
    AudioOnly tm (doStopAllTones env tm)
    ∧ Emits (calm true) tm (doStopAllTones env tm)
    ∧ (doStopAllTones env tm).ringtoneplayer_started = false := by
  unfold doStopAllTones
  simp only []
  have h := doStopTone_keeps env tm
  split
  · have h2 := linphone_ringtoneplayer_stop_spec (doStopTone env tm)
    exact ⟨h.audio.andThen h2.1, h.emits.append h2.2.1, h2.2.2⟩
  · rename_i hs
    exact ⟨h.audio, h.emits, by simpa using hs⟩

theorem doStopRingtone_spec (env : Env) (session : Session) (tm : ToneManager) :
    AudioOnly tm (doStopRingtone env session tm)
    ∧ Emits (calm true) tm (doStopRingtone env session tm) := by
  unfold doStopRingtone
  split
  · exact ⟨(doStopTone_keeps env tm).audio, (doStopTone_keeps env tm).emits⟩
  · split
    · exact ⟨(linphone_ringtoneplayer_stop_spec tm).1, (linphone_ringtoneplayer_stop_spec tm).2.1⟩
    · exact ⟨AudioOnly.same tm, Emits.nothing _ tm⟩

theorem doStartRingtone_audio (env : Env) (session : Session) (tm : ToneManager) :
    AudioOnly tm (doStartRingtone env session tm) := by
  unfold doStartRingtone
  split
  · split
    · exact (doStartNamedTone_keeps env session _ tm).audio
    · exact AudioOnly.same tm
  · simp only []
    split
    · split
      · split
        · exact ⟨Eq.refl _, Eq.refl _, Eq.refl _, Eq.refl _⟩
        · exact AudioOnly.same tm
      · exact AudioOnly.same tm
    · exact AudioOnly.same tm

/-! ## Further facts about the table and the stop path -/

theorem any_mapAssign_other (m : List (Session × State)) (k : Session) (v st : State) :
    (mapAssign m k v).any (fun it => it.2 == st && it.1 != k)
      = m.any (fun it => it.2 == st && it.1 != k) := by
  induction m with
  | nil => simp [mapAssign]
  | cons e rest ih =>
    obtain ⟨k1, v1⟩ := e
    simp only [mapAssign]
    split_ifs with h1 h2
    · simp
    · subst h2
      simp
    · simp only [List.any_cons, ih]

theorem isAnotherSessionInState_setState_self (tm : ToneManager) (s : Session)
    (v st : State) :
    isAnotherSessionInState (setState s v tm) s st = isAnotherSessionInState tm s st := by
  simp only [isAnotherSessionInState, setState]
  exact any_mapAssign_other tm.mSessions s v st

theorem isAnotherSessionInState_eq_false (tm : ToneManager) (s : Session) (st : State)
    (h : ∀ e ∈ tm.mSessions, e.1 ≠ s → e.2 ≠ st) :
    isAnotherSessionInState tm s st = false := by
  simp only [isAnotherSessionInState, List.any_eq_false]
  intro e he
  by_cases h1 : e.1 = s
  · simp [h1]
  · simp [h e he h1]

theorem getState_setState_same (tm : ToneManager) (s t : Session) (st : State)
    (h : getState tm s = st) : getState (setState s st tm) t = getState tm t := by
  by_cases e : t = s
  · subst e
    rw [getState_setState_self, h]
  · exact getState_setState_other tm s t st e

theorem getState_after_setState (tm1 tm2 : ToneManager) (h : tm2.mSessions = tm1.mSessions)
    (s t : Session) (newState : State) :
    getState (setState s newState tm2) s = newState
    ∧ (t ≠ s → getState (setState s newState tm2) t = getState tm1 t) :=
  ⟨getState_setState_self tm2 s newState, fun ht =>
    (getState_setState_other tm2 s t newState ht).trans (getState_congr tm1 tm2 h t)⟩

theorem doStop_getState (env : Env) (tm : ToneManager) (s : Session) (newState : State) :
    (if getState tm s = State.None then doStop env s newState tm = tm
      else getState (doStop env s newState tm) s = newState)
    ∧ ∀ t, t ≠ s → getState (doStop env s newState tm) t = getState tm t := by
  cases h : getState tm s
  · simp [doStop, h]
  · have hm : (if isAnotherSessionInState tm s State.Ringtone = true then
          incStopTone (doStopTone env tm) else tm).mSessions = tm.mSessions := by
      split
      · exact (doStopTone_keeps env tm).audio.mSessions
      · rfl
    simp only [doStop, h]
    exact ⟨by simpa using (getState_after_setState tm _ hm s s newState).1,
      fun t ht => (getState_after_setState tm _ hm s t newState).2 ht⟩
  · have hm := (doStopRingbackTone_keeps tm).audio.mSessions
    simp only [doStop, h]
    exact ⟨by simpa using (getState_after_setState tm _ hm s s newState).1,
      fun t ht => (getState_after_setState tm _ hm s t newState).2 ht⟩
  · have hm := (doStopRingtone_spec env s tm).1.mSessions
    simp only [doStop, h]
    exact ⟨by simpa using (getState_after_setState tm _ hm s s newState).1,
      fun t ht => (getState_after_setState tm _ hm s t newState).2 ht⟩
  · have hm := (doStopTone_keeps env tm).audio.mSessions
    simp only [doStop, h]
    exact ⟨by simpa using (getState_after_setState tm _ hm s s newState).1,
      fun t ht => (getState_after_setState tm _ hm s t newState).2 ht⟩

theorem Emits.of_engine_eq {P : Cmd → Prop} {a b : ToneManager} (h : b.engine = a.engine) :
    Emits P a b :=
  ⟨[], by simp [h], by simp⟩

theorem getState_runTableOps_none (ops : List TableOp) (s : Session) (tm : ToneManager)
    (h0 : getState tm s = State.None) (h : ∀ st, TableOp.setState s st ∉ ops) :
    getState (runTableOps ops tm) s = State.None := by
  induction ops generalizing tm with
  | nil => simpa [runTableOps] using h0
  | cons op rest ih =>
    have hrest : ∀ st, TableOp.setState s st ∉ rest := fun st hm =>
      h st (List.mem_cons_of_mem _ hm)
    have hstep : getState (op.run tm) s = State.None := by
      cases op with
      | setState t st =>
        have hts : s ≠ t := by
          intro e
          subst e
          exact h st (List.mem_cons_self _ _)
        simpa [TableOp.run, getState_setState_other _ _ _ _ hts] using h0
      | removeSession t =>
        by_cases e : s = t
        · subst e
          simp [TableOp.run, getState_removeSession_self]
        · simpa [TableOp.run, getState_removeSession_other _ _ _ e] using h0
    simpa [runTableOps] using ih (op.run tm) hstep hrest

theorem runTableOps_append (l1 l2 : List TableOp) (tm : ToneManager) :
    runTableOps (l1 ++ l2) tm = runTableOps l2 (runTableOps l1 tm) := by
  simp [runTableOps]

/-! ## The claims -/

/-- Claim C1, evaluated on the code: the claim says that no reachable state has the
ringtone player started while a ringback ring stream is active.  Here session 1
starts its ringback, session 2 starts a ringtone (silent, because of the ringback),
session 3 is updated while 2 rings, which plays the call-waiting tone on the
generator of the ringback stream, and the end of that tone runs `updateRings`:
the ringtone player is started and the ringback stream is still active.  The
same overlap is reached without any callback when a ringing session is updated
to `StreamsRunning` while an in-conference session is in `Ringback`. -/
theorem C1_rings_overlap_after_updateRings :
    ringsExclusive (runOps
        [(updatingEnv, Op.startRingbackTone 1), (updatingEnv, Op.startRingtone 2),
         (updatingEnv, Op.update 3)]
        (ToneManager.create [])) = true
    ∧ Cmd.ms_filter_add_notify_callback Filter.ring_gendtmf Callback.on_play_tone_end ∈
        (runOps
          [(updatingEnv, Op.startRingbackTone 1), (updatingEnv, Op.startRingtone 2),
           (updatingEnv, Op.update 3)]
          (ToneManager.create [])).engine
    ∧ (runOps
        [(updatingEnv, Op.startRingbackTone 1), (updatingEnv, Op.startRingtone 2),
         (updatingEnv, Op.update 3), (updatingEnv, Op.onPlayToneEnd EventId.MS_DTMF_GEN_END)]
        (ToneManager.create [])).ringtoneplayer_started = true
    ∧ ringbackActive (runOps
        [(updatingEnv, Op.startRingbackTone 1), (updatingEnv, Op.startRingtone 2),
         (updatingEnv, Op.update 3), (updatingEnv, Op.onPlayToneEnd EventId.MS_DTMF_GEN_END)]
        (ToneManager.create [])) = true
    ∧ ringsExclusive (runOps
        [(updatingEnv, Op.startRingbackTone 1), (updatingEnv, Op.startRingtone 2),
         (updatingEnv, Op.update 3), (updatingEnv, Op.onPlayToneEnd EventId.MS_DTMF_GEN_END)]
        (ToneManager.create [])) = false
    ∧ ringsExclusive (runOps
        [(answeredEnv, Op.startRingtone 2), (answeredEnv, Op.startRingbackTone 1),
         (answeredEnv, Op.update 2)]
        (ToneManager.create [])) = false := by
  decide

/-- Claim C2: after any sequence of `setState` and `removeSession` calls on an empty
session table, `getState s` is `None` for a session `s` that no `setState` of the
sequence names, and for a session whose last call in the sequence is
`removeSession s` (no `setState s` comes after it). -/
theorem C2_getState_of_removed_or_never_set (ops : List TableOp) (s : Session)
    (tm : ToneManager) (hempty : tm.mSessions = [])
    (h : (∀ st, TableOp.setState s st ∉ ops)
      ∨ ∃ before after, ops = before ++ TableOp.removeSession s :: after
          ∧ ∀ st, TableOp.setState s st ∉ after) :
    getState (runTableOps ops tm) s = State.None := by
  rcases h with h | ⟨before, after, rfl, h⟩
  · exact getState_runTableOps_none ops s tm (by simp [getState, hempty, mapFind]) h
  · rw [runTableOps_append]
    have h1 : runTableOps (TableOp.removeSession s :: after) (runTableOps before tm)
        = runTableOps after (removeSession s (runTableOps before tm)) := by
      simp [runTableOps, TableOp.run]
    rw [h1]
    exact getState_runTableOps_none after s _ (getState_removeSession_self _ _) h

/-- Claim C2 at a concrete sequence: session 1 is set, removed, and then another
session is set. -/
theorem C2_getState_of_removed_or_never_set_witness :
    getState (runTableOps
      [TableOp.setState 1 State.Ringtone, TableOp.removeSession 1, TableOp.setState 2 State.Call]
      (ToneManager.create [])) 1 = State.None
    ∧ getState (runTableOps
      [TableOp.setState 1 State.Ringtone, TableOp.removeSession 1, TableOp.setState 2 State.Call]
      (ToneManager.create [])) 2 = State.Call :=
  ⟨C2_getState_of_removed_or_never_set _ 1 (ToneManager.create []) (Eq.refl _)
    (Or.inr ⟨[TableOp.setState 1 State.Ringtone], [TableOp.setState 2 State.Call], Eq.refl _,
      fun st => by simp⟩), by decide⟩

/-- Claim C3: after `setState s st`, `getState s` is `st`, `getState t` is what it
was for every other session `t`, and nothing but the table differs.  `getState`
is a function of the state that returns only the tone state: the source method
only calls `find`, so there is no table afterwards to compare. -/
theorem C3_setState_upserts_one_entry (tm : ToneManager) (s : Session) (st : State) :
    getState (setState s st tm) s = st
    ∧ (∀ t, t ≠ s → getState (setState s st tm) t = getState tm t)
    ∧ { setState s st tm with mSessions := tm.mSessions } = tm :=
  ⟨getState_setState_self tm s st, fun t h => getState_setState_other tm s t st h, Eq.refl _⟩

/-- Claim C3 at a concrete table: setting session 2 leaves session 1 in `Call`. -/
theorem C3_setState_upserts_one_entry_witness :
    getState (setState 2 State.Tone (setState 1 State.Call (ToneManager.create []))) 2 = State.Tone
    ∧ getState (setState 2 State.Tone (setState 1 State.Call (ToneManager.create []))) 1
        = State.Call :=
  ⟨(C3_setState_upserts_one_entry (setState 1 State.Call (ToneManager.create [])) 2
      State.Tone).1,
    ((C3_setState_upserts_one_entry (setState 1 State.Call (ToneManager.create [])) 2
      State.Tone).2.1 1 (by decide)).trans (by decide)⟩

/-- Claim C4 fails on the code: with session 1 the only session, in `Ringback` with
its ringback playing, `startRingtone 2` leaves the ring stream in place and does
not start the ringtone player. -/
theorem C4_counterexample :
    (startRingbackTone plainEnv 1 (ToneManager.create [])).mSessions = [(1, State.Ringback)]
    ∧ ringbackActive (startRingbackTone plainEnv 1 (ToneManager.create [])) = true
    ∧ (startRingtone plainEnv 2
        (startRingbackTone plainEnv 1 (ToneManager.create []))).ringstream ≠ none
    ∧ (startRingtone plainEnv 2
        (startRingbackTone plainEnv 1 (ToneManager.create []))).ringtoneplayer_started
        = false := by
  decide

/-- Claim C4 as amended: when session `A` is the only session, is in `Ringback` and
its ringback is playing, `startRingtone B` for another session `B` only writes
the table: the ringback keeps playing, the ringtone player, the engine log and
the counters are unchanged, `A` stays `Ringback` and `B` becomes `Ringtone`. -/
theorem C4_ringtone_silent_beside_ringback (env : Env) (tm : ToneManager) (A B : Session)
    (hAB : B ≠ A) (hA : tm.mSessions = [(A, State.Ringback)])
    (hr : ringbackActive tm = true) :
    startRingtone env B tm = setState B State.Ringtone tm
    ∧ ringbackActive (startRingtone env B tm) = true
    ∧ (startRingtone env B tm).ringstream = tm.ringstream
    ∧ (startRingtone env B tm).ringtoneplayer_started = tm.ringtoneplayer_started
    ∧ (startRingtone env B tm).engine = tm.engine
    ∧ (startRingtone env B tm).mStats = tm.mStats
    ∧ getState (startRingtone env B tm) A = State.Ringback
    ∧ getState (startRingtone env B tm) B = State.Ringtone := by
  have hgA : getState tm A = State.Ringback := by simp [getState, hA, mapFind]
  have hgA2 : getState (setState B State.Ringtone tm) A = State.Ringback := by
    rw [getState_setState_other tm B A _ (Ne.symm hAB), hgA]
  have hb : isAnotherSessionInState (setState B State.Ringtone tm) B State.Ringback = true :=
    isAnotherSessionInState_of_getState _ B A _ (Ne.symm hAB) (by decide) hgA2
  have he : startRingtone env B tm = setState B State.Ringtone tm := by
    simp [startRingtone, hb]
  rw [he]
  exact ⟨Eq.refl _, hr, Eq.refl _, Eq.refl _, Eq.refl _, Eq.refl _, hgA2,
    getState_setState_self tm B _⟩

/-- Claim C4 as amended, at sessions 1 and 2 after `startRingbackTone 1`. -/
theorem C4_ringtone_silent_beside_ringback_witness :
    ringbackActive (startRingtone plainEnv 2
      (startRingbackTone plainEnv 1 (ToneManager.create []))) = true
    ∧ (startRingtone plainEnv 2
      (startRingbackTone plainEnv 1 (ToneManager.create []))).ringtoneplayer_started = false :=
  ⟨(C4_ringtone_silent_beside_ringback plainEnv
      (startRingbackTone plainEnv 1 (ToneManager.create [])) 1 2 (by decide) (by decide)
      (by decide)).2.1,
    ((C4_ringtone_silent_beside_ringback plainEnv
      (startRingbackTone plainEnv 1 (ToneManager.create [])) 1 2 (by decide) (by decide)
      (by decide)).2.2.2.1).trans (by decide)⟩

/-- Claim C5: when session `A` is in `Call` and no table entry other than that of
`B` is in `Ringtone` or `Ringback`, `startRingtone B` records `B` as `Ringtone`,
leaves the ringtone player stopped and issues no command starting it; it runs
`doStartNamedTone` for the call-waiting tone after `doStopAllTones` when tone
indications are enabled, and when they are disabled it issues no command that
starts playback. -/
theorem C5_ringtone_during_call (env : Env) (tm : ToneManager) (A B : Session)
    (hAB : A ≠ B) (hA : getState tm A = State.Call)
    (hno : ∀ e ∈ tm.mSessions, e.1 ≠ B → e.2 ≠ State.Ringtone ∧ e.2 ≠ State.Ringback) :
    getState (startRingtone env B tm) B = State.Ringtone
    ∧ (startRingtone env B tm).ringtoneplayer_started = false
    ∧ Emits (fun c => c.isRingtoneStart = false) tm (startRingtone env B tm)
    ∧ startRingtone env B tm = incStartRingtone
        (if env.tone_indications_enabled then
          doStartNamedTone env B LinphoneToneID.CallWaiting
            (doStopAllTones env (setState B State.Ringtone tm))
         else doStopAllTones env (setState B State.Ringtone tm))
    ∧ (env.tone_indications_enabled = false →
        Emits (fun c => c.isPlay = false) tm (startRingtone env B tm)) := by
  have h1 : isAnotherSessionInState (setState B State.Ringtone tm) B State.Ringtone = false := by
    rw [isAnotherSessionInState_setState_self]
    exact isAnotherSessionInState_eq_false tm B _ (fun e he hb => (hno e he hb).1)
  have h2 : isAnotherSessionInState (setState B State.Ringtone tm) B State.Ringback = false := by
    rw [isAnotherSessionInState_setState_self]
    exact isAnotherSessionInState_eq_false tm B _ (fun e he hb => (hno e he hb).2)
  obtain ⟨ha, he, hp⟩ := doStopAllTones_spec env (setState B State.Ringtone tm)
  have h3 : isAnotherSessionInState (doStopAllTones env (setState B State.Ringtone tm)) B
      State.Call = true := by
    rw [isAnotherSessionInState_congr _ _ ha.mSessions, isAnotherSessionInState_setState_self]
    exact isAnotherSessionInState_of_getState tm B A _ hAB (by decide) hA
  have heq : startRingtone env B tm = incStartRingtone
        (if env.tone_indications_enabled then
          doStartNamedTone env B LinphoneToneID.CallWaiting
            (doStopAllTones env (setState B State.Ringtone tm))
         else doStopAllTones env (setState B State.Ringtone tm)) := by
    simp [startRingtone, h1, h2, doStartRingtone, h3]
  have hk := doStartNamedTone_keeps env B LinphoneToneID.CallWaiting
    (doStopAllTones env (setState B State.Ringtone tm))
  have he0 : Emits (calm true) tm (doStopAllTones env (setState B State.Ringtone tm)) :=
    (Emits.of_engine_eq (Eq.refl _)).append he
  refine ⟨?_, ?_, ?_, heq, ?_⟩
  · rw [heq]
    cases env.tone_indications_enabled
    · exact (getState_congr _ _ ha.mSessions B).trans (getState_setState_self tm B _)
    · exact (getState_congr _ _ (ha.andThen hk.audio).mSessions B).trans
        (getState_setState_self tm B _)
  · rw [heq]
    cases env.tone_indications_enabled
    · exact hp
    · exact hk.player.trans hp
  · rw [heq]
    cases env.tone_indications_enabled
    · exact (he0.weaken (fun c hc => hc.1)).append (Emits.of_engine_eq (Eq.refl _))
    · exact ((he0.weaken (fun c hc => hc.1)).append (hk.emits.weaken (fun c hc => hc.1))).append
        (Emits.of_engine_eq (Eq.refl _))
  · intro hd
    rw [heq, hd]
    exact (he0.weaken (fun c hc => hc.2 (Eq.refl _))).append (Emits.of_engine_eq (Eq.refl _))

/-- Claim C5 at a concrete state: session 1 in a running call, session 2 rings; the
call-waiting tone is played on the tone generator of the call. -/
theorem C5_ringtone_during_call_witness :
    getState (startRingtone callEnv 2 (setState 1 State.Call (ToneManager.create []))) 2
      = State.Ringtone
    ∧ (startRingtone callEnv 2
        (setState 1 State.Call (ToneManager.create []))).ringtoneplayer_started = false
    ∧ (startRingtone callEnv 2 (setState 1 State.Call (ToneManager.create []))).engine
      = [Cmd.ms_filter_call_method Filter.stream_local_player Method.MS_PLAYER_CLOSE,
         Cmd.ms_filter_call_method Filter.stream_dtmfgen Method.MS_DTMF_GEN_STOP,
         Cmd.ms_filter_call_method Filter.stream_dtmfgen
           (Method.MS_DTMF_GEN_PLAY_CUSTOM (generateToneFromId LinphoneToneID.CallWaiting)),
         Cmd.ms_filter_remove_notify_callback Filter.stream_dtmfgen Callback.on_play_tone_end,
         Cmd.ms_filter_add_notify_callback Filter.stream_dtmfgen Callback.on_play_tone_end] :=
  ⟨(C5_ringtone_during_call callEnv (setState 1 State.Call (ToneManager.create [])) 1 2
      (by decide) (by decide) (by decide)).1,
    (C5_ringtone_during_call callEnv (setState 1 State.Call (ToneManager.create [])) 1 2
      (by decide) (by decide) (by decide)).2.1,
    by decide⟩

/-- Claim C6: with tone indications disabled, `startErrorTone s reason` sets `s` to
`Tone` and leaves the statistics, the engine log, the ring stream, the ringtone
player and the timer as they were. -/
theorem C6_error_tone_disabled (env : Env) (tm : ToneManager) (s : Session)
    (reason : LinphoneReason) (h : env.tone_indications_enabled = false) :
    getState (startErrorTone env s reason tm) s = State.Tone
    ∧ (startErrorTone env s reason tm).mStats = tm.mStats
    ∧ (startErrorTone env s reason tm).engine = tm.engine
    ∧ (startErrorTone env s reason tm).ringstream = tm.ringstream
    ∧ (startErrorTone env s reason tm).ringtoneplayer_started = tm.ringtoneplayer_started
    ∧ (startErrorTone env s reason tm).mTimer = tm.mTimer := by
  have he : startErrorTone env s reason tm = setState s State.Tone tm := by
    simp [startErrorTone, h]
  rw [he]
  exact ⟨getState_setState_self tm s _, Eq.refl _, Eq.refl _, Eq.refl _, Eq.refl _, Eq.refl _⟩

/-- Claim C6 at a concrete state: session 2 rings, session 1 gets an error tone
with tone indications disabled; the ringtone keeps playing. -/
theorem C6_error_tone_disabled_witness :
    getState (startErrorTone quietEnv 1 (LinphoneReason.other 0)
      (startRingtone quietEnv 2 (ToneManager.create []))) 1 = State.Tone
    ∧ (startErrorTone quietEnv 1 (LinphoneReason.other 0)
      (startRingtone quietEnv 2 (ToneManager.create []))).ringtoneplayer_started = true :=
  ⟨(C6_error_tone_disabled quietEnv (startRingtone quietEnv 2 (ToneManager.create [])) 1
      (LinphoneReason.other 0) (Eq.refl _)).1,
    ((C6_error_tone_disabled quietEnv (startRingtone quietEnv 2 (ToneManager.create [])) 1
      (LinphoneReason.other 0) (Eq.refl _)).2.2.2.2.1).trans (by decide)⟩

/-- Claim C7: `startRingbackTone s` on a session already in `Ringback` returns the
state unchanged: table, counters, resources and engine log. -/
theorem C7_reentrant_ringback (env : Env) (tm : ToneManager) (s : Session)
    (h : getState tm s = State.Ringback) : startRingbackTone env s tm = tm := by
  simp [startRingbackTone, h]

/-- Claim C7 at a concrete state: a second `startRingbackTone 1`. -/
theorem C7_reentrant_ringback_witness :
    startRingbackTone plainEnv 1 (startRingbackTone plainEnv 1 (ToneManager.create []))
      = startRingbackTone plainEnv 1 (ToneManager.create []) :=
  C7_reentrant_ringback plainEnv (startRingbackTone plainEnv 1 (ToneManager.create [])) 1
    (by decide)

/-- Claim C9 fails on the code: `goToCall` on a session absent from the table
leaves it in `None`. -/
theorem C9_counterexample :
    getState (ToneManager.create []) 1 = State.None
    ∧ getState (goToCall plainEnv 1 (ToneManager.create [])) 1 ≠ State.Call := by
  decide

/-- Claim C9 as amended: `goToCall s` drives `s` to `Call` from `Call`, `Ringback`,
`Ringtone` and `Tone`; from `None` (also a session absent from the table) it
changes nothing. -/
theorem C9_goToCall_from_tone_state (env : Env) (tm : ToneManager) (s : Session) :
    if getState tm s = State.None then goToCall env s tm = tm
    else getState (goToCall env s tm) s = State.Call :=
  (doStop_getState env tm s State.Call).1

/-- Claim C10: after `stop s`, `getState s` is `None` and `getState t` is unchanged
for every other session `t`. -/
theorem C10_stop_drives_to_none (env : Env) (tm : ToneManager) (s : Session) :
    getState (stop env s tm) s = State.None
    ∧ ∀ t, t ≠ s → getState (stop env s tm) t = getState tm t := by
  refine ⟨?_, (doStop_getState env tm s State.None).2⟩
  have h := (doStop_getState env tm s State.None).1
  unfold stop
  split at h
  · rename_i h0
    rw [h, h0]
  · exact h

/-- Claim C10 at a concrete state: stopping the ringing session 2 leaves session 1
in `Ringback`. -/
theorem C10_stop_drives_to_none_witness :
    getState (stop plainEnv 2 (startRingtone plainEnv 2
      (startRingbackTone plainEnv 1 (ToneManager.create [])))) 2 = State.None
    ∧ getState (stop plainEnv 2 (startRingtone plainEnv 2
      (startRingbackTone plainEnv 1 (ToneManager.create [])))) 1 = State.Ringback :=
  ⟨(C10_stop_drives_to_none plainEnv _ 2).1,
    ((C10_stop_drives_to_none plainEnv (startRingtone plainEnv 2
      (startRingbackTone plainEnv 1 (ToneManager.create []))) 2).2 1 (by decide)).trans
      (by decide)⟩

/-! ## Tone descriptions and removal -/

theorem erase_first_with_reason (tones : List LinphoneToneDescription) (r : LinphoneReason)
    (h : oneDescriptorPerReason tones) :
    (match tones.find? (fun tone => tone.reason == r) with
      | some tone => tones.erase tone
      | none => tones) = tones.filter (fun tone => tone.reason != r) := by
  induction tones with
  | nil => simp
  | cons a rest ih =>
    have hp := List.pairwise_cons.mp h
    by_cases ha : a.reason = r
    · have hrest : rest.filter (fun tone => tone.reason != r) = rest := by
        rw [List.filter_eq_self]
        intro b hb
        have := hp.1 b hb
        simp [← ha, Ne.symm this]
      simp [List.find?, ha, hrest]
    · have ih2 := ih hp.2
      have hb : (a.reason == r) = false := by simp [ha]
      rw [List.filter_cons_of_pos (by simp [ha]), ← ih2]
      simp only [List.find?, hb]
      cases hf : rest.find? (fun tone => tone.reason == r) with
      | none => rfl
      | some t =>
        have ht : t.reason = r := by
          have := List.find?_some hf
          simpa using this
        have hne : a ≠ t := by
          intro e
          exact ha (e ▸ ht)
        simp [List.erase_cons, hne]

theorem setTone_tones (reason : LinphoneReason) (id : LinphoneToneID)
    (audiofile : Option String) (tm : ToneManager) (h : oneDescriptorPerReason tm.tones) :
    (setTone reason id audiofile tm).tones
      = tm.tones.filter (fun tone => tone.reason != reason)
        ++ [{ reason := reason, toneid := id, audiofile := audiofile }] := by
  exact congrArg (fun l => l ++ [{ reason := reason, toneid := id, audiofile := audiofile }])
    (erase_first_with_reason tm.tones reason h)

/-- Claim C11: `removeSession s` leaves the tone state of every other session, the
statistics, the ring stream, the ringtone player, the timer and the engine log
as they were; the table afterwards is the old one without the entries of `s`, so
`s` is not in it (whether or not it was before). -/
theorem C11_removeSession_only_drops_entry (tm : ToneManager) (s : Session) :
    (∀ t, t ≠ s → getState (removeSession s tm) t = getState tm t)
    ∧ (removeSession s tm).mSessions = tm.mSessions.filter (fun e => e.1 != s)
    ∧ (removeSession s tm).mStats = tm.mStats
    ∧ (removeSession s tm).ringstream = tm.ringstream
    ∧ (removeSession s tm).ringtoneplayer_started = tm.ringtoneplayer_started
    ∧ (removeSession s tm).mTimer = tm.mTimer
    ∧ (removeSession s tm).engine = tm.engine
    ∧ (∀ st, (s, st) ∉ (removeSession s tm).mSessions)
    ∧ getState (removeSession s tm) s = State.None := by
  refine ⟨fun t h => getState_removeSession_other tm s t h, Eq.refl _, Eq.refl _, Eq.refl _,
    Eq.refl _, Eq.refl _, Eq.refl _, fun st h => ?_, getState_removeSession_self tm s⟩
  simp [removeSession, mapErase] at h

/-- Claim C12 fails on the code for the lookup by id: with a descriptor of another
reason already registered for tone `Busy`, `setTone` of a new reason with tone
`Busy` is found by reason, but `getToneFromId Busy` returns the older descriptor. -/
theorem C12_counterexample :
    oneDescriptorPerReason
      [{ reason := LinphoneReason.other 1, toneid := LinphoneToneID.Busy, audiofile := none }]
    ∧ getToneFromReason (setTone (LinphoneReason.other 2) LinphoneToneID.Busy (some "busy.wav")
        (ToneManager.create
          [{ reason := LinphoneReason.other 1, toneid := LinphoneToneID.Busy,
             audiofile := none }])) (LinphoneReason.other 2)
      = some { reason := LinphoneReason.other 2, toneid := LinphoneToneID.Busy,
               audiofile := some "busy.wav" }
    ∧ getToneFromId (setTone (LinphoneReason.other 2) LinphoneToneID.Busy (some "busy.wav")
        (ToneManager.create
          [{ reason := LinphoneReason.other 1, toneid := LinphoneToneID.Busy,
             audiofile := none }])) LinphoneToneID.Busy
      = some { reason := LinphoneReason.other 1, toneid := LinphoneToneID.Busy,
               audiofile := none } := by
  unfold oneDescriptorPerReason
  decide

/-- Claim C12 as amended: on a tone list with at most one descriptor per reason,
after `setTone reason id audiofile` the lookup by reason returns the descriptor
just registered; the lookup by id returns it when no descriptor of another
reason has that id, and otherwise returns a descriptor of another reason with
that id, the first one in the list. -/
theorem C12_setTone_round_trip (reason : LinphoneReason) (id : LinphoneToneID)
    (audiofile : Option String) (tm : ToneManager) (h : oneDescriptorPerReason tm.tones) :
    getToneFromReason (setTone reason id audiofile tm) reason
      = some { reason := reason, toneid := id, audiofile := audiofile }
    ∧ ((∀ t ∈ tm.tones, t.reason ≠ reason → t.toneid ≠ id) →
        getToneFromId (setTone reason id audiofile tm) id
          = some { reason := reason, toneid := id, audiofile := audiofile })
    ∧ ((∃ t ∈ tm.tones, t.reason ≠ reason ∧ t.toneid = id) →
        (∃ t ∈ tm.tones, t.reason ≠ reason ∧ t.toneid = id
          ∧ getToneFromId (setTone reason id audiofile tm) id = some t)
        ∧ getToneFromId (setTone reason id audiofile tm) id
          = tm.tones.find? (fun t => t.reason != reason && t.toneid == id)) := by
  have ht := setTone_tones reason id audiofile tm h
  have hfirst : (tm.tones.filter (fun tone => tone.reason != reason)).find?
      (fun tone => tone.toneid == id)
      = tm.tones.find? (fun t => t.reason != reason && t.toneid == id) := by
    rw [List.find?_filter]
    congr 1
    funext a
    by_cases h1 : a.reason = reason <;> by_cases h2 : a.toneid = id <;> simp [h1, h2]
  refine ⟨?_, fun hid => ?_, fun hid => ?_⟩
  · simp only [getToneFromReason, ht, List.find?_append]
    have hnone : (tm.tones.filter (fun tone => tone.reason != reason)).find?
        (fun tone => tone.reason == reason) = none := by
      rw [List.find?_eq_none]
      intro x hx
      have := (List.mem_filter.mp hx).2
      simpa using this
    simp [hnone]
  · simp only [getToneFromId, ht, List.find?_append]
    have hnone : (tm.tones.filter (fun tone => tone.reason != reason)).find?
        (fun tone => tone.toneid == id) = none := by
      rw [List.find?_eq_none]
      intro x hx
      have hm := List.mem_filter.mp hx
      have hr : x.reason ≠ reason := by simpa using hm.2
      simpa using hid x hm.1 hr
    simp [hnone]
  · obtain ⟨t, htm, htr, hti⟩ := hid
    have hmem : t ∈ tm.tones.filter (fun tone => tone.reason != reason) :=
      List.mem_filter.mpr ⟨htm, by simpa using htr⟩
    cases hf : (tm.tones.filter (fun tone => tone.reason != reason)).find?
        (fun tone => tone.toneid == id) with
    | none =>
      have := List.find?_eq_none.mp hf t hmem
      simp [hti] at this
    | some u =>
      have hu := List.mem_filter.mp (List.mem_of_find?_eq_some hf)
      have hui : u.toneid = id := by simpa using List.find?_some hf
      have hget : getToneFromId (setTone reason id audiofile tm) id = some u := by
        simp only [getToneFromId, ht, List.find?_append, hf]
        rfl
      exact ⟨⟨u, hu.1, by simpa using hu.2, hui, hget⟩, hget.trans (hf.symm.trans hfirst)⟩

/-- Claim C12 as amended, at a list where the reason is registered again with a new
tone id. -/
theorem C12_setTone_round_trip_witness :
    getToneFromReason (setTone (LinphoneReason.other 486) LinphoneToneID.Busy none
        (ToneManager.create
          [{ reason := LinphoneReason.other 486, toneid := LinphoneToneID.Undefined,
             audiofile := some "old.wav" }])) (LinphoneReason.other 486)
      = some { reason := LinphoneReason.other 486, toneid := LinphoneToneID.Busy,
               audiofile := none }
    ∧ getToneFromId (setTone (LinphoneReason.other 486) LinphoneToneID.Busy none
        (ToneManager.create
          [{ reason := LinphoneReason.other 486, toneid := LinphoneToneID.Undefined,
             audiofile := some "old.wav" }])) LinphoneToneID.Busy
      = some { reason := LinphoneReason.other 486, toneid := LinphoneToneID.Busy,
               audiofile := none } :=
  ⟨(C12_setTone_round_trip (LinphoneReason.other 486) LinphoneToneID.Busy none
      (ToneManager.create
        [{ reason := LinphoneReason.other 486, toneid := LinphoneToneID.Undefined,
           audiofile := some "old.wav" }])
      (by unfold oneDescriptorPerReason; decide)).1,
    (C12_setTone_round_trip (LinphoneReason.other 486) LinphoneToneID.Busy none
      (ToneManager.create
        [{ reason := LinphoneReason.other 486, toneid := LinphoneToneID.Undefined,
           audiofile := some "old.wav" }])
      (by unfold oneDescriptorPerReason; decide)).2.1 (by decide)⟩

/-- Claim C13: on a tone list with at most one descriptor per reason, `setTone`
keeps at most one descriptor per reason; the length is unchanged when the reason
was registered and grows by one otherwise; the descriptors of the other reasons
are the same, in the same order, and the reason has exactly the new descriptor. -/
theorem C13_setTone_replaces_by_reason (reason : LinphoneReason) (id : LinphoneToneID)
    (audiofile : Option String) (tm : ToneManager) (h : oneDescriptorPerReason tm.tones) :
    oneDescriptorPerReason (setTone reason id audiofile tm).tones
    ∧ (setTone reason id audiofile tm).tones.length
        = (if (getToneFromReason tm reason).isSome then tm.tones.length
           else tm.tones.length + 1)
    ∧ (setTone reason id audiofile tm).tones.filter (fun tone => tone.reason != reason)
        = tm.tones.filter (fun tone => tone.reason != reason)
    ∧ (setTone reason id audiofile tm).tones.filter (fun tone => tone.reason == reason)
        = [{ reason := reason, toneid := id, audiofile := audiofile }] := by
  have ht := setTone_tones reason id audiofile tm h
  refine ⟨?_, ?_, ?_, ?_⟩
  · rw [ht]
    unfold oneDescriptorPerReason at h ⊢
    rw [List.pairwise_append]
    refine ⟨h.sublist (List.filter_sublist _), List.pairwise_singleton _ _, ?_⟩
    intro a ha b hb
    have har : a.reason ≠ reason := by simpa using (List.mem_filter.mp ha).2
    have hbe : b = { reason := reason, toneid := id, audiofile := audiofile } := by
      simpa using hb
    rw [hbe]
    exact har
  · simp only [setTone, getToneFromReason, List.length_append, List.length_singleton]
    split
    · rename_i t hf
      have hm := List.mem_of_find?_eq_some hf
      have hpos : 0 < tm.tones.length := List.length_pos_of_mem hm
      have hs : (tm.tones.find? (fun tone => tone.reason == reason)).isSome = true := by
        rw [hf]
        rfl
      rw [if_pos hs, List.length_erase_of_mem hm]
      omega
    · rename_i hf
      have hs : ¬ (tm.tones.find? (fun tone => tone.reason == reason)).isSome = true := by
        rw [hf]
        simp
      rw [if_neg hs]
  · rw [ht, List.filter_append, List.filter_filter]
    simp
  · rw [ht, List.filter_append, List.filter_filter]
    simp

/-- Claim C13 at two lists: one where the reason is replaced, one where it is new. -/
theorem C13_setTone_replaces_by_reason_witness :
    (setTone LinphoneReason.Transferred LinphoneToneID.CallEnd (some "new.wav")
      (ToneManager.create
        [{ reason := LinphoneReason.Transferred, toneid := LinphoneToneID.Undefined,
           audiofile := some "old.wav" },
         { reason := LinphoneReason.other 486, toneid := LinphoneToneID.Busy,
           audiofile := none }])).tones.length = 2
    ∧ (setTone LinphoneReason.Transferred LinphoneToneID.CallEnd (some "new.wav")
      (ToneManager.create
        [{ reason := LinphoneReason.other 486, toneid := LinphoneToneID.Busy,
           audiofile := none }])).tones.length = 2 :=
  ⟨((C13_setTone_replaces_by_reason LinphoneReason.Transferred LinphoneToneID.CallEnd
      (some "new.wav")
      (ToneManager.create
        [{ reason := LinphoneReason.Transferred, toneid := LinphoneToneID.Undefined,
           audiofile := some "old.wav" },
         { reason := LinphoneReason.other 486, toneid := LinphoneToneID.Busy,
           audiofile := none }])
      (by unfold oneDescriptorPerReason; decide)).2.1).trans (by decide),
    ((C13_setTone_replaces_by_reason LinphoneReason.Transferred LinphoneToneID.CallEnd
      (some "new.wav")
      (ToneManager.create
        [{ reason := LinphoneReason.other 486, toneid := LinphoneToneID.Busy,
           audiofile := none }])
      (by unfold oneDescriptorPerReason; decide)).2.1).trans (by decide)⟩

/-! ## Queries on the table and the commands of the tone path -/

theorem isAnotherSessionInState_iff (tm : ToneManager) (s : Session) (st : State) :
    isAnotherSessionInState tm s st = true ↔ ∃ e ∈ tm.mSessions, e.1 ≠ s ∧ e.2 = st := by
  simp only [isAnotherSessionInState, List.any_eq_true, Bool.and_eq_true, beq_iff_eq,
    bne_iff_ne, ne_eq]
  constructor
  · rintro ⟨e, he, h1, h2⟩
    exact ⟨e, he, h2, h1⟩
  · rintro ⟨e, he, h1, h2⟩
    exact ⟨e, he, h2, h1⟩

theorem getSessionInState_true (tm : ToneManager) (st : State) (s0 : Session)
    (h : ∃ e ∈ tm.mSessions, e.2 = st) :
    (getSessionInState tm st s0).1 = true
    ∧ ((getSessionInState tm st s0).2, st) ∈ tm.mSessions := by
  unfold getSessionInState
  cases hf : tm.mSessions.find? (fun it => it.2 == st) with
  | none =>
    obtain ⟨e, he, hst⟩ := h
    have := List.find?_eq_none.mp hf e he
    simp [hst] at this
  | some it =>
    have h1 : it.2 = st := by simpa using List.find?_some hf
    have h2 := List.mem_of_find?_eq_some hf
    refine ⟨Eq.refl _, ?_⟩
    show (it.1, st) ∈ tm.mSessions
    rw [← h1]
    exact h2

theorem getSessionInState_false (tm : ToneManager) (st : State) (s0 : Session)
    (h : ¬ ∃ e ∈ tm.mSessions, e.2 = st) :
    getSessionInState tm st s0 = (false, s0) := by
  unfold getSessionInState
  cases hf : tm.mSessions.find? (fun it => it.2 == st) with
  | none => rfl
  | some it =>
    exact absurd ⟨it, List.mem_of_find?_eq_some hf, by simpa using List.find?_some hf⟩ h

theorem getAudioResource_emits_tone (env : Env) (rtype : AudioResourceType)
    (card : Option SndCard) (create : Bool) (tm : ToneManager) :
    Emits (fun c => c.isToneCmd = true) tm (getAudioResource env rtype card create tm).2 := by
  unfold getAudioResource Emits
  simp only []
  repeat' split
  all_goals
    simp_all [createRingStream, ring_start, ring_stop, emit, Cmd.isToneCmd]

theorem Emits.step {P : Cmd → Prop} {a b : ToneManager} (c : Cmd) (h : Emits P a b)
    (hc : P c) : Emits P a (emit c b) :=
  h.append (Emits.single c b hc)

theorem playFile_emits_tone (env : Env) (audiofile : String) (tm : ToneManager) :
    Emits (fun c => c.isToneCmd = true) tm (playFile env audiofile tm).2 := by
  unfold playFile
  simp only []
  have h0 := getAudioResource_emits_tone env AudioResourceType.LocalPlayer env.play_sndcard
    true tm
  split
  · exact h0
  · rename_i f hf
    have h2 := (h0.step (Cmd.ms_filter_call_method f (Method.MS_PLAYER_SET_LOOP (-1)))
      (Eq.refl _)).step (Cmd.ms_filter_call_method f (Method.MS_PLAYER_OPEN audiofile))
      (Eq.refl _)
    split
    · exact h2
    · have h3 := h2.step (Cmd.ms_filter_call_method f Method.MS_PLAYER_START) (Eq.refl _)
      split
      · split
        · exact h3.step _ (Eq.refl _)
        · exact h3
      · exact h3

theorem playTone_emits_tone (env : Env) (session : Session) (tone : MSDtmfGenCustomTone)
    (tm : ToneManager) :
    Emits (fun c => c.isToneCmd = true) tm (playTone env session tone tm) := by
  unfold playTone
  simp only []
  have h0 := getAudioResource_emits_tone env AudioResourceType.ToneGenerator
    (playToneCard env session) true tm
  split
  · exact h0
  · rename_i f hf
    split
    · have h3 := ((h0.step (Cmd.ms_filter_call_method f (Method.MS_DTMF_GEN_PLAY_CUSTOM tone))
        (Eq.refl _)).step (Cmd.ms_filter_remove_notify_callback f Callback.on_play_tone_end)
        (Eq.refl _)).step (Cmd.ms_filter_add_notify_callback f Callback.on_play_tone_end)
        (Eq.refl _)
      split
      · unfold createTimerToCleanTonePlayer
        split
        · exact h3.append ⟨[Cmd.createTimer (cleanupDelay tone)], Eq.refl _, by
            simp [Cmd.isToneCmd]⟩
        · exact h3
      · exact h3
    · exact h0

theorem doStartNamedTone_emits_tone (env : Env) (session : Session) (toneId : LinphoneToneID)
    (tm : ToneManager) :
    Emits (fun c => c.isToneCmd = true) tm (doStartNamedTone env session toneId tm) := by
  unfold doStartNamedTone
  split
  · split
    · exact playFile_emits_tone env _ tm
    · exact playTone_emits_tone env session _ tm
  · exact playTone_emits_tone env session _ tm

theorem doStartErrorTone_emits_tone (env : Env) (session : Session) (reason : LinphoneReason)
    (tm : ToneManager) :
    Emits (fun c => c.isToneCmd = true) tm (doStartErrorTone env session reason tm) := by
  unfold doStartErrorTone
  split
  · split
    · exact playFile_emits_tone env _ tm
    · split
      · exact playTone_emits_tone env session _ tm
      · exact Emits.nothing _ tm
  · exact Emits.nothing _ tm

theorem isToneCmd_not_ringback (c : Cmd) (h : c.isToneCmd = true) :
    c.isRingbackStart = false := by
  cases c <;> simp_all [Cmd.isToneCmd, Cmd.isRingbackStart]
  rename_i file interval card
  cases file <;> simp_all [Cmd.isToneCmd, Cmd.isRingbackStart]

theorem doStartRingtone_emits_no_ringback (env : Env) (session : Session) (tm : ToneManager) :
    Emits (fun c => c.isRingbackStart = false) tm (doStartRingtone env session tm) := by
  unfold doStartRingtone
  split
  · split
    · exact (doStartNamedTone_emits_tone env session _ tm).weaken isToneCmd_not_ringback
    · exact Emits.nothing _ tm
  · simp only []
    split
    · split
      · split
        · rename_i rc _ _ _
          exact ⟨[Cmd.ms_snd_card_set_stream_type (some rc) StreamType.MS_SND_CARD_STREAM_RING,
            Cmd.linphone_ringtoneplayer_start rc env.local_ring 2000],
            by simp [linphone_ringtoneplayer_start, emit],
            by simp [Cmd.isRingbackStart]⟩
        · exact Emits.nothing _ tm
      · exact Emits.nothing _ tm
    · exact Emits.nothing _ tm

/-! ## The table and the counters after the entry points -/

theorem updateRings_mSessions (env : Env) (tm : ToneManager) :
    (updateRings env tm).mSessions = tm.mSessions := by
  unfold updateRings
  simp only []
  split
  · exact (doStartRingtone_audio env _ tm).mSessions
  · split
    · split
      · exact (doStartRingbackTone_keeps env _ tm).audio.mSessions
      · rfl
    · rfl

theorem doStop_mSessions (env : Env) (s : Session) (newState : State) (tm : ToneManager) :
    (doStop env s newState tm).mSessions
      = if getState tm s = State.None then tm.mSessions
        else mapAssign tm.mSessions s newState := by
  cases h : getState tm s
  · simp [doStop, h]
  · have hm : (if isAnotherSessionInState tm s State.Ringtone = true then
          incStopTone (doStopTone env tm) else tm).mSessions = tm.mSessions := by
      split
      · exact (doStopTone_keeps env tm).audio.mSessions
      · rfl
    simp only [doStop, h]
    simpa [setState] using congrArg (fun m => mapAssign m s newState) hm
  · have hm := (doStopRingbackTone_keeps tm).audio.mSessions
    simp only [doStop, h]
    simpa [setState, incStopRingbackTone] using congrArg (fun m => mapAssign m s newState) hm
  · have hm := (doStopRingtone_spec env s tm).1.mSessions
    simp only [doStop, h]
    simpa [setState, incStopRingtone] using congrArg (fun m => mapAssign m s newState) hm
  · have hm := (doStopTone_keeps env tm).audio.mSessions
    simp only [doStop, h]
    simpa [setState, incStopTone] using congrArg (fun m => mapAssign m s newState) hm

theorem doStop_mStats (env : Env) (s : Session) (newState : State) (tm : ToneManager) :
    (doStop env s newState tm).mStats
      = (match getState tm s with
        | State.Ringback => (incStopRingbackTone tm).mStats
        | State.Ringtone => (incStopRingtone tm).mStats
        | State.Tone => (incStopTone tm).mStats
        | State.Call =>
          if isAnotherSessionInState tm s State.Ringtone then (incStopTone tm).mStats
          else tm.mStats
        | State.None => tm.mStats) := by
  cases h : getState tm s
  · simp [doStop, h]
  · simp only [doStop, h]
    by_cases hr : isAnotherSessionInState tm s State.Ringtone = true
    · have hm := (doStopTone_keeps env tm).audio.mStats
      simp [hr, setState, incStopTone, hm]
    · simp [hr, setState]
  · have hm := (doStopRingbackTone_keeps tm).audio.mStats
    simp [doStop, h, setState, incStopRingbackTone, hm]
  · have hm := (doStopRingtone_spec env s tm).1.mStats
    simp [doStop, h, setState, incStopRingtone, hm]
  · have hm := (doStopTone_keeps env tm).audio.mStats
    simp [doStop, h, setState, incStopTone, hm]

theorem update_mSessions_congr (env1 env2 : Env) (tm1 tm2 : ToneManager) (s : Session)
    (htable : tm1.mSessions = tm2.mSessions)
    (hstate : (env1.session s).state = (env2.session s).state) :
    (update env1 s tm1).mSessions = (update env2 s tm2).mSessions := by
  have hg : getState tm1 s = getState tm2 s := getState_congr tm2 tm1 htable s
  have hstop : (doStop env1 s State.None tm1).mSessions
      = (doStop env2 s State.None tm2).mSessions := by
    rw [doStop_mSessions, doStop_mSessions, hg, htable]
  have herr : ∀ (env : Env) (tm : ToneManager),
      (if env.tone_indications_enabled = true then
        incStartErrorTone
          (if (env.session s).transferState = CallState.Connected then
            doStartErrorTone env s LinphoneReason.Transferred (doStop env s State.None tm)
          else doStartErrorTone env s (env.session s).reason (doStop env s State.None tm))
       else doStop env s State.None tm).mSessions = (doStop env s State.None tm).mSessions := by
    intro env tm
    split
    · split
      · exact (doStartErrorTone_keeps env s _ _).audio.mSessions
      · exact (doStartErrorTone_keeps env s _ _).audio.mSessions
    · rfl
  have hupd : ∀ (env : Env) (tm : ToneManager),
      (if isAnotherSessionInState tm s State.Ringtone = true then
        incStartRingtone (doStartRingtone env s tm) else tm).mSessions = tm.mSessions := by
    intro env tm
    split
    · exact (doStartRingtone_audio env s tm).mSessions
    · rfl
  have hrun : (updateRings env1 (setState s State.Call tm1)).mSessions
      = (updateRings env2 (setState s State.Call tm2)).mSessions := by
    rw [updateRings_mSessions, updateRings_mSessions]
    simp [setState, htable]
  cases h2 : (env2.session s).state <;>
    simp only [update, hstate, h2] <;>
    first
      | exact htable
      | exact hrun
      | exact ((herr env1 tm1).trans hstop).trans (herr env2 tm2).symm
      | exact ((hupd env1 tm1).trans htable).trans (hupd env2 tm2).symm

theorem incStartRingtone_mStats_of (tm : ToneManager) (m : LinphoneCoreToneManagerStats)
    (h : tm.mStats = m) :
    (incStartRingtone tm).mStats
      = { m with number_of_startRingtone := m.number_of_startRingtone + 1 } := by
  subst h
  rfl

theorem incStopTone_mStats_of (tm : ToneManager) (m : LinphoneCoreToneManagerStats)
    (h : tm.mStats = m) :
    (incStopTone tm).mStats = { m with number_of_stopTone := m.number_of_stopTone + 1 } := by
  subst h
  rfl

theorem incStartErrorTone_mStats_of (tm : ToneManager) (m : LinphoneCoreToneManagerStats)
    (h : tm.mStats = m) :
    (incStartErrorTone tm).mStats
      = { m with number_of_startErrorTone := m.number_of_startErrorTone + 1 } := by
  subst h
  rfl

theorem incStartRingbackTone_mStats_of (tm : ToneManager) (m : LinphoneCoreToneManagerStats)
    (h : tm.mStats = m) :
    (incStartRingbackTone tm).mStats
      = { m with number_of_startRingbackTone := m.number_of_startRingbackTone + 1 } := by
  subst h
  rfl

theorem doStartRingtone_alone (env : Env) (tm : ToneManager) (s : Session) (rc : SndCard)
    (h1 : isAnotherSessionInState tm s State.Call = false)
    (h2 : isAnotherSessionInState tm s State.Ringtone = false)
    (hcard : env.lsd_card = some rc ∨ (env.lsd_card = none ∧ env.ring_sndcard = some rc))
    (hn : env.native_ringing_enabled = false) (hk : env.callkit_enabled = false) :
    doStartRingtone env s tm
      = linphone_ringtoneplayer_start rc env.local_ring 2000
          (emit (Cmd.ms_snd_card_set_stream_type (some rc)
            StreamType.MS_SND_CARD_STREAM_RING) tm) := by
  rcases hcard with hc | ⟨hc, hr⟩
  · simp [doStartRingtone, h1, h2, hn, hk, hc]
  · simp [doStartRingtone, h1, h2, hn, hk, hc, hr]

/-- Claim C11 at a concrete state: removing the ringing session 2 leaves session 1
in `Ringback` and the ring stream in place. -/
theorem C11_removeSession_only_drops_entry_witness :
    getState (removeSession 2 (startRingtone plainEnv 2
      (startRingbackTone plainEnv 1 (ToneManager.create [])))) 1 = State.Ringback
    ∧ getState (removeSession 2 (startRingtone plainEnv 2
      (startRingbackTone plainEnv 1 (ToneManager.create [])))) 2 = State.None :=
  ⟨((C11_removeSession_only_drops_entry (startRingtone plainEnv 2
      (startRingbackTone plainEnv 1 (ToneManager.create []))) 2).1 1 (by decide)).trans
      (by decide),
    (C11_removeSession_only_drops_entry (startRingtone plainEnv 2
      (startRingbackTone plainEnv 1 (ToneManager.create []))) 2).2.2.2.2.2.2.2.2⟩

/-- Claim C14: for every entry point (and every callback), two runs that start from
the same session table with the same call, and for `update` the same call state
of the session, end with the same session table, whatever the environments and
the other fields of the two states are (sound cards, ring files, results of
engine commands, tone descriptors, tone indications, in-conference flag, ring
stream, ringtone player, timer, counters). -/
theorem C14_table_independent_of_audio (env1 env2 : Env) (tm1 tm2 : ToneManager) (op : Op)
    (htable : tm1.mSessions = tm2.mSessions)
    (hstate : ∀ s, op = Op.update s → (env1.session s).state = (env2.session s).state) :
    (op.run env1 tm1).mSessions = (op.run env2 tm2).mSessions := by
  have hg : ∀ s, getState tm1 s = getState tm2 s := fun s => getState_congr tm2 tm1 htable s
  have hall : ∀ (env : Env) (tm : ToneManager),
      (doStopAllTones env tm).mSessions = tm.mSessions :=
    fun env tm => (doStopAllTones_spec env tm).1.mSessions
  cases op with
  | startRingbackTone s =>
    have hone : ∀ (env : Env) (tm : ToneManager), (startRingbackTone env s tm).mSessions
        = if getState tm s = State.Ringback then tm.mSessions
          else mapAssign tm.mSessions s State.Ringback := by
      intro env tm
      unfold startRingbackTone
      split
      · rfl
      · simp only []
        split
        · rfl
        · split
          · rw [(doStartRingbackTone_keeps env s _).audio.mSessions, hall]
            rfl
          · rfl
    simp only [Op.run]
    rw [hone, hone, hg, htable]
  | startRingtone s =>
    have hone : ∀ (env : Env) (tm : ToneManager), (startRingtone env s tm).mSessions
        = mapAssign tm.mSessions s State.Ringtone := by
      intro env tm
      unfold startRingtone
      simp only []
      split
      · show (doStartRingtone env s _).mSessions = _
        rw [(doStartRingtone_audio env s _).mSessions, hall]
        rfl
      · rfl
    simp only [Op.run]
    rw [hone, hone, htable]
  | startErrorTone s reason =>
    have hone : ∀ (env : Env) (tm : ToneManager), (startErrorTone env s reason tm).mSessions
        = mapAssign tm.mSessions s State.Tone := by
      intro env tm
      unfold startErrorTone
      simp only []
      split
      · show (doStartErrorTone env s reason _).mSessions = _
        rw [(doStartErrorTone_keeps env s reason _).audio.mSessions, hall]
        rfl
      · rfl
    simp only [Op.run]
    rw [hone, hone, htable]
  | startNamedTone s toneId =>
    have hone : ∀ (env : Env) (tm : ToneManager), (startNamedTone env s toneId tm).mSessions
        = mapAssign tm.mSessions s State.Tone := by
      intro env tm
      unfold startNamedTone
      simp only []
      split
      · show (doStartNamedTone env s toneId _).mSessions = _
        rw [(doStartNamedTone_keeps env s toneId _).audio.mSessions, hall]
        rfl
      · rfl
    simp only [Op.run]
    rw [hone, hone, htable]
  | goToCall s =>
    simp only [Op.run, goToCall]
    rw [doStop_mSessions, doStop_mSessions, hg, htable]
  | stop s =>
    simp only [Op.run, stop]
    rw [doStop_mSessions, doStop_mSessions, hg, htable]
  | removeSession s =>
    simp [Op.run, removeSession, htable]
  | update s =>
    exact update_mSessions_congr env1 env2 tm1 tm2 s htable (hstate s (Eq.refl _))
  | onFilePlayerEnd e =>
    have hone : ∀ (env : Env) (tm : ToneManager), (onFilePlayerEnd env e tm).mSessions
        = tm.mSessions := by
      intro env tm
      unfold onFilePlayerEnd
      split
      · rw [updateRings_mSessions]
        exact (doStopTone_keeps env tm).audio.mSessions
      · rfl
    simp only [Op.run]
    rw [hone, hone, htable]
  | onPlayToneEnd e =>
    have hone : ∀ (env : Env) (tm : ToneManager), (onPlayToneEnd env e tm).mSessions
        = tm.mSessions := by
      intro env tm
      unfold onPlayToneEnd
      split
      · simp only []
        rw [updateRings_mSessions]
        split <;> rfl
      · rfl
    simp only [Op.run]
    rw [hone, hone, htable]

/-- Claim C14 at `startRingbackTone 1`: with sound and without, the table is the
same although the ring stream is not. -/
theorem C14_table_independent_of_audio_witness :
    ((Op.startRingbackTone 1).run plainEnv (ToneManager.create [])).mSessions
      = ((Op.startRingbackTone 1).run deafEnv
          (ToneManager.create
            [{ reason := LinphoneReason.other 486, toneid := LinphoneToneID.Busy,
               audiofile := none }])).mSessions
    ∧ (startRingbackTone plainEnv 1 (ToneManager.create [])).ringstream
      ≠ (startRingbackTone deafEnv 1 (ToneManager.create [])).ringstream :=
  ⟨C14_table_independent_of_audio plainEnv deafEnv _ _ (Op.startRingbackTone 1) (Eq.refl _)
    (fun s h => by simp at h), by decide⟩

/-- Claim C15 fails on the code where it says the ringtone player is started:
session 1 is in `Tone`, session 2 is the only session in `Ringtone`, no session
is in `Call`, CallKit is enabled; on the end-of-file event the ringtone start is
counted but the ringtone player is not started. -/
theorem C15_counterexample :
    getState (setState 2 State.Ringtone (setState 1 State.Tone (ToneManager.create []))) 1
      = State.Tone
    ∧ getState (setState 2 State.Ringtone (setState 1 State.Tone (ToneManager.create []))) 2
      = State.Ringtone
    ∧ isAnotherSessionInState
        (setState 2 State.Ringtone (setState 1 State.Tone (ToneManager.create []))) 2
        State.Call = false
    ∧ isAnotherSessionInState
        (setState 2 State.Ringtone (setState 1 State.Tone (ToneManager.create []))) 2
        State.Ringtone = false
    ∧ (onFilePlayerEnd callkitEnv EventId.MS_PLAYER_EOF
        (setState 2 State.Ringtone (setState 1 State.Tone
          (ToneManager.create [])))).mStats.number_of_startRingtone = 1
    ∧ (onFilePlayerEnd callkitEnv EventId.MS_PLAYER_EOF
        (setState 2 State.Ringtone (setState 1 State.Tone
          (ToneManager.create [])))).ringtoneplayer_started = false := by
  decide

/-- Claim C15 as amended: on the end-of-file event, with a session in `Tone` and
another session `B` in `Ringtone`, `onFilePlayerEnd` stops the tone, counts one
tone stop and one ringtone start (no other counter changes), runs
`doStartRingtone` for a session in `Ringtone` and leaves the table as it was.
When no session other than `B` is in `Call` or `Ringtone`, that session is `B`,
and when moreover a ring sound card is set and native ringing and CallKit are
disabled the ringtone player is started.  Any other event changes nothing. -/
theorem C15_file_end_resumes_ringing (env : Env) (tm : ToneManager) (A B : Session)
    (_hAB : A ≠ B) (_hA : getState tm A = State.Tone)
    (hB : getState tm B = State.Ringtone) :
    (onFilePlayerEnd env EventId.MS_PLAYER_EOF tm).mSessions = tm.mSessions
    ∧ (onFilePlayerEnd env EventId.MS_PLAYER_EOF tm).mStats
        = { tm.mStats with
            number_of_stopTone := tm.mStats.number_of_stopTone + 1,
            number_of_startRingtone := tm.mStats.number_of_startRingtone + 1 }
    ∧ (∃ r, (r, State.Ringtone) ∈ tm.mSessions
        ∧ onFilePlayerEnd env EventId.MS_PLAYER_EOF tm
          = incStartRingtone (doStartRingtone env r (incStopTone (doStopTone env tm))))
    ∧ ((∀ e ∈ tm.mSessions, e.1 ≠ B → e.2 ≠ State.Call ∧ e.2 ≠ State.Ringtone) →
        onFilePlayerEnd env EventId.MS_PLAYER_EOF tm
          = incStartRingtone (doStartRingtone env B (incStopTone (doStopTone env tm)))
        ∧ ∀ rc : SndCard,
          (env.lsd_card = some rc ∨ (env.lsd_card = none ∧ env.ring_sndcard = some rc)) →
          env.native_ringing_enabled = false → env.callkit_enabled = false →
          (onFilePlayerEnd env EventId.MS_PLAYER_EOF tm).ringtoneplayer_started = true
          ∧ (onFilePlayerEnd env EventId.MS_PLAYER_EOF tm).engine
            = (doStopTone env tm).engine
              ++ [Cmd.ms_snd_card_set_stream_type (some rc) StreamType.MS_SND_CARD_STREAM_RING,
                  Cmd.linphone_ringtoneplayer_start rc env.local_ring 2000])
    ∧ (∀ e : EventId, e ≠ EventId.MS_PLAYER_EOF → onFilePlayerEnd env e tm = tm) := by
  have hk := doStopTone_keeps env tm
  have hms : (incStopTone (doStopTone env tm)).mSessions = tm.mSessions := hk.audio.mSessions
  have hmemB : (B, State.Ringtone) ∈ tm.mSessions := by
    unfold getState at hB
    split at hB
    · rename_i v hv
      exact mem_of_mapFind _ _ _ (by rw [hv, hB])
    · exact absurd hB (by decide)
  have hex : ∃ e ∈ (incStopTone (doStopTone env tm)).mSessions, e.2 = State.Ringtone :=
    ⟨(B, State.Ringtone), by rw [hms]; exact hmemB, Eq.refl _⟩
  obtain ⟨hf1, hf2⟩ := getSessionInState_true _ State.Ringtone nullptr hex
  have heq : onFilePlayerEnd env EventId.MS_PLAYER_EOF tm
      = incStartRingtone (doStartRingtone env
          (getSessionInState (incStopTone (doStopTone env tm)) State.Ringtone nullptr).2
          (incStopTone (doStopTone env tm))) := by
    simp [onFilePlayerEnd, updateRings, hf1]
  rw [hms] at hf2
  have haud := doStartRingtone_audio env
    (getSessionInState (incStopTone (doStopTone env tm)) State.Ringtone nullptr).2
    (incStopTone (doStopTone env tm))
  refine ⟨?_, ?_, ⟨_, hf2, heq⟩, fun hno => ?_, fun e he => ?_⟩
  · rw [heq]
    exact haud.mSessions.trans hms
  · rw [heq]
    exact incStartRingtone_mStats_of _ _
      (haud.mStats.trans (incStopTone_mStats_of _ _ hk.audio.mStats))
  · have hr : (getSessionInState (incStopTone (doStopTone env tm)) State.Ringtone nullptr).2
        = B := by
      by_contra hne
      exact (hno _ hf2 hne).2 (Eq.refl _)
    rw [hr] at heq
    refine ⟨heq, fun rc hcard hn hc => ?_⟩
    have h1 : isAnotherSessionInState (incStopTone (doStopTone env tm)) B State.Call = false := by
      rw [isAnotherSessionInState_congr _ _ hms]
      exact isAnotherSessionInState_eq_false tm B _ (fun e he hb => (hno e he hb).1)
    have h2 : isAnotherSessionInState (incStopTone (doStopTone env tm)) B State.Ringtone
        = false := by
      rw [isAnotherSessionInState_congr _ _ hms]
      exact isAnotherSessionInState_eq_false tm B _ (fun e he hb => (hno e he hb).2)
    rw [heq, doStartRingtone_alone env _ B rc h1 h2 hcard hn hc]
    refine ⟨Eq.refl _, ?_⟩
    simp [incStartRingtone, linphone_ringtoneplayer_start, emit, incStopTone]
  · cases e with
    | MS_PLAYER_EOF => exact absurd (Eq.refl _) he
    | MS_DTMF_GEN_END => rfl
    | other n => rfl

/-- Claim C15 as amended, at sessions 1 (in `Tone`) and 2 (in `Ringtone`). -/
theorem C15_file_end_resumes_ringing_witness :
    (onFilePlayerEnd plainEnv EventId.MS_PLAYER_EOF
        (setState 2 State.Ringtone (setState 1 State.Tone
          (ToneManager.create [])))).ringtoneplayer_started = true
    ∧ (onFilePlayerEnd plainEnv EventId.MS_PLAYER_EOF
        (setState 2 State.Ringtone (setState 1 State.Tone
          (ToneManager.create [])))).mStats.number_of_startRingtone = 1 :=
  ⟨(((C15_file_end_resumes_ringing plainEnv
      (setState 2 State.Ringtone (setState 1 State.Tone (ToneManager.create []))) 1 2
      (by decide) (by decide) (by decide)).2.2.2.1 (by decide)).2 2
      (Or.inr ⟨Eq.refl _, Eq.refl _⟩) (Eq.refl _) (Eq.refl _)).1,
    by decide⟩

/-- Claim C17: `update` on a session whose call state is `StreamsRunning`, `Paused`
or `PausedByRemote` is `setState session Call` followed by `updateRings`; the
session ends in `Call` and the tone state of every other session is unchanged.
For a call state other than the seven handled ones `update` changes nothing. -/
theorem C17_update_on_running_or_paused (env : Env) (tm : ToneManager) (s : Session) :
    (((env.session s).state = CallState.StreamsRunning
        ∨ (env.session s).state = CallState.Paused
        ∨ (env.session s).state = CallState.PausedByRemote) →
      update env s tm = updateRings env (setState s State.Call tm)
      ∧ getState (update env s tm) s = State.Call
      ∧ ∀ t, t ≠ s → getState (update env s tm) t = getState tm t)
    ∧ (((env.session s).state ≠ CallState.UpdatedByRemote
        ∧ (env.session s).state ≠ CallState.Updating
        ∧ (env.session s).state ≠ CallState.Error
        ∧ (env.session s).state ≠ CallState.End
        ∧ (env.session s).state ≠ CallState.StreamsRunning
        ∧ (env.session s).state ≠ CallState.Paused
        ∧ (env.session s).state ≠ CallState.PausedByRemote) →
      update env s tm = tm) := by
  refine ⟨fun h => ?_, fun h => ?_⟩
  · have heq : update env s tm = updateRings env (setState s State.Call tm) := by
      rcases h with h | h | h <;> simp [update, h]
    have hm := updateRings_mSessions env (setState s State.Call tm)
    rw [heq]
    exact ⟨Eq.refl _, (getState_congr _ _ hm s).trans (getState_setState_self tm s _),
      fun t ht => (getState_congr _ _ hm t).trans (getState_setState_other tm s t _ ht)⟩
  · obtain ⟨h1, h2, h3, h4, h5, h6, h7⟩ := h
    cases hs : (env.session s).state <;> simp_all [update]

/-- Claim C17 at a ringing session that starts running, and at a session in call
state `Idle`. -/
theorem C17_update_on_running_or_paused_witness :
    getState (update answeredEnv 2 (startRingtone answeredEnv 2 (ToneManager.create []))) 2
      = State.Call
    ∧ update plainEnv 2 (startRingtone plainEnv 2 (ToneManager.create []))
      = startRingtone plainEnv 2 (ToneManager.create []) :=
  ⟨((C17_update_on_running_or_paused answeredEnv
      (startRingtone answeredEnv 2 (ToneManager.create [])) 2).1 (Or.inl (Eq.refl _))).2.1,
    (C17_update_on_running_or_paused plainEnv
      (startRingtone plainEnv 2 (ToneManager.create [])) 2).2 (by decide)⟩

/-- Claim C18: `update` on a session whose call state is `Updating` or
`UpdatedByRemote` leaves the table as it was; when another session is in
`Ringtone` it adds one to `number_of_startRingtone` and changes no other
counter, and when no other session is in `Ringtone` the state is unchanged. -/
theorem C18_update_on_updating (env : Env) (tm : ToneManager) (s : Session)
    (h : (env.session s).state = CallState.Updating
      ∨ (env.session s).state = CallState.UpdatedByRemote) :
    (update env s tm).mSessions = tm.mSessions
    ∧ ((∃ e ∈ tm.mSessions, e.1 ≠ s ∧ e.2 = State.Ringtone) →
        (update env s tm).mStats
          = { tm.mStats with
              number_of_startRingtone := tm.mStats.number_of_startRingtone + 1 })
    ∧ ((¬ ∃ e ∈ tm.mSessions, e.1 ≠ s ∧ e.2 = State.Ringtone) → update env s tm = tm) := by
  have heq : update env s tm
      = (if isAnotherSessionInState tm s State.Ringtone = true then
          incStartRingtone (doStartRingtone env s tm) else tm) := by
    rcases h with h | h <;> simp [update, h]
  have haud := doStartRingtone_audio env s tm
  refine ⟨?_, fun hex => ?_, fun hex => ?_⟩
  · rw [heq]
    split
    · exact haud.mSessions
    · rfl
  · rw [heq, if_pos ((isAnotherSessionInState_iff tm s _).mpr hex)]
    exact incStartRingtone_mStats_of _ _ haud.mStats
  · rw [heq, if_neg (fun hc => hex ((isAnotherSessionInState_iff tm s _).mp hc))]

/-- Claim C18 at session 3 updated while session 2 rings, and while only a ringback
is present. -/
theorem C18_update_on_updating_witness :
    (update updatingEnv 3 (startRingtone updatingEnv 2
        (ToneManager.create []))).mStats.number_of_startRingtone = 2
    ∧ update updatingEnv 3 (startRingbackTone updatingEnv 1 (ToneManager.create []))
      = startRingbackTone updatingEnv 1 (ToneManager.create []) :=
  ⟨(congrArg LinphoneCoreToneManagerStats.number_of_startRingtone
      ((C18_update_on_updating updatingEnv (startRingtone updatingEnv 2 (ToneManager.create []))
        3 (Or.inl (Eq.refl _))).2.1 ⟨(2, State.Ringtone), by decide, by decide, Eq.refl _⟩)).trans
      (by decide),
    (C18_update_on_updating updatingEnv (startRingbackTone updatingEnv 1 (ToneManager.create []))
      3 (Or.inl (Eq.refl _))).2.2 (by decide)⟩

/-- Claim C19: `updateRings` never changes the table.  When some session is in
`Ringtone` it leaves `number_of_startRingbackTone` alone and issues no
`ring_start` on a ring file.  When no session is in `Ringtone`, some session is
in `Ringback` and there is no ring stream, it runs `doStartRingbackTone` and
adds one to `number_of_startRingbackTone`.  In every other case it changes
nothing. -/
theorem C19_updateRings_priority (env : Env) (tm : ToneManager) :
    (updateRings env tm).mSessions = tm.mSessions
    ∧ ((∃ e ∈ tm.mSessions, e.2 = State.Ringtone) →
        (updateRings env tm).mStats.number_of_startRingbackTone
          = tm.mStats.number_of_startRingbackTone
        ∧ Emits (fun c => c.isRingbackStart = false) tm (updateRings env tm))
    ∧ (((¬ ∃ e ∈ tm.mSessions, e.2 = State.Ringtone)
          ∧ (∃ e ∈ tm.mSessions, e.2 = State.Ringback) ∧ tm.ringstream = none) →
        (updateRings env tm).mStats.number_of_startRingbackTone
          = tm.mStats.number_of_startRingbackTone + 1
        ∧ ∃ r, (r, State.Ringback) ∈ tm.mSessions
          ∧ updateRings env tm = incStartRingbackTone (doStartRingbackTone env r tm))
    ∧ (((¬ ∃ e ∈ tm.mSessions, e.2 = State.Ringtone)
          ∧ ¬ ((∃ e ∈ tm.mSessions, e.2 = State.Ringback) ∧ tm.ringstream = none)) →
        updateRings env tm = tm) := by
  refine ⟨updateRings_mSessions env tm, fun hrt => ?_, fun hrb => ?_, fun hno => ?_⟩
  · obtain ⟨hf1, _⟩ := getSessionInState_true tm State.Ringtone nullptr hrt
    have heq : updateRings env tm = incStartRingtone (doStartRingtone env
        (getSessionInState tm State.Ringtone nullptr).2 tm) := by
      simp [updateRings, hf1]
    rw [heq]
    refine ⟨?_, ?_⟩
    · show (doStartRingtone env _ tm).mStats.number_of_startRingbackTone = _
      rw [(doStartRingtone_audio env _ tm).mStats]
    · exact (doStartRingtone_emits_no_ringback env _ tm).append
        (Emits.of_engine_eq (Eq.refl _))
  · obtain ⟨hnrt, hex, hrs⟩ := hrb
    have hf0 := getSessionInState_false tm State.Ringtone nullptr hnrt
    obtain ⟨hf1, hf2⟩ := getSessionInState_true tm State.Ringback nullptr hex
    have heq : updateRings env tm = incStartRingbackTone (doStartRingbackTone env
        (getSessionInState tm State.Ringback nullptr).2 tm) := by
      simp [updateRings, hf0, hf1, hrs]
    refine ⟨?_, _, hf2, heq⟩
    rw [heq]
    show (doStartRingbackTone env _ tm).mStats.number_of_startRingbackTone + 1 = _
    rw [(doStartRingbackTone_keeps env _ tm).audio.mStats]
  · obtain ⟨hnrt, hnb⟩ := hno
    have hf0 := getSessionInState_false tm State.Ringtone nullptr hnrt
    by_cases hex : ∃ e ∈ tm.mSessions, e.2 = State.Ringback
    · have hrs : tm.ringstream ≠ none := fun hc => hnb ⟨hex, hc⟩
      obtain ⟨hf1, _⟩ := getSessionInState_true tm State.Ringback nullptr hex
      cases hr : tm.ringstream with
      | none => exact absurd hr hrs
      | some rs => simp [updateRings, hf0, hf1, hr]
    · have hf1 := getSessionInState_false tm State.Ringback nullptr hex
      simp [updateRings, hf0, hf1]

/-- Claim C19 at three states: a ringtone beside a ringback, a ringback without a
ring stream, a ringback that is already playing. -/
theorem C19_updateRings_priority_witness :
    (updateRings plainEnv
        (setState 2 State.Ringtone (setState 1 State.Ringback
          (ToneManager.create [])))).mStats.number_of_startRingbackTone = 0
    ∧ (updateRings plainEnv
        (setState 1 State.Ringback (ToneManager.create []))).mStats.number_of_startRingbackTone
      = 1
    ∧ updateRings plainEnv (startRingbackTone plainEnv 1 (ToneManager.create []))
      = startRingbackTone plainEnv 1 (ToneManager.create []) :=
  ⟨(((C19_updateRings_priority plainEnv
      (setState 2 State.Ringtone (setState 1 State.Ringback (ToneManager.create [])))).2.1
      ⟨(2, State.Ringtone), by decide, Eq.refl _⟩).1).trans (by decide),
    (((C19_updateRings_priority plainEnv
      (setState 1 State.Ringback (ToneManager.create []))).2.2.1
      ⟨by decide, ⟨(1, State.Ringback), by decide, Eq.refl _⟩, Eq.refl _⟩).1).trans (by decide),
    (C19_updateRings_priority plainEnv
      (startRingbackTone plainEnv 1 (ToneManager.create []))).2.2.2
      ⟨by decide, by decide⟩⟩

/-! ## Ringback, table queries -/

/-- Claim C21: for a session `s` not already in `Ringback`, `startRingbackTone s`
sets `s` to `Ringback` and adds one to `number_of_startRingbackTone` (no other
counter changes).  When the session is marked as in conference, or another
session is in `Ringback`, nothing else happens: ring stream, ringtone player
and engine log are unchanged.  Otherwise all tones are stopped and
`doStartRingbackTone` runs. -/
theorem C21_ringback_in_conference_or_second (env : Env) (tm : ToneManager) (s : Session)
    (h : getState tm s ≠ State.Ringback) :
    getState (startRingbackTone env s tm) s = State.Ringback
    ∧ (startRingbackTone env s tm).mStats
        = { tm.mStats with
            number_of_startRingbackTone := tm.mStats.number_of_startRingbackTone + 1 }
    ∧ (((env.session s).inConference = true
          ∨ ∃ e ∈ tm.mSessions, e.1 ≠ s ∧ e.2 = State.Ringback) →
        startRingbackTone env s tm = incStartRingbackTone (setState s State.Ringback tm))
    ∧ ((¬ ((env.session s).inConference = true
          ∨ ∃ e ∈ tm.mSessions, e.1 ≠ s ∧ e.2 = State.Ringback)) →
        startRingbackTone env s tm
          = doStartRingbackTone env s
              (doStopAllTones env (incStartRingbackTone (setState s State.Ringback tm)))) := by
  have hother : isAnotherSessionInState (incStartRingbackTone (setState s State.Ringback tm)) s
      State.Ringback = isAnotherSessionInState tm s State.Ringback :=
    isAnotherSessionInState_setState_self tm s _ _
  have hquiet : ((env.session s).inConference = true
        ∨ ∃ e ∈ tm.mSessions, e.1 ≠ s ∧ e.2 = State.Ringback) →
      startRingbackTone env s tm = incStartRingbackTone (setState s State.Ringback tm) := by
    rintro (hc | hex)
    · simp [startRingbackTone, h, hc]
    · have := (isAnotherSessionInState_iff tm s State.Ringback).mpr hex
      simp [startRingbackTone, h, hother, this]
  have hloud : (¬ ((env.session s).inConference = true
        ∨ ∃ e ∈ tm.mSessions, e.1 ≠ s ∧ e.2 = State.Ringback)) →
      startRingbackTone env s tm
        = doStartRingbackTone env s
            (doStopAllTones env (incStartRingbackTone (setState s State.Ringback tm))) := by
    intro hno
    have hc : (env.session s).inConference = false := by
      cases hv : (env.session s).inConference
      · rfl
      · exact absurd (Or.inl hv) hno
    have h1 : isAnotherSessionInState tm s State.Ringback = false := by
      rw [← Bool.not_eq_true, isAnotherSessionInState_iff]
      exact fun hex => hno (Or.inr hex)
    simp [startRingbackTone, h, hc, hother, h1]
  have ha := (doStopAllTones_spec env (incStartRingbackTone (setState s State.Ringback tm))).1
  have hb := (doStartRingbackTone_keeps env s
    (doStopAllTones env (incStartRingbackTone (setState s State.Ringback tm)))).audio
  refine ⟨?_, ?_, hquiet, hloud⟩
  · by_cases hc : ((env.session s).inConference = true
        ∨ ∃ e ∈ tm.mSessions, e.1 ≠ s ∧ e.2 = State.Ringback)
    · rw [hquiet hc]
      exact getState_setState_self tm s _
    · rw [hloud hc]
      exact (getState_congr _ _ (ha.andThen hb).mSessions s).trans
        (getState_setState_self tm s _)
  · by_cases hc : ((env.session s).inConference = true
        ∨ ∃ e ∈ tm.mSessions, e.1 ≠ s ∧ e.2 = State.Ringback)
    · rw [hquiet hc]
      rfl
    · rw [hloud hc, (ha.andThen hb).mStats]
      rfl

/-- Claim C21 at three calls: an in-conference session, a second ringback, and a
first ringback, which starts the ring stream. -/
theorem C21_ringback_in_conference_or_second_witness :
    startRingbackTone answeredEnv 1 (ToneManager.create [])
      = incStartRingbackTone (setState 1 State.Ringback (ToneManager.create []))
    ∧ (startRingbackTone plainEnv 2
        (startRingbackTone plainEnv 1 (ToneManager.create []))).engine
      = (startRingbackTone plainEnv 1 (ToneManager.create [])).engine
    ∧ (startRingbackTone plainEnv 1 (ToneManager.create [])).ringstream
      = some { card := some 1, file := some "ringback.wav", source := true, gendtmf := true } :=
  ⟨(C21_ringback_in_conference_or_second answeredEnv (ToneManager.create []) 1
      (by decide)).2.2.1 (Or.inl (Eq.refl _)),
    (congrArg ToneManager.engine
      ((C21_ringback_in_conference_or_second plainEnv
        (startRingbackTone plainEnv 1 (ToneManager.create [])) 2 (by decide)).2.2.1
        (Or.inr ⟨(1, State.Ringback), by decide, by decide, Eq.refl _⟩))).trans (by decide),
    (congrArg ToneManager.ringstream
      ((C21_ringback_in_conference_or_second plainEnv (ToneManager.create []) 1
        (by decide)).2.2.2 (by decide))).trans (by decide)⟩

/-- Claim C22: `isAnotherSessionInState me st` holds exactly when some table entry
of a session other than `me` has state `st`; `getSessionInState st out` returns
true exactly when some entry has state `st`, then with a session of the table
in that state, and otherwise leaves `out` as it was; `isThereACall` holds
exactly when some entry is in `Call`.  The three are functions of the state
that return only their result: the source methods only iterate over the map. -/
theorem C22_table_queries (tm : ToneManager) (me : Session) (st : State) (out : Session) :
    (isAnotherSessionInState tm me st = true ↔ ∃ e ∈ tm.mSessions, e.1 ≠ me ∧ e.2 = st)
    ∧ ((getSessionInState tm st out).1 = true ↔ ∃ e ∈ tm.mSessions, e.2 = st)
    ∧ ((getSessionInState tm st out).1 = true →
        ((getSessionInState tm st out).2, st) ∈ tm.mSessions)
    ∧ ((getSessionInState tm st out).1 = false → (getSessionInState tm st out).2 = out)
    ∧ (isThereACall tm = true ↔ ∃ e ∈ tm.mSessions, e.2 = State.Call) := by
  have hiff : (getSessionInState tm st out).1 = true ↔ ∃ e ∈ tm.mSessions, e.2 = st := by
    constructor
    · intro hf
      by_contra hno
      rw [getSessionInState_false tm st out hno] at hf
      exact Bool.false_ne_true hf
    · intro hex
      exact (getSessionInState_true tm st out hex).1
  refine ⟨isAnotherSessionInState_iff tm me st, hiff, fun hf => ?_, fun hf => ?_, ?_⟩
  · exact (getSessionInState_true tm st out (hiff.mp hf)).2
  · have hno : ¬ ∃ e ∈ tm.mSessions, e.2 = st := by
      intro hex
      rw [(getSessionInState_true tm st out hex).1] at hf
      exact Bool.false_ne_true hf.symm
    rw [getSessionInState_false tm st out hno]
  · simp [isThereACall, List.any_eq_true]

/-- Claim C22 at a table with a call and a ringing session. -/
theorem C22_table_queries_witness :
    (getSessionInState (setState 2 State.Ringtone (setState 1 State.Call
        (ToneManager.create []))) State.Ringtone nullptr) = (true, 2)
    ∧ (getSessionInState (setState 2 State.Ringtone (setState 1 State.Call
        (ToneManager.create []))) State.Tone 7).2 = 7 :=
  ⟨by decide,
    (C22_table_queries (setState 2 State.Ringtone (setState 1 State.Call
        (ToneManager.create []))) 0 State.Tone 7).2.2.2.1 (by decide)⟩

/-! ## File playback and the counters -/

theorem getAudioResource_emits_setup (env : Env) (rtype : AudioResourceType)
    (card : Option SndCard) (create : Bool) (tm : ToneManager) :
    Emits (fun c => c.isSetupCmd = true) tm (getAudioResource env rtype card create tm).2 := by
  unfold getAudioResource Emits
  simp only []
  repeat' split
  all_goals
    simp_all [createRingStream, ring_start, ring_stop, emit, Cmd.isSetupCmd]

theorem isSetupCmd_not_playerStart (c : Cmd) (h : c.isSetupCmd = true) :
    c.isPlayerStart = false := by
  cases c with
  | ms_filter_call_method f m => cases f <;> cases m <;> simp_all [Cmd.isSetupCmd, Cmd.isPlayerStart]
  | _ => simp_all [Cmd.isPlayerStart]

/-- Claim C23: `playFile` returns -1 exactly when `getAudioResource` gives no local
player or `MS_PLAYER_OPEN` fails, and 0 otherwise.  When it returns 0 the
commands issued after the player was obtained are `MS_PLAYER_SET_LOOP` with
-1, then `MS_PLAYER_OPEN`, then `MS_PLAYER_START`, then at most the
registration of the completion callback.  When it returns -1 no
`MS_PLAYER_START` is issued. -/
theorem C23_playFile_status (env : Env) (audiofile : String) (tm : ToneManager) :
    ((playFile env audiofile tm).1 = -1 ↔
        ((getAudioResource env AudioResourceType.LocalPlayer env.play_sndcard true tm).1 = none
          ∨ env.ms_player_open audiofile ≠ 0))
    ∧ ((playFile env audiofile tm).1 = -1 ∨ (playFile env audiofile tm).1 = 0)
    ∧ ((playFile env audiofile tm).1 = 0 →
        ∃ f, (getAudioResource env AudioResourceType.LocalPlayer env.play_sndcard true tm).1
            = some f
          ∧ ((playFile env audiofile tm).2.engine
              = (getAudioResource env AudioResourceType.LocalPlayer env.play_sndcard true
                  tm).2.engine
                ++ [Cmd.ms_filter_call_method f (Method.MS_PLAYER_SET_LOOP (-1)),
                    Cmd.ms_filter_call_method f (Method.MS_PLAYER_OPEN audiofile),
                    Cmd.ms_filter_call_method f Method.MS_PLAYER_START]
            ∨ (playFile env audiofile tm).2.engine
              = (getAudioResource env AudioResourceType.LocalPlayer env.play_sndcard true
                  tm).2.engine
                ++ [Cmd.ms_filter_call_method f (Method.MS_PLAYER_SET_LOOP (-1)),
                    Cmd.ms_filter_call_method f (Method.MS_PLAYER_OPEN audiofile),
                    Cmd.ms_filter_call_method f Method.MS_PLAYER_START,
                    Cmd.ms_filter_add_notify_callback Filter.ring_source
                      Callback.on_file_player_end]))
    ∧ ((playFile env audiofile tm).1 = -1 →
        Emits (fun c => c.isPlayerStart = false) tm (playFile env audiofile tm).2) := by
  have h0 := (getAudioResource_emits_setup env AudioResourceType.LocalPlayer env.play_sndcard
    true tm).weaken isSetupCmd_not_playerStart
  cases hr : (getAudioResource env AudioResourceType.LocalPlayer env.play_sndcard true tm).1 with
  | none =>
    have hp : playFile env audiofile tm
        = (-1, (getAudioResource env AudioResourceType.LocalPlayer env.play_sndcard true
            tm).2) := by
      simp [playFile, hr]
    rw [hp]
    exact ⟨by simp, Or.inl (Eq.refl _), fun h => absurd h (by simp), fun _ => h0⟩
  | some f =>
    by_cases ho : env.ms_player_open audiofile = 0
    · have h1 : (playFile env audiofile tm).1 = 0 := by
        simp only [playFile, hr, ho]
        simp only [ne_eq, not_true_eq_false, if_false]
        split
        · split <;> rfl
        · rfl
      refine ⟨by simp [h1, ho], Or.inr h1, fun _ => ⟨f, Eq.refl _, ?_⟩,
        fun h => absurd (h1.symm.trans h) (by decide)⟩
      simp only [playFile, hr, ho]
      simp only [ne_eq, not_true_eq_false, if_false]
      split
      · split
        · exact Or.inr (by simp [emit])
        · exact Or.inl (by simp [emit])
      · exact Or.inl (by simp [emit])
    · have hp : playFile env audiofile tm
          = (-1, emit (Cmd.ms_filter_call_method f (Method.MS_PLAYER_OPEN audiofile))
              (emit (Cmd.ms_filter_call_method f (Method.MS_PLAYER_SET_LOOP (-1)))
                (getAudioResource env AudioResourceType.LocalPlayer env.play_sndcard true
                  tm).2)) := by
        simp [playFile, hr, ho]
      rw [hp]
      refine ⟨by simp [ho], Or.inl (Eq.refl _), fun h => absurd h (by simp), fun _ => ?_⟩
      exact (h0.step (Cmd.ms_filter_call_method f (Method.MS_PLAYER_SET_LOOP (-1)))
        (Eq.refl _)).step (Cmd.ms_filter_call_method f (Method.MS_PLAYER_OPEN audiofile))
        (Eq.refl _)

/-- Claim C23 at two calls: a file that opens, played on the local player of the
current call, and the same call when no file opens. -/
theorem C23_playFile_status_witness :
    (playFile callEnv "busy.wav" (ToneManager.create [])).1 = 0
    ∧ (playFile callEnv "busy.wav" (ToneManager.create [])).2.engine
      = [Cmd.ms_filter_call_method Filter.stream_local_player (Method.MS_PLAYER_SET_LOOP (-1)),
         Cmd.ms_filter_call_method Filter.stream_local_player (Method.MS_PLAYER_OPEN "busy.wav"),
         Cmd.ms_filter_call_method Filter.stream_local_player Method.MS_PLAYER_START]
    ∧ (playFile deafEnv "busy.wav" (ToneManager.create [])).1 = -1
    ∧ Emits (fun c => c.isPlayerStart = false) (ToneManager.create [])
        (playFile deafEnv "busy.wav" (ToneManager.create [])).2 :=
  ⟨by decide, by decide, by decide,
    (C23_playFile_status deafEnv "busy.wav" (ToneManager.create [])).2.2.2 (by decide)⟩

/-! ## The stop path, restarts and missing descriptors -/

theorem doStopRingbackTone_emits_tone (tm : ToneManager) :
    Emits (fun c => c.isToneCmd = true) tm (doStopRingbackTone tm) := by
  unfold doStopRingbackTone
  split
  · exact ⟨[Cmd.ring_stop], Eq.refl _, by simp [Cmd.isToneCmd]⟩
  · exact Emits.nothing _ tm

theorem doStopTone_emits_tone (env : Env) (tm : ToneManager) :
    Emits (fun c => c.isToneCmd = true) tm (doStopTone env tm) := by
  unfold doStopTone
  simp only []
  have h1 := doStopRingbackTone_emits_tone tm
  split
  · have h2 := getAudioResource_emits_tone env AudioResourceType.LocalPlayer env.play_sndcard
      false (doStopRingbackTone tm)
    have h3 : Emits (fun c => c.isToneCmd = true) tm
        (match (getAudioResource env AudioResourceType.LocalPlayer env.play_sndcard false
            (doStopRingbackTone tm)).1 with
          | some f => emit (Cmd.ms_filter_call_method f Method.MS_PLAYER_CLOSE)
              (getAudioResource env AudioResourceType.LocalPlayer env.play_sndcard false
                (doStopRingbackTone tm)).2
          | none => (getAudioResource env AudioResourceType.LocalPlayer env.play_sndcard false
                (doStopRingbackTone tm)).2) := by
      split
      · exact (h1.append h2).step _ (Eq.refl _)
      · exact h1.append h2
    have h4 := getAudioResource_emits_tone env AudioResourceType.ToneGenerator none false
    split
    · exact (h3.append (h4 _)).step _ (Eq.refl _)
    · exact h3.append (h4 _)
  · exact h1

/-- Claim C27 fails on the code: session 2 is in `Ringtone` and silent (its ringtone
was never started because a ringback was playing, which has stopped since);
`update 3` in call state `Updating` does not start the ringtone player, with
tone indications disabled it issues no command at all, and with tone
indications enabled it plays the call-waiting tone. -/
theorem C27_counterexample :
    getState (stop plainEnv 1 (startRingtone plainEnv 2
        (startRingbackTone plainEnv 1 (ToneManager.create [])))) 2 = State.Ringtone
    ∧ (update quietUpdatingEnv 3 (stop plainEnv 1 (startRingtone plainEnv 2
        (startRingbackTone plainEnv 1 (ToneManager.create []))))).ringtoneplayer_started = false
    ∧ (update quietUpdatingEnv 3 (stop plainEnv 1 (startRingtone plainEnv 2
        (startRingbackTone plainEnv 1 (ToneManager.create []))))).engine
      = (stop plainEnv 1 (startRingtone plainEnv 2
        (startRingbackTone plainEnv 1 (ToneManager.create [])))).engine
    ∧ (update updatingEnv 3 (stop plainEnv 1 (startRingtone plainEnv 2
        (startRingbackTone plainEnv 1 (ToneManager.create []))))).ringtoneplayer_started = false
    ∧ Cmd.ms_filter_call_method Filter.ring_gendtmf
        (Method.MS_DTMF_GEN_PLAY_CUSTOM (generateToneFromId LinphoneToneID.CallWaiting))
      ∈ (update updatingEnv 3 (stop plainEnv 1 (startRingtone plainEnv 2
        (startRingbackTone plainEnv 1 (ToneManager.create []))))).engine := by
  decide

/-- Claim C27 as amended: on `update s` in call state `Updating` or
`UpdatedByRemote` while another session is in `Ringtone`, `doStartRingtone` runs
for the updated session `s` and `number_of_startRingtone` is incremented.  It
takes the in-call branch: the ringtone player is not started (its status is
unchanged and no command starts it), the call-waiting tone is played through
`doStartNamedTone` when tone indications are enabled, and nothing is issued
when they are disabled. -/
theorem C27_update_plays_call_waiting (env : Env) (tm : ToneManager) (s : Session)
    (h : (env.session s).state = CallState.Updating
      ∨ (env.session s).state = CallState.UpdatedByRemote)
    (ht : ∃ e ∈ tm.mSessions, e.1 ≠ s ∧ e.2 = State.Ringtone) :
    update env s tm
      = incStartRingtone
          (if env.tone_indications_enabled then
            doStartNamedTone env s LinphoneToneID.CallWaiting tm
           else tm)
    ∧ (update env s tm).ringtoneplayer_started = tm.ringtoneplayer_started
    ∧ Emits (fun c => c.isRingtoneStart = false) tm (update env s tm)
    ∧ (env.tone_indications_enabled = false →
        (update env s tm).engine = tm.engine ∧ (update env s tm).ringstream = tm.ringstream) := by
  have hc := (isAnotherSessionInState_iff tm s State.Ringtone).mpr ht
  have heq : update env s tm
      = incStartRingtone
          (if env.tone_indications_enabled then
            doStartNamedTone env s LinphoneToneID.CallWaiting tm
           else tm) := by
    rcases h with h | h <;> simp [update, h, hc, doStartRingtone]
  have hk := doStartNamedTone_keeps env s LinphoneToneID.CallWaiting tm
  refine ⟨heq, ?_, ?_, fun hd => ?_⟩
  · rw [heq]
    cases env.tone_indications_enabled
    · rfl
    · exact hk.player
  · rw [heq]
    cases env.tone_indications_enabled
    · exact Emits.nothing _ _
    · exact (hk.emits.weaken (fun c hc => hc.1)).append (Emits.of_engine_eq (Eq.refl _))
  · rw [heq, hd]
    exact ⟨Eq.refl _, Eq.refl _⟩

/-- Claim C27 as amended, at session 3 updated while session 2 rings. -/
theorem C27_update_plays_call_waiting_witness :
    (update updatingEnv 3 (startRingtone plainEnv 2
        (ToneManager.create []))).mStats.number_of_startRingtone = 2
    ∧ (update quietUpdatingEnv 3 (startRingtone plainEnv 2 (ToneManager.create []))).engine
      = (startRingtone plainEnv 2 (ToneManager.create [])).engine :=
  ⟨(congrArg (fun t => t.mStats.number_of_startRingtone)
      (C27_update_plays_call_waiting updatingEnv (startRingtone plainEnv 2
        (ToneManager.create [])) 3 (Or.inl (Eq.refl _))
        ⟨(2, State.Ringtone), by decide, by decide, Eq.refl _⟩).1).trans (by decide),
    ((C27_update_plays_call_waiting quietUpdatingEnv (startRingtone plainEnv 2
        (ToneManager.create [])) 3 (Or.inl (Eq.refl _))
        ⟨(2, State.Ringtone), by decide, by decide, Eq.refl _⟩).2.2.2 (Eq.refl _)).1⟩

/-- Claim C28 fails on the code: session 1 rings and the ringtone player is
started; `updateRings` counts a second ringtone start and issues the start
command again. -/
theorem C28_counterexample :
    getState (startRingtone plainEnv 1 (ToneManager.create [])) 1 = State.Ringtone
    ∧ (startRingtone plainEnv 1 (ToneManager.create [])).ringtoneplayer_started = true
    ∧ (startRingtone plainEnv 1 (ToneManager.create [])).mStats.number_of_startRingtone = 1
    ∧ (updateRings plainEnv
        (startRingtone plainEnv 1 (ToneManager.create []))).mStats.number_of_startRingtone = 2
    ∧ (updateRings plainEnv (startRingtone plainEnv 1 (ToneManager.create []))).engine
      = (startRingtone plainEnv 1 (ToneManager.create [])).engine
        ++ [Cmd.ms_snd_card_set_stream_type (some 2) StreamType.MS_SND_CARD_STREAM_RING,
            Cmd.linphone_ringtoneplayer_start 2 (some "ring.wav") 2000] := by
  decide

/-- Claim C28 as amended: whenever a session is in `Ringtone`, whether or not the
ringtone player is already started, `updateRings` runs `doStartRingtone` for a
session in `Ringtone` and adds one to `number_of_startRingtone`, changing no
other counter. -/
theorem C28_updateRings_restarts_ringtone (env : Env) (tm : ToneManager)
    (h : ∃ e ∈ tm.mSessions, e.2 = State.Ringtone) :
    (∃ r, (r, State.Ringtone) ∈ tm.mSessions
      ∧ updateRings env tm = incStartRingtone (doStartRingtone env r tm))
    ∧ (updateRings env tm).mStats
        = { tm.mStats with
            number_of_startRingtone := tm.mStats.number_of_startRingtone + 1 } := by
  obtain ⟨hf1, hf2⟩ := getSessionInState_true tm State.Ringtone nullptr h
  have heq : updateRings env tm = incStartRingtone (doStartRingtone env
      (getSessionInState tm State.Ringtone nullptr).2 tm) := by
    simp [updateRings, hf1]
  refine ⟨⟨_, hf2, heq⟩, ?_⟩
  rw [heq]
  exact incStartRingtone_mStats_of _ _ (doStartRingtone_audio env _ tm).mStats

/-- Claim C28 as amended, at a ringing session whose ringtone player is started. -/
theorem C28_updateRings_restarts_ringtone_witness :
    (startRingtone plainEnv 1 (ToneManager.create [])).ringtoneplayer_started = true
    ∧ (updateRings plainEnv
        (startRingtone plainEnv 1 (ToneManager.create []))).mStats.number_of_startRingtone = 2 :=
  ⟨by decide,
    (congrArg LinphoneCoreToneManagerStats.number_of_startRingtone
      (C28_updateRings_restarts_ringtone plainEnv (startRingtone plainEnv 1
        (ToneManager.create [])) ⟨(1, State.Ringtone), by decide, Eq.refl _⟩).2).trans
      (by decide)⟩

/-- Claim C29 fails on the code for `startNamedTone`: with no tone descriptor
registered at all, `startNamedTone 1 Busy` sets the session to `Tone` and plays
the built-in busy tone on the generator of a new tone ring stream. -/
theorem C29_counterexample :
    getToneFromId (ToneManager.create []) LinphoneToneID.Busy = none
    ∧ getState (startNamedTone plainEnv 1 LinphoneToneID.Busy (ToneManager.create [])) 1
      = State.Tone
    ∧ Cmd.ms_filter_call_method Filter.ring_gendtmf
        (Method.MS_DTMF_GEN_PLAY_CUSTOM (generateToneFromId LinphoneToneID.Busy))
      ∈ (startNamedTone plainEnv 1 LinphoneToneID.Busy (ToneManager.create [])).engine := by
  decide

/-- Claim C29 as amended: `startErrorTone s reason` and `startNamedTone s id` set
`s` to `Tone` whatever is registered.  With no descriptor for `reason`,
`startErrorTone` only stops all tones (when tone indications are enabled) and
issues no command that starts playback.  With no descriptor for `id`,
`startNamedTone` falls back to the built-in tone: with tone indications
enabled it stops all tones and runs `playTone` on `generateToneFromId id`; with
tone indications disabled it issues no command. -/
theorem C29_missing_descriptor (env : Env) (tm : ToneManager) (s : Session) :
    (∀ reason : LinphoneReason, getState (startErrorTone env s reason tm) s = State.Tone)
    ∧ (∀ toneId : LinphoneToneID, getState (startNamedTone env s toneId tm) s = State.Tone)
    ∧ (∀ reason : LinphoneReason, getToneFromReason tm reason = none →
        startErrorTone env s reason tm
          = (if env.tone_indications_enabled then
              incStartErrorTone (doStopAllTones env (setState s State.Tone tm))
             else setState s State.Tone tm)
        ∧ Emits (fun c => c.isPlay = false) tm (startErrorTone env s reason tm))
    ∧ (∀ toneId : LinphoneToneID, getToneFromId tm toneId = none →
        startNamedTone env s toneId tm
          = (if env.tone_indications_enabled then
              incStartNamedTone (playTone env s (generateToneFromId toneId)
                (doStopAllTones env (setState s State.Tone tm)))
             else setState s State.Tone tm)) := by
  obtain ⟨ha, he, _⟩ := doStopAllTones_spec env (setState s State.Tone tm)
  refine ⟨fun reason => ?_, fun toneId => ?_, fun reason hr => ?_, fun toneId hr => ?_⟩
  · unfold startErrorTone
    simp only []
    split
    · exact (getState_congr _ _ (ha.andThen (doStartErrorTone_keeps env s reason
        _).audio).mSessions s).trans (getState_setState_self tm s _)
    · exact getState_setState_self tm s _
  · unfold startNamedTone
    simp only []
    split
    · exact (getState_congr _ _ (ha.andThen (doStartNamedTone_keeps env s toneId
        _).audio).mSessions s).trans (getState_setState_self tm s _)
    · exact getState_setState_self tm s _
  · have hr2 : getToneFromReason (doStopAllTones env (setState s State.Tone tm)) reason
        = none := by
      unfold getToneFromReason at hr ⊢
      rw [ha.tones]
      exact hr
    have hd : doStartErrorTone env s reason (doStopAllTones env (setState s State.Tone tm))
        = doStopAllTones env (setState s State.Tone tm) := by
      simp [doStartErrorTone, hr2]
    have heq : startErrorTone env s reason tm
          = (if env.tone_indications_enabled then
              incStartErrorTone (doStopAllTones env (setState s State.Tone tm))
             else setState s State.Tone tm) := by
      simp only [startErrorTone, hd]
    refine ⟨heq, ?_⟩
    rw [heq]
    cases env.tone_indications_enabled
    · exact Emits.of_engine_eq (Eq.refl _)
    · exact ((Emits.of_engine_eq (Eq.refl _)).append
        (he.weaken (fun c hc => hc.2 (Eq.refl _)))).append (Emits.of_engine_eq (Eq.refl _))
  · have hr2 : getToneFromId (doStopAllTones env (setState s State.Tone tm)) toneId
        = none := by
      unfold getToneFromId at hr ⊢
      rw [ha.tones]
      exact hr
    have hd : doStartNamedTone env s toneId (doStopAllTones env (setState s State.Tone tm))
        = playTone env s (generateToneFromId toneId)
            (doStopAllTones env (setState s State.Tone tm)) := by
      simp [doStartNamedTone, hr2]
    simp only [startNamedTone, hd]

/-- Claim C29 as amended, at an empty tone list: an error tone that plays nothing
and a named tone with tone indications disabled. -/
theorem C29_missing_descriptor_witness :
    Emits (fun c => c.isPlay = false) (ToneManager.create [])
      (startErrorTone plainEnv 1 (LinphoneReason.other 486) (ToneManager.create []))
    ∧ startNamedTone quietEnv 1 LinphoneToneID.Busy (ToneManager.create [])
      = setState 1 State.Tone (ToneManager.create []) :=
  ⟨((C29_missing_descriptor plainEnv (ToneManager.create []) 1).2.2.1
      (LinphoneReason.other 486) (by decide)).2,
    ((C29_missing_descriptor quietEnv (ToneManager.create []) 1).2.2.2
      LinphoneToneID.Busy (by decide)).trans (by decide)⟩

/-- Claim C30: when `playTone` obtains a generator and no timer is armed, the
timer is armed afterwards exactly when `tone.duration > 0` and
`tone.repeat_count > 0`, with delay `cleanupDelay tone`; that delay is
`(duration + interval) * repeat_count + 1000` whenever this number fits an
`unsigned int`, as it does for every tone of `generateToneFromId`: 7900 for
hold, 4000 for busy, 2500 for lost, 1800 for end, and no timer for call
waiting.  With `duration <= 0` the state is the one `getAudioResource` returned:
no command is issued on the generator obtained. -/
theorem C30_cleanup_timer (env : Env) (session : Session) (tone : MSDtmfGenCustomTone)
    (tm : ToneManager) (f : Filter)
    (hgen : (getAudioResource env AudioResourceType.ToneGenerator (playToneCard env session)
      true tm).1 = some f)
    (htimer : tm.mTimer = none) :
    (playTone env session tone tm).mTimer
      = (if 0 < tone.duration ∧ 0 < tone.repeat_count then some (cleanupDelay tone) else none)
    ∧ ((0 ≤ (tone.duration + tone.interval) * tone.repeat_count + 1000
          ∧ (tone.duration + tone.interval) * tone.repeat_count + 1000 < 4294967296) →
        (cleanupDelay tone : Int)
          = (tone.duration + tone.interval) * tone.repeat_count + 1000)
    ∧ (∀ toneId : LinphoneToneID,
        (cleanupDelay (generateToneFromId toneId) : Int)
          = ((generateToneFromId toneId).duration + (generateToneFromId toneId).interval)
              * (generateToneFromId toneId).repeat_count + 1000)
    ∧ (playTone env session (generateToneFromId LinphoneToneID.CallOnHold) tm).mTimer
        = some 7900
    ∧ (playTone env session (generateToneFromId LinphoneToneID.Busy) tm).mTimer = some 4000
    ∧ (playTone env session (generateToneFromId LinphoneToneID.CallLost) tm).mTimer
        = some 2500
    ∧ (playTone env session (generateToneFromId LinphoneToneID.CallEnd) tm).mTimer = some 1800
    ∧ (playTone env session (generateToneFromId LinphoneToneID.CallWaiting) tm).mTimer = none
    ∧ (tone.duration ≤ 0 →
        playTone env session tone tm
          = (getAudioResource env AudioResourceType.ToneGenerator (playToneCard env session)
              true tm).2) := by
  have hm : (getAudioResource env AudioResourceType.ToneGenerator (playToneCard env session)
      true tm).2.mTimer = none :=
    (getAudioResource_spec env _ _ true tm).2.trans htimer
  have hgenl : ∀ t : MSDtmfGenCustomTone, (playTone env session t tm).mTimer
      = (if 0 < t.duration ∧ 0 < t.repeat_count then some (cleanupDelay t) else none) := by
    intro t
    by_cases hd : 0 < t.duration
    · by_cases hrc : 0 < t.repeat_count
      · simp [playTone, hgen, hd, hrc, createTimerToCleanTonePlayer, emit, hm]
      · simp [playTone, hgen, hd, hrc, emit, hm]
    · simp [playTone, hgen, hd, hm]
  refine ⟨hgenl tone, fun hr => ?_, fun toneId => ?_, ?_, ?_, ?_, ?_, ?_, fun hd => ?_⟩
  · unfold cleanupDelay
    rw [Int.toNat_of_nonneg (Int.emod_nonneg _ (by decide))]
    exact Int.emod_eq_of_lt hr.1 hr.2
  · cases toneId <;> decide
  · rw [hgenl]
    decide
  · rw [hgenl]
    decide
  · rw [hgenl]
    decide
  · rw [hgenl]
    decide
  · rw [hgenl]
    decide
  · have hnd : ¬ tone.duration > 0 := by omega
    simp [playTone, hgen, hnd]

/-- Claim C30 at the busy tone played without a current call: the tone ring
stream is created and the timer is armed for 4000 ms. -/
theorem C30_cleanup_timer_witness :
    (playTone plainEnv 1 (generateToneFromId LinphoneToneID.Busy)
      (ToneManager.create [])).mTimer = some 4000
    ∧ Cmd.createTimer 4000
      ∈ (playTone plainEnv 1 (generateToneFromId LinphoneToneID.Busy)
          (ToneManager.create [])).engine :=
  ⟨(C30_cleanup_timer plainEnv 1 (generateToneFromId LinphoneToneID.Busy)
      (ToneManager.create []) Filter.ring_gendtmf (by decide) (Eq.refl _)).2.2.2.2.1,
    by decide⟩

/-! ## The cleanup timer callback, the tone table and the conference parameters -/

/-- Claim C31, evaluated on the code: the claim says that while the source reports
that it is still playing the callback returns true and keeps polling.  Here the
timer is armed (4000 ms) and the source of the ring stream plays a file; the
callback returns false and leaves `mTimer` set.  The timer is then never
deleted: a later `createTimerToCleanTonePlayer` arms nothing and the end of a
tone is not counted by `onPlayToneEnd`.  At the same state a source that is
not playing, or an absent ring stream, deletes the timer and returns false, and
an armed timer is not replaced, as the claim says. -/
theorem C31_callback_stops_while_playing :
    timerArmedWhilePlaying.mTimer = some 4000
    ∧ timerArmedWhilePlaying.ringstream
        = some { card := some 1, file := none, source := true, gendtmf := true }
    ∧ cleanTonePlayerCallback 0 MSPlayerState.MSPlayerPlaying timerArmedWhilePlaying
        = (false, timerArmedWhilePlaying)
    ∧ createTimerToCleanTonePlayer 7900
        (cleanTonePlayerCallback 0 MSPlayerState.MSPlayerPlaying timerArmedWhilePlaying).2
        = timerArmedWhilePlaying
    ∧ (onPlayToneEnd plainEnv EventId.MS_DTMF_GEN_END
        (cleanTonePlayerCallback 0 MSPlayerState.MSPlayerPlaying
          timerArmedWhilePlaying).2).mStats.number_of_stopTone
        = timerArmedWhilePlaying.mStats.number_of_stopTone
    ∧ cleanTonePlayerCallback 0 MSPlayerState.MSPlayerClosed timerArmedWhilePlaying
        = (false, deleteTimer timerArmedWhilePlaying)
    ∧ (deleteTimer timerArmedWhilePlaying).mTimer = none
    ∧ cleanTonePlayerCallback 0 MSPlayerState.MSPlayerPlaying
        (doStopRingbackTone timerArmedWhilePlaying)
        = (false, deleteTimer (doStopRingbackTone timerArmedWhilePlaying))
    ∧ cleanTonePlayerCallback (-1) MSPlayerState.MSPlayerPlaying timerArmedWhilePlaying
        = (true, timerArmedWhilePlaying) := by
  decide

/-- Claim C32: `generateToneFromId` is the fixed table hold (300, 440, 2000, 3),
waiting (300, 440, 2000, 0), busy (500, 440, 500, 3), lost (250, 620, 250, 3),
end (200, 480, 200, 2) for duration, first frequency, interval and repeat
count.  Each of these five has a positive duration and one non-zero frequency;
the only other tone id, `Undefined`, gives zero duration, interval, repeat
count and frequencies, and playing it issues nothing beyond what
`getAudioResource` does to set up the tone ring stream. -/
theorem C32_generateToneFromId_table (env : Env) (session : Session) (tm : ToneManager) :
    generateToneFromId LinphoneToneID.CallOnHold
      = { duration := 300, frequencies0 := 440, frequencies1 := 0, amplitude_halves := 2,
          interval := 2000, repeat_count := 3 }
    ∧ generateToneFromId LinphoneToneID.CallWaiting
      = { duration := 300, frequencies0 := 440, frequencies1 := 0, amplitude_halves := 2,
          interval := 2000, repeat_count := 0 }
    ∧ generateToneFromId LinphoneToneID.Busy
      = { duration := 500, frequencies0 := 440, frequencies1 := 0, amplitude_halves := 2,
          interval := 500, repeat_count := 3 }
    ∧ generateToneFromId LinphoneToneID.CallLost
      = { duration := 250, frequencies0 := 620, frequencies1 := 0, amplitude_halves := 2,
          interval := 250, repeat_count := 3 }
    ∧ generateToneFromId LinphoneToneID.CallEnd
      = { duration := 200, frequencies0 := 480, frequencies1 := 0, amplitude_halves := 1,
          interval := 200, repeat_count := 2 }
    ∧ (∀ toneId : LinphoneToneID,
        (toneId = LinphoneToneID.Undefined
          ∧ (generateToneFromId toneId).duration = 0
          ∧ (generateToneFromId toneId).interval = 0
          ∧ (generateToneFromId toneId).repeat_count = 0
          ∧ (generateToneFromId toneId).frequencies0 = 0
          ∧ (generateToneFromId toneId).frequencies1 = 0)
        ∨ (toneId ≠ LinphoneToneID.Undefined
          ∧ 0 < (generateToneFromId toneId).duration
          ∧ (generateToneFromId toneId).frequencies0 ≠ 0
          ∧ (generateToneFromId toneId).frequencies1 = 0))
    ∧ playTone env session (generateToneFromId LinphoneToneID.Undefined) tm
      = (getAudioResource env AudioResourceType.ToneGenerator (playToneCard env session)
          true tm).2
    ∧ Emits (fun c => c.isSetupCmd = true) tm
        (playTone env session (generateToneFromId LinphoneToneID.Undefined) tm) := by
  have hp : playTone env session (generateToneFromId LinphoneToneID.Undefined) tm
      = (getAudioResource env AudioResourceType.ToneGenerator (playToneCard env session)
          true tm).2 := by
    unfold playTone
    simp only []
    split
    · rfl
    · have hd : ¬ (generateToneFromId LinphoneToneID.Undefined).duration > 0 := by decide
      rw [if_neg hd]
  refine ⟨by decide, by decide, by decide, by decide, by decide, ?_, hp, ?_⟩
  · intro toneId
    cases toneId <;> decide
  · rw [hp]
    exact getAudioResource_emits_setup env _ _ true tm

/-- Claim C33, evaluated on the code: the claim says that each setter writes its
own flag and only its own.  `linphone_conference_params_set_audio_enabled` and
`linphone_conference_params_set_chat_enabled` are the same function as
`linphone_conference_params_set_video_enabled`: on params with audio and video
enabled and chat disabled, disabling audio leaves audio enabled and disables
video, and enabling chat leaves chat disabled.  The video setter does what the
claim says. -/
theorem C33_setters_write_video_flag (params : ConferenceParams) (enable : Bool) :
    linphone_conference_params_is_audio_enabled
        (linphone_conference_params_set_audio_enabled
          { mEnableAudio := true, mEnableVideo := true, mEnableChat := false } false) = true
    ∧ linphone_conference_params_is_video_enabled
        (linphone_conference_params_set_audio_enabled
          { mEnableAudio := true, mEnableVideo := true, mEnableChat := false } false) = false
    ∧ linphone_conference_params_is_chat_enabled
        (linphone_conference_params_set_chat_enabled
          { mEnableAudio := true, mEnableVideo := true, mEnableChat := false } true) = false
    ∧ linphone_conference_params_set_audio_enabled params enable
        = linphone_conference_params_set_video_enabled params enable
    ∧ linphone_conference_params_set_chat_enabled params enable
        = linphone_conference_params_set_video_enabled params enable
    ∧ linphone_conference_params_is_audio_enabled
        (linphone_conference_params_set_audio_enabled params enable)
        = linphone_conference_params_is_audio_enabled params
    ∧ linphone_conference_params_is_chat_enabled
        (linphone_conference_params_set_chat_enabled params enable)
        = linphone_conference_params_is_chat_enabled params
    ∧ linphone_conference_params_is_video_enabled
        (linphone_conference_params_set_video_enabled params enable) = enable
    ∧ linphone_conference_params_is_audio_enabled
        (linphone_conference_params_set_video_enabled params enable)
        = linphone_conference_params_is_audio_enabled params
    ∧ linphone_conference_params_is_chat_enabled
        (linphone_conference_params_set_video_enabled params enable)
        = linphone_conference_params_is_chat_enabled params := by
  refine ⟨by decide, by decide, by decide, Eq.refl _, Eq.refl _, Eq.refl _, Eq.refl _, ?_,
    Eq.refl _, Eq.refl _⟩
  cases enable <;> rfl

/-! ## The table as a sorted map -/

theorem mem_mapAssign (m : List (Session × State)) (k : Session) (v : State)
    (hs : sortedTable m) (e : Session × State) (he : e ∈ mapAssign m k v) :
    e = (k, v) ∨ (e ∈ m ∧ e.1 ≠ k) := by
  induction m with
  | nil =>
    simp [mapAssign] at he
    exact Or.inl he
  | cons a rest ih =>
    obtain ⟨k1, v1⟩ := a
    have hp := List.pairwise_cons.mp hs
    simp only [mapAssign] at he
    split_ifs at he with h1 h2
    · rcases List.mem_cons.mp he with h | h
      · exact Or.inl h
      · refine Or.inr ⟨h, ?_⟩
        rcases List.mem_cons.mp h with h3 | h3
        · rw [h3]
          exact Nat.ne_of_gt h1
        · have h4 : k1 < e.1 := hp.1 e h3
          exact Nat.ne_of_gt (Nat.lt_trans h1 h4)
    · rcases List.mem_cons.mp he with h | h
      · exact Or.inl h
      · refine Or.inr ⟨List.mem_cons_of_mem _ h, ?_⟩
        have h4 : k1 < e.1 := hp.1 e h
        rw [h2]
        exact Nat.ne_of_gt h4
    · rcases List.mem_cons.mp he with h | h
      · refine Or.inr ⟨by rw [h]; exact List.mem_cons_self _ _, ?_⟩
        rw [h]
        exact fun hk => h2 hk.symm
      · rcases ih hp.2 h with h3 | ⟨h3, h4⟩
        · exact Or.inl h3
        · exact Or.inr ⟨List.mem_cons_of_mem _ h3, h4⟩

theorem sortedTable_mapAssign (m : List (Session × State)) (k : Session) (v : State)
    (hs : sortedTable m) : sortedTable (mapAssign m k v) := by
  induction m with
  | nil => simp [mapAssign, sortedTable]
  | cons a rest ih =>
    obtain ⟨k1, v1⟩ := a
    have hp := List.pairwise_cons.mp hs
    simp only [mapAssign]
    split_ifs with h1 h2
    · refine List.pairwise_cons.mpr ⟨?_, hs⟩
      intro e he
      rcases List.mem_cons.mp he with h | h
      · rw [h]
        exact h1
      · have h4 : k1 < e.1 := hp.1 e h
        exact Nat.lt_trans h1 h4
    · refine List.pairwise_cons.mpr ⟨?_, hp.2⟩
      intro e he
      have h4 : k1 < e.1 := hp.1 e he
      show k < e.1
      rw [h2]
      exact h4
    · refine List.pairwise_cons.mpr ⟨?_, ih hp.2⟩
      intro e he
      rcases mem_mapAssign rest k v hp.2 e he with h | ⟨h, _⟩
      · rw [h]
        show k1 < k
        exact Nat.lt_of_le_of_ne (Nat.le_of_not_lt h1) (fun hk => h2 hk.symm)
      · exact hp.1 e h

theorem sortedTable_mapErase (m : List (Session × State)) (k : Session)
    (hs : sortedTable m) : sortedTable (mapErase m k) :=
  List.Pairwise.filter _ hs

theorem isThereACall_setState (tm : ToneManager) (s : Session) (v : State)
    (hs : sortedTable tm.mSessions)
    (hc : isAnotherSessionInState tm s State.Call = false) (hv : v ≠ State.Call) :
    isThereACall (setState s v tm) = false := by
  simp only [isThereACall, setState, List.any_eq_false]
  simp only [isAnotherSessionInState, List.any_eq_false] at hc
  intro e he
  rcases mem_mapAssign _ _ _ hs e he with h | ⟨h1, h2⟩
  · rw [h]
    simpa using hv
  · have := hc e h1
    simpa [h2] using this

/-! ## The table stays a sorted map -/

theorem entry_table (env : Env) (op : Op) (tm : ToneManager) :
    (op.run env tm).mSessions = tm.mSessions
    ∨ (∃ k v, (op.run env tm).mSessions = mapAssign tm.mSessions k v)
    ∨ (∃ k, (op.run env tm).mSessions = mapErase tm.mSessions k) := by
  have hall : ∀ (tm : ToneManager), (doStopAllTones env tm).mSessions = tm.mSessions :=
    fun tm => (doStopAllTones_spec env tm).1.mSessions
  have hstop : ∀ (s : Session) (st : State),
      (doStop env s st tm).mSessions = tm.mSessions
      ∨ (∃ k v, (doStop env s st tm).mSessions = mapAssign tm.mSessions k v)
      ∨ (∃ k, (doStop env s st tm).mSessions = mapErase tm.mSessions k) := by
    intro s st
    rw [doStop_mSessions]
    split
    · exact Or.inl (Eq.refl _)
    · exact Or.inr (Or.inl ⟨s, st, Eq.refl _⟩)
  cases op with
  | startRingbackTone s =>
    simp only [Op.run]
    unfold startRingbackTone
    split
    · exact Or.inl (Eq.refl _)
    · refine Or.inr (Or.inl ⟨s, State.Ringback, ?_⟩)
      simp only []
      split
      · rfl
      · split
        · rw [(doStartRingbackTone_keeps env s _).audio.mSessions, hall]
          rfl
        · rfl
  | startRingtone s =>
    refine Or.inr (Or.inl ⟨s, State.Ringtone, ?_⟩)
    simp only [Op.run]
    unfold startRingtone
    simp only []
    split
    · show (doStartRingtone env s _).mSessions = _
      rw [(doStartRingtone_audio env s _).mSessions, hall]
      rfl
    · rfl
  | startErrorTone s reason =>
    refine Or.inr (Or.inl ⟨s, State.Tone, ?_⟩)
    simp only [Op.run]
    unfold startErrorTone
    simp only []
    split
    · show (doStartErrorTone env s reason _).mSessions = _
      rw [(doStartErrorTone_keeps env s reason _).audio.mSessions, hall]
      rfl
    · rfl
  | startNamedTone s toneId =>
    refine Or.inr (Or.inl ⟨s, State.Tone, ?_⟩)
    simp only [Op.run]
    unfold startNamedTone
    simp only []
    split
    · show (doStartNamedTone env s toneId _).mSessions = _
      rw [(doStartNamedTone_keeps env s toneId _).audio.mSessions, hall]
      rfl
    · rfl
  | goToCall s => exact hstop s State.Call
  | stop s => exact hstop s State.None
  | removeSession s => exact Or.inr (Or.inr ⟨s, Eq.refl _⟩)
  | update s =>
    have herr : (if env.tone_indications_enabled = true then
          incStartErrorTone
            (if (env.session s).transferState = CallState.Connected then
              doStartErrorTone env s LinphoneReason.Transferred (doStop env s State.None tm)
            else doStartErrorTone env s (env.session s).reason (doStop env s State.None tm))
         else doStop env s State.None tm).mSessions = (doStop env s State.None tm).mSessions := by
      split
      · split
        · exact (doStartErrorTone_keeps env s _ _).audio.mSessions
        · exact (doStartErrorTone_keeps env s _ _).audio.mSessions
      · rfl
    have hupd : (if isAnotherSessionInState tm s State.Ringtone = true then
          incStartRingtone (doStartRingtone env s tm) else tm).mSessions = tm.mSessions := by
      split
      · exact (doStartRingtone_audio env s tm).mSessions
      · rfl
    have hrun : (updateRings env (setState s State.Call tm)).mSessions
        = mapAssign tm.mSessions s State.Call := by
      rw [updateRings_mSessions]
      rfl
    simp only [Op.run]
    cases h2 : (env.session s).state <;>
      simp only [update, h2] <;>
      first
        | exact Or.inl trivial
        | exact Or.inl (Eq.refl _)
        | exact Or.inl hupd
        | exact Or.inr (Or.inl ⟨s, State.Call, hrun⟩)
        | (rw [herr]; exact hstop s State.None)
  | onFilePlayerEnd e =>
    refine Or.inl ?_
    simp only [Op.run]
    unfold onFilePlayerEnd
    split
    · rw [updateRings_mSessions]
      exact (doStopTone_keeps env tm).audio.mSessions
    · rfl
  | onPlayToneEnd e =>
    refine Or.inl ?_
    simp only [Op.run]
    unfold onPlayToneEnd
    split
    · simp only []
      rw [updateRings_mSessions]
      split <;> rfl
    · rfl

theorem sortedTable_entry (env : Env) (op : Op) (tm : ToneManager)
    (h : sortedTable tm.mSessions) : sortedTable (op.run env tm).mSessions := by
  rcases entry_table env op tm with he | ⟨k, v, he⟩ | ⟨k, he⟩
  · rw [he]
    exact h
  · rw [he]
    exact sortedTable_mapAssign _ k v h
  · rw [he]
    exact sortedTable_mapErase _ k h

theorem sortedTable_runOps (ops : List (Env × Op)) (tm : ToneManager)
    (h : sortedTable tm.mSessions) : sortedTable (runOps ops tm).mSessions := by
  induction ops generalizing tm with
  | nil => exact h
  | cons eo rest ih =>
    have := ih (eo.2.run eo.1 tm) (sortedTable_entry eo.1 eo.2 tm h)
    simpa [runOps] using this

theorem sortedTable_reachable (ops : List (Env × Op)) (tones : List LinphoneToneDescription) :
    sortedTable (runOps ops (ToneManager.create tones)).mSessions :=
  sortedTable_runOps ops _ List.Pairwise.nil

/-! ## What stopping does to the ring stream and the engine log -/

theorem getAudioResource_noCreate (env : Env) (rtype : AudioResourceType)
    (card : Option SndCard) (tm : ToneManager) (h : tm.ringstream = none) :
    (getAudioResource env rtype card false tm).2.ringstream = none := by
  unfold getAudioResource
  simp only []
  repeat' split
  all_goals simp_all [createRingStream, ring_start, ring_stop, emit]

theorem getAudioResource_stream_player (env : Env) (card : Option SndCard) (create : Bool)
    (tm : ToneManager) (st : AudioStream) (hst : currentStream env = some st)
    (hl : st.local_player = true) :
    getAudioResource env AudioResourceType.LocalPlayer card create tm
      = (some Filter.stream_local_player, tm) := by
  cases hc : env.current_call with
  | some call =>
    simp only [currentStream, hc] at hst
    simp [getAudioResource, hc, hst, hl]
  | none =>
    cases hconf : env.is_in_conference
    · simp [currentStream, hc, hconf] at hst
    · simp only [currentStream, hc, hconf] at hst
      simp at hst
      simp [getAudioResource, hc, hconf, hst, hl]

theorem getAudioResource_stream_generator (env : Env) (card : Option SndCard) (create : Bool)
    (tm : ToneManager) (st : AudioStream) (hst : currentStream env = some st)
    (hd : st.dtmfgen = true) :
    getAudioResource env AudioResourceType.ToneGenerator card create tm
      = (some Filter.stream_dtmfgen, tm) := by
  cases hc : env.current_call with
  | some call =>
    simp only [currentStream, hc] at hst
    simp [getAudioResource, hc, hst, hd]
  | none =>
    cases hconf : env.is_in_conference
    · simp [currentStream, hc, hconf] at hst
    · simp only [currentStream, hc, hconf] at hst
      simp at hst
      simp [getAudioResource, hc, hconf, hst, hd]

theorem doStopRingbackTone_stops (tm : ToneManager) :
    (doStopRingbackTone tm).ringstream = none
    ∧ (doStopRingbackTone tm).engine
        = tm.engine ++ (if tm.ringstream.isSome then [Cmd.ring_stop] else [])
    ∧ (doStopRingbackTone tm).mTimer = tm.mTimer := by
  unfold doStopRingbackTone
  cases h : tm.ringstream with
  | none => simp [h]
  | some rs => simp [ring_stop, emit]

theorem doStopTone_stops (env : Env) (tm : ToneManager) :
    (doStopTone env tm).ringstream = none
    ∧ (doStopTone env tm).mTimer = tm.mTimer
    ∧ Emits (calm true) (doStopRingbackTone tm) (doStopTone env tm)
    ∧ (isThereACall tm = false → doStopTone env tm = doStopRingbackTone tm) := by
  obtain ⟨h1, _, h3⟩ := doStopRingbackTone_stops tm
  have hcall : isThereACall (doStopRingbackTone tm) = isThereACall tm := by
    simp [isThereACall, (doStopRingbackTone_keeps tm).audio.mSessions]
  cases hc : isThereACall tm with
  | false =>
    have he : doStopTone env tm = doStopRingbackTone tm := by
      simp [doStopTone, hcall, hc]
    rw [he]
    exact ⟨h1, h3, Emits.nothing _ _, fun _ => Eq.refl _⟩
  | true =>
    have hr := getAudioResource_noCreate env AudioResourceType.LocalPlayer env.play_sndcard
      (doStopRingbackTone tm) h1
    have hrt := (getAudioResource_spec env AudioResourceType.LocalPlayer env.play_sndcard false
      (doStopRingbackTone tm))
    have h2r : (match (getAudioResource env AudioResourceType.LocalPlayer env.play_sndcard false
            (doStopRingbackTone tm)).1 with
          | some f => emit (Cmd.ms_filter_call_method f Method.MS_PLAYER_CLOSE)
              (getAudioResource env AudioResourceType.LocalPlayer env.play_sndcard false
                (doStopRingbackTone tm)).2
          | none => (getAudioResource env AudioResourceType.LocalPlayer env.play_sndcard false
                (doStopRingbackTone tm)).2).ringstream = none
        ∧ (match (getAudioResource env AudioResourceType.LocalPlayer env.play_sndcard false
            (doStopRingbackTone tm)).1 with
          | some f => emit (Cmd.ms_filter_call_method f Method.MS_PLAYER_CLOSE)
              (getAudioResource env AudioResourceType.LocalPlayer env.play_sndcard false
                (doStopRingbackTone tm)).2
          | none => (getAudioResource env AudioResourceType.LocalPlayer env.play_sndcard false
                (doStopRingbackTone tm)).2).mTimer = tm.mTimer
        ∧ Emits (calm true) (doStopRingbackTone tm)
          (match (getAudioResource env AudioResourceType.LocalPlayer env.play_sndcard false
            (doStopRingbackTone tm)).1 with
          | some f => emit (Cmd.ms_filter_call_method f Method.MS_PLAYER_CLOSE)
              (getAudioResource env AudioResourceType.LocalPlayer env.play_sndcard false
                (doStopRingbackTone tm)).2
          | none => (getAudioResource env AudioResourceType.LocalPlayer env.play_sndcard false
                (doStopRingbackTone tm)).2) := by
      split
      · exact ⟨hr, hrt.2.trans h3, hrt.1.emits.step _ ⟨by rfl, fun _ => by rfl⟩⟩
      · exact ⟨hr, hrt.2.trans h3, hrt.1.emits⟩
    have hq := fun t ht => getAudioResource_noCreate env AudioResourceType.ToneGenerator none t ht
    have hqt := fun t => getAudioResource_spec env AudioResourceType.ToneGenerator none false t
    unfold doStopTone
    simp only [hcall, hc, if_true]
    refine ⟨?_, ?_, ?_, fun h => absurd h (by simp)⟩
    · split
      · exact hq _ h2r.1
      · exact hq _ h2r.1
    · split
      · exact ((hqt _).2).trans h2r.2.1
      · exact ((hqt _).2).trans h2r.2.1
    · split
      · exact (h2r.2.2.append (hqt _).1.emits).step _ ⟨by rfl, fun _ => by rfl⟩
      · exact h2r.2.2.append (hqt _).1.emits

theorem doStopTone_stream (env : Env) (tm : ToneManager) (st : AudioStream)
    (hc : isThereACall tm = true) (hst : currentStream env = some st)
    (hl : st.local_player = true) (hd : st.dtmfgen = true) :
    doStopTone env tm
      = emit (Cmd.ms_filter_call_method Filter.stream_dtmfgen Method.MS_DTMF_GEN_STOP)
          (emit (Cmd.ms_filter_call_method Filter.stream_local_player Method.MS_PLAYER_CLOSE)
            (doStopRingbackTone tm)) := by
  have hcall : isThereACall (doStopRingbackTone tm) = true := by
    rw [← hc]
    simp [isThereACall, (doStopRingbackTone_keeps tm).audio.mSessions]
  unfold doStopTone
  simp only [hcall, if_true, getAudioResource_stream_player env _ _ _ st hst hl,
    getAudioResource_stream_generator env _ _ _ st hst hd]

theorem doStopAllTones_stops (env : Env) (tm : ToneManager) :
    (doStopAllTones env tm).ringstream = none
    ∧ (doStopAllTones env tm).ringtoneplayer_started = false
    ∧ (doStopAllTones env tm).mTimer = tm.mTimer
    ∧ ∃ mid : List Cmd,
        (doStopAllTones env tm).engine
          = tm.engine ++ (if tm.ringstream.isSome then [Cmd.ring_stop] else []) ++ mid
            ++ (if tm.ringtoneplayer_started then [Cmd.linphone_ringtoneplayer_stop] else [])
        ∧ (∀ c ∈ mid, calm true c)
        ∧ (isThereACall tm = false → mid = []) := by
  obtain ⟨h1, h2, ⟨mid, he, hmid⟩, h4⟩ := doStopTone_stops env tm
  obtain ⟨_, hb, _⟩ := doStopRingbackTone_stops tm
  have hp : (doStopTone env tm).ringtoneplayer_started = tm.ringtoneplayer_started :=
    (doStopTone_keeps env tm).player
  have hmid0 : isThereACall tm = false → mid = [] := by
    intro hc
    rw [h4 hc] at he
    simpa using he
  cases hs : tm.ringtoneplayer_started with
  | false =>
    have hs2 : (doStopTone env tm).ringtoneplayer_started = false := hp.trans hs
    have hall : doStopAllTones env tm = doStopTone env tm := by
      simp [doStopAllTones, hs2]
    rw [hall]
    refine ⟨h1, hs2, h2, mid, ?_, hmid, hmid0⟩
    rw [he, hb]
    simp
  | true =>
    have hs2 : (doStopTone env tm).ringtoneplayer_started = true := hp.trans hs
    have hall : doStopAllTones env tm = linphone_ringtoneplayer_stop (doStopTone env tm) := by
      simp [doStopAllTones, hs2]
    rw [hall]
    refine ⟨h1, Eq.refl _, h2, mid, ?_, hmid, hmid0⟩
    show (doStopTone env tm).engine ++ [Cmd.linphone_ringtoneplayer_stop] = _
    rw [he, hb]
    simp

/-! ## Starting the ringtone, a tone or a file: the commands issued -/

theorem doStartRingtone_muted (env : Env) (tm : ToneManager) (s : Session)
    (h1 : isAnotherSessionInState tm s State.Call = false)
    (h2 : isAnotherSessionInState tm s State.Ringtone = false)
    (hm : (env.lsd_card = none ∧ env.ring_sndcard = none)
      ∨ env.native_ringing_enabled = true ∨ env.callkit_enabled = true) :
    doStartRingtone env s tm = tm := by
  unfold doStartRingtone
  simp only [h1, h2, Bool.or_self, Bool.false_eq_true, if_false]
  rcases hm with ⟨hl, hr⟩ | hn | hk
  · simp [hl, hr]
  · split
    · simp [hn]
    · rfl
  · split
    · split
      · simp [hk]
      · rfl
    · rfl

theorem startRingtone_alone (env : Env) (tm : ToneManager) (s : Session)
    (hs : sortedTable tm.mSessions)
    (h1 : isAnotherSessionInState tm s State.Ringtone = false)
    (h2 : isAnotherSessionInState tm s State.Ringback = false)
    (h3 : isAnotherSessionInState tm s State.Call = false) :
    (∀ rc : SndCard,
        (env.lsd_card = some rc ∨ (env.lsd_card = none ∧ env.ring_sndcard = some rc)) →
        env.native_ringing_enabled = false → env.callkit_enabled = false →
        (startRingtone env s tm).ringtoneplayer_started = true
        ∧ (startRingtone env s tm).ringstream = none
        ∧ (startRingtone env s tm).engine
          = tm.engine ++ (if tm.ringstream.isSome then [Cmd.ring_stop] else [])
            ++ (if tm.ringtoneplayer_started then [Cmd.linphone_ringtoneplayer_stop] else [])
            ++ [Cmd.ms_snd_card_set_stream_type (some rc) StreamType.MS_SND_CARD_STREAM_RING,
                Cmd.linphone_ringtoneplayer_start rc env.local_ring 2000])
    ∧ (((env.lsd_card = none ∧ env.ring_sndcard = none)
          ∨ env.native_ringing_enabled = true ∨ env.callkit_enabled = true) →
        (startRingtone env s tm).ringtoneplayer_started = false
        ∧ (startRingtone env s tm).ringstream = none
        ∧ (startRingtone env s tm).engine
          = tm.engine ++ (if tm.ringstream.isSome then [Cmd.ring_stop] else [])
            ++ (if tm.ringtoneplayer_started then [Cmd.linphone_ringtoneplayer_stop]
                else [])) := by
  have heq : startRingtone env s tm = incStartRingtone
      (doStartRingtone env s (doStopAllTones env (setState s State.Ringtone tm))) := by
    simp [startRingtone, isAnotherSessionInState_setState_self, h1, h2]
  have hcall : isThereACall (setState s State.Ringtone tm) = false :=
    isThereACall_setState tm s _ hs h3 (by decide)
  obtain ⟨hr, hp, _, mid, he, _, hmid⟩ := doStopAllTones_stops env (setState s State.Ringtone tm)
  have hm0 := hmid hcall
  subst hm0
  have he2 : (doStopAllTones env (setState s State.Ringtone tm)).engine
      = tm.engine ++ (if tm.ringstream.isSome then [Cmd.ring_stop] else [])
        ++ (if tm.ringtoneplayer_started then [Cmd.linphone_ringtoneplayer_stop] else []) := by
    rw [he]
    simp [setState]
  have ha := (doStopAllTones_spec env (setState s State.Ringtone tm)).1
  have g1 : isAnotherSessionInState (doStopAllTones env (setState s State.Ringtone tm)) s
      State.Call = false := by
    rw [isAnotherSessionInState_congr _ _ ha.mSessions, isAnotherSessionInState_setState_self]
    exact h3
  have g2 : isAnotherSessionInState (doStopAllTones env (setState s State.Ringtone tm)) s
      State.Ringtone = false := by
    rw [isAnotherSessionInState_congr _ _ ha.mSessions, isAnotherSessionInState_setState_self]
    exact h1
  refine ⟨fun rc hcard hn hk => ?_, fun hm => ?_⟩
  · rw [heq, doStartRingtone_alone env _ s rc g1 g2 hcard hn hk]
    refine ⟨Eq.refl _, hr, ?_⟩
    show (doStopAllTones env (setState s State.Ringtone tm)).engine
        ++ [Cmd.ms_snd_card_set_stream_type (some rc) StreamType.MS_SND_CARD_STREAM_RING]
        ++ [Cmd.linphone_ringtoneplayer_start rc env.local_ring 2000] = _
    rw [he2]
    simp
  · rw [heq, doStartRingtone_muted env _ s g1 g2 hm]
    exact ⟨hp, hr, he2⟩

theorem playTone_stream (env : Env) (session : Session) (tone : MSDtmfGenCustomTone)
    (tm : ToneManager) (st : AudioStream) (hst : currentStream env = some st)
    (hd : st.dtmfgen = true) (hdur : 0 < tone.duration) :
    (playTone env session tone tm).engine
      = tm.engine
        ++ [Cmd.ms_filter_call_method Filter.stream_dtmfgen (Method.MS_DTMF_GEN_PLAY_CUSTOM tone),
            Cmd.ms_filter_remove_notify_callback Filter.stream_dtmfgen Callback.on_play_tone_end,
            Cmd.ms_filter_add_notify_callback Filter.stream_dtmfgen Callback.on_play_tone_end]
        ++ (if 0 < tone.repeat_count ∧ tm.mTimer = none then
              [Cmd.createTimer (cleanupDelay tone)] else [])
    ∧ (playTone env session tone tm).ringstream = tm.ringstream
    ∧ (playTone env session tone tm).ringtoneplayer_started = tm.ringtoneplayer_started := by
  have hg := getAudioResource_stream_generator env (playToneCard env session) true tm st hst hd
  unfold playTone
  simp only [hg]
  have hdur2 : tone.duration > 0 := hdur
  simp only [hdur2, if_true]
  by_cases hr : 0 < tone.repeat_count
  · have hr2 : tone.repeat_count > 0 := hr
    simp only [hr2, if_true]
    cases hm : tm.mTimer with
    | none => simp [createTimerToCleanTonePlayer, emit, hm, hr]
    | some d => simp [createTimerToCleanTonePlayer, emit, hm]
  · have hr2 : ¬ tone.repeat_count > 0 := hr
    simp [hr2, emit, hr]

theorem playFile_stream (env : Env) (audiofile : String) (tm : ToneManager) (st : AudioStream)
    (hst : currentStream env = some st) (hl : st.local_player = true)
    (ho : env.ms_player_open audiofile = 0) :
    (playFile env audiofile tm).1 = 0
    ∧ (playFile env audiofile tm).2.engine
      = tm.engine
        ++ [Cmd.ms_filter_call_method Filter.stream_local_player (Method.MS_PLAYER_SET_LOOP (-1)),
            Cmd.ms_filter_call_method Filter.stream_local_player
              (Method.MS_PLAYER_OPEN audiofile),
            Cmd.ms_filter_call_method Filter.stream_local_player Method.MS_PLAYER_START]
        ++ (match tm.ringstream with
            | some rs =>
              if rs.source then
                [Cmd.ms_filter_add_notify_callback Filter.ring_source
                  Callback.on_file_player_end]
              else []
            | none => [])
    ∧ (playFile env audiofile tm).2.ringstream = tm.ringstream
    ∧ (playFile env audiofile tm).2.ringtoneplayer_started = tm.ringtoneplayer_started := by
  have hg := getAudioResource_stream_player env env.play_sndcard true tm st hst hl
  unfold playFile
  simp only [hg, ho]
  cases hr : tm.ringstream with
  | none => simp [emit, hr]
  | some rs =>
    cases hsrc : rs.source <;> simp [emit, hr, hsrc]

theorem doStop_tones (env : Env) (s : Session) (newState : State) (tm : ToneManager) :
    (doStop env s newState tm).tones = tm.tones := by
  cases h : getState tm s
  · simp [doStop, h]
  · simp only [doStop, h]
    split
    · exact (doStopTone_keeps env tm).audio.tones
    · rfl
  · simp only [doStop, h]
    exact (doStopRingbackTone_keeps tm).audio.tones
  · simp only [doStop, h]
    exact (doStopRingtone_spec env s tm).1.tones
  · simp only [doStop, h]
    exact (doStopTone_keeps env tm).audio.tones

/-! ## The counters: each operation adds at most one to each -/

theorem stopsStep_refl (a : LinphoneCoreToneManagerStats) : stopsStep a a := by
  unfold stopsStep
  omega

theorem startsStep_refl (a : LinphoneCoreToneManagerStats) : startsStep a a := by
  unfold startsStep
  omega

theorem statsStep_of (a b c : LinphoneCoreToneManagerStats) (h1 : stopsStep a b)
    (h2 : startsStep b c) : statsStep a c := by
  unfold stopsStep at h1
  unfold startsStep at h2
  unfold statsStep
  omega

theorem statsStep_of_stops (a b : LinphoneCoreToneManagerStats) (h : stopsStep a b) :
    statsStep a b :=
  statsStep_of a b b h (startsStep_refl b)

theorem statsStep_of_starts (a b : LinphoneCoreToneManagerStats) (h : startsStep a b) :
    statsStep a b :=
  statsStep_of a a b (stopsStep_refl a) h

theorem statsStep_of_eq (a b : LinphoneCoreToneManagerStats) (h : b = a) : statsStep a b := by
  subst h
  exact statsStep_of_stops _ _ (stopsStep_refl _)

theorem startsStep_incStartRingbackTone (a : LinphoneCoreToneManagerStats) (t : ToneManager)
    (h : t.mStats = a) : startsStep a (incStartRingbackTone t).mStats := by
  subst h
  simp [startsStep, incStartRingbackTone]

theorem startsStep_incStartRingtone (a : LinphoneCoreToneManagerStats) (t : ToneManager)
    (h : t.mStats = a) : startsStep a (incStartRingtone t).mStats := by
  subst h
  simp [startsStep, incStartRingtone]

theorem startsStep_incStartErrorTone (a : LinphoneCoreToneManagerStats) (t : ToneManager)
    (h : t.mStats = a) : startsStep a (incStartErrorTone t).mStats := by
  subst h
  simp [startsStep, incStartErrorTone]

theorem startsStep_incStartNamedTone (a : LinphoneCoreToneManagerStats) (t : ToneManager)
    (h : t.mStats = a) : startsStep a (incStartNamedTone t).mStats := by
  subst h
  simp [startsStep, incStartNamedTone]

theorem stopsStep_incStopTone (a : LinphoneCoreToneManagerStats) (t : ToneManager)
    (h : t.mStats = a) : stopsStep a (incStopTone t).mStats := by
  subst h
  simp [stopsStep, incStopTone]

theorem doStop_stopsStep (env : Env) (s : Session) (newState : State) (tm : ToneManager) :
    stopsStep tm.mStats (doStop env s newState tm).mStats := by
  rw [doStop_mStats]
  cases getState tm s
  · exact stopsStep_refl _
  · simp only []
    split
    · exact stopsStep_incStopTone _ tm (Eq.refl _)
    · exact stopsStep_refl _
  · simp [stopsStep, incStopRingbackTone]
  · simp [stopsStep, incStopRingtone]
  · exact stopsStep_incStopTone _ tm (Eq.refl _)

theorem updateRings_startsStep (env : Env) (tm : ToneManager) :
    startsStep tm.mStats (updateRings env tm).mStats := by
  unfold updateRings
  simp only []
  split
  · exact startsStep_incStartRingtone _ _ (doStartRingtone_audio env _ tm).mStats
  · split
    · split
      · exact startsStep_incStartRingbackTone _ _ (doStartRingbackTone_keeps env _ tm).audio.mStats
      · exact startsStep_refl _
    · exact startsStep_refl _

theorem deleteTimer_stopsStep (tm : ToneManager) :
    stopsStep tm.mStats (deleteTimer tm).mStats := by
  unfold deleteTimer
  split
  · exact stopsStep_incStopTone _ tm (Eq.refl _)
  · exact stopsStep_refl _

theorem entry_statsStep (env : Env) (op : Op) (tm : ToneManager) :
    statsStep tm.mStats (op.run env tm).mStats := by
  have hall := fun (t : ToneManager) => (doStopAllTones_spec env t).1
  cases op with
  | startRingbackTone s =>
    simp only [Op.run]
    unfold startRingbackTone
    split
    · exact statsStep_of_eq _ _ (Eq.refl _)
    · simp only []
      have h1 : startsStep tm.mStats
          (incStartRingbackTone (setState s State.Ringback tm)).mStats :=
        startsStep_incStartRingbackTone _ (setState s State.Ringback tm) (Eq.refl _)
      split
      · exact statsStep_of_starts _ _ h1
      · split
        · rw [(doStartRingbackTone_keeps env s _).audio.mStats, (hall _).mStats]
          exact statsStep_of_starts _ _ h1
        · exact statsStep_of_starts _ _ h1
  | startRingtone s =>
    simp only [Op.run]
    unfold startRingtone
    simp only []
    split
    · exact statsStep_of_starts _ _ (startsStep_incStartRingtone _ _
        ((doStartRingtone_audio env s _).mStats.trans (hall (setState s State.Ringtone tm)).mStats))
    · exact statsStep_of_eq _ _ (Eq.refl _)
  | startErrorTone s reason =>
    simp only [Op.run]
    unfold startErrorTone
    simp only []
    split
    · exact statsStep_of_starts _ _ (startsStep_incStartErrorTone _ _
        ((doStartErrorTone_keeps env s reason _).audio.mStats.trans
          (hall (setState s State.Tone tm)).mStats))
    · exact statsStep_of_eq _ _ (Eq.refl _)
  | startNamedTone s toneId =>
    simp only [Op.run]
    unfold startNamedTone
    simp only []
    split
    · exact statsStep_of_starts _ _ (startsStep_incStartNamedTone _ _
        ((doStartNamedTone_keeps env s toneId _).audio.mStats.trans
          (hall (setState s State.Tone tm)).mStats))
    · exact statsStep_of_eq _ _ (Eq.refl _)
  | goToCall s => exact statsStep_of_stops _ _ (doStop_stopsStep env s State.Call tm)
  | stop s => exact statsStep_of_stops _ _ (doStop_stopsStep env s State.None tm)
  | removeSession s => exact statsStep_of_eq _ _ (Eq.refl _)
  | update s =>
    have hstop := doStop_stopsStep env s State.None tm
    have herr : statsStep tm.mStats
        (if env.tone_indications_enabled = true then
          incStartErrorTone
            (if (env.session s).transferState = CallState.Connected then
              doStartErrorTone env s LinphoneReason.Transferred (doStop env s State.None tm)
            else doStartErrorTone env s (env.session s).reason (doStop env s State.None tm))
         else doStop env s State.None tm).mStats := by
      split
      · split
        · exact statsStep_of _ _ _ hstop (startsStep_incStartErrorTone _ _
            (doStartErrorTone_keeps env s _ _).audio.mStats)
        · exact statsStep_of _ _ _ hstop (startsStep_incStartErrorTone _ _
            (doStartErrorTone_keeps env s _ _).audio.mStats)
      · exact statsStep_of_stops _ _ hstop
    have hupd : statsStep tm.mStats
        (if isAnotherSessionInState tm s State.Ringtone = true then
          incStartRingtone (doStartRingtone env s tm) else tm).mStats := by
      split
      · exact statsStep_of_starts _ _ (startsStep_incStartRingtone _ _
          (doStartRingtone_audio env s tm).mStats)
      · exact statsStep_of_eq _ _ (Eq.refl _)
    have hrun : statsStep tm.mStats (updateRings env (setState s State.Call tm)).mStats :=
      statsStep_of_starts _ _ (updateRings_startsStep env (setState s State.Call tm))
    simp only [Op.run]
    cases h2 : (env.session s).state <;>
      simp only [update, h2] <;>
      first
        | exact statsStep_of_eq _ _ (Eq.refl _)
        | exact hrun
        | exact herr
        | exact hupd
  | onFilePlayerEnd e =>
    simp only [Op.run]
    unfold onFilePlayerEnd
    split
    · exact statsStep_of _ _ _
        (stopsStep_incStopTone _ _ (doStopTone_keeps env tm).audio.mStats)
        (updateRings_startsStep env _)
    · exact statsStep_of_eq _ _ (Eq.refl _)
  | onPlayToneEnd e =>
    simp only [Op.run]
    unfold onPlayToneEnd
    split
    · simp only []
      refine statsStep_of _ _ _ ?_ (updateRings_startsStep env _)
      split
      · exact stopsStep_incStopTone _ tm (Eq.refl _)
      · exact stopsStep_refl _
    · exact statsStep_of_eq _ _ (Eq.refl _)

theorem managerOp_statsStep (env : Env) (op : ManagerOp) (tm : ToneManager) :
    statsStep tm.mStats (op.run env tm).mStats := by
  cases op with
  | entry o => exact entry_statsStep env o tm
  | linphoneCorePlayDtmf in_call dtmf duration =>
    simp only [ManagerOp.run]
    unfold linphoneCorePlayDtmf
    simp only []
    have h1 : stopsStep tm.mStats
        (if (getSessionInState tm State.Tone nullptr).1 = true then
          doStop env (getSessionInState tm State.Tone nullptr).2 State.None tm
         else tm).mStats := by
      split
      · exact doStop_stopsStep env _ State.None tm
      · exact stopsStep_refl _
    have h2 := (getAudioResource_keeps env
      AudioResourceType.ToneGenerator (if in_call = true then env.play_sndcard
        else env.ring_sndcard) true
      (if (getSessionInState tm State.Tone nullptr).1 = true then
          doStop env (getSessionInState tm State.Tone nullptr).2 State.None tm
         else tm)).audio.mStats
    split
    · rw [h2]
      exact statsStep_of_stops _ _ h1
    · split
      · show statsStep tm.mStats (getAudioResource env _ _ true _).2.mStats
        rw [h2]
        exact statsStep_of_stops _ _ h1
      · show statsStep tm.mStats (getAudioResource env _ _ true _).2.mStats
        rw [h2]
        exact statsStep_of_stops _ _ h1
  | linphoneCoreStopDtmf =>
    simp only [ManagerOp.run]
    unfold linphoneCoreStopDtmf
    simp only []
    have h2 := (getAudioResource_keeps env AudioResourceType.ToneGenerator none false
      tm).audio.mStats
    split
    · exact statsStep_of_eq _ _ h2
    · exact statsStep_of_eq _ _ h2
  | linphoneCorePlayLocal audiofile =>
    exact statsStep_of_eq _ _ (playFile_keeps env audiofile tm).audio.mStats
  | linphoneCoreStartDtmfStream =>
    exact statsStep_of_eq _ _ (getAudioResource_keeps env
      AudioResourceType.ToneGenerator env.ring_sndcard true tm).audio.mStats
  | linphoneCoreStopRinging =>
    exact statsStep_of_eq _ _ (doStopRingtone_spec env nullptr tm).1.mStats
  | linphoneCoreStopDtmfStream =>
    simp only [ManagerOp.run]
    unfold linphoneCoreStopDtmfStream
    split
    · exact statsStep_of_eq _ _ (Eq.refl _)
    · exact statsStep_of_eq _ _ (doStopTone_keeps env tm).audio.mStats
  | stopTones =>
    exact statsStep_of_eq _ _ (doStopTone_keeps env tm).audio.mStats
  | setTone reason id audiofile => exact statsStep_of_eq _ _ (Eq.refl _)
  | timerCallback status state =>
    simp only [ManagerOp.run]
    unfold cleanTonePlayerCallback
    simp only []
    split
    · split
      · exact statsStep_of_stops _ _ (deleteTimer_stopsStep tm)
      · exact statsStep_of_eq _ _ (Eq.refl _)
    · split
      · exact statsStep_of_stops _ _ (deleteTimer_stopsStep tm)
      · exact statsStep_of_eq _ _ (Eq.refl _)

theorem toInt32_succ (n : Int) (h : toInt32 n < 2147483647) :
    toInt32 (n + 1) = toInt32 n + 1 := by
  unfold toInt32 at *
  omega

theorem toInt32_wraps (n : Int) (h : toInt32 n = 2147483647) :
    toInt32 (n + 1) = -2147483648 := by
  unfold toInt32 at *
  omega

theorem toInt32_increment (n : Int) : toInt32 (n + 1) = toInt32 (toInt32 n + 1) := by
  unfold toInt32
  omega

theorem toInt32_range (n : Int) : -2147483648 ≤ toInt32 n ∧ toInt32 n ≤ 2147483647 := by
  unfold toInt32
  omega

theorem intStats_le_of_step (a b : LinphoneCoreToneManagerStats) (hb : belowIntMax a)
    (h : statsStep a b) : statsLe (intStats a) (intStats b) := by
  unfold belowIntMax at hb
  unfold statsStep at h
  obtain ⟨b1, b2, b3, b4, b5, b6, b7⟩ := hb
  obtain ⟨h1, h2, h3, h4, h5, h6, h7⟩ := h
  have key : ∀ x y : Int, toInt32 x < 2147483647 → (y = x ∨ y = x + 1) →
      toInt32 x ≤ toInt32 y := by
    intro x y hx hy
    rcases hy with hy | hy
    · rw [hy]
    · rw [hy, toInt32_succ x hx]
      omega
  exact ⟨key _ _ b1 h1, key _ _ b2 h2, key _ _ b3 h3, key _ _ b4 h4, key _ _ b5 h5,
    key _ _ b6 h6, key _ _ b7 h7⟩

theorem intStats_step_of_step (a b : LinphoneCoreToneManagerStats) (hb : belowIntMax a)
    (h : statsStep a b) : statsStep (intStats a) (intStats b) := by
  unfold belowIntMax at hb
  unfold statsStep at h
  obtain ⟨b1, b2, b3, b4, b5, b6, b7⟩ := hb
  obtain ⟨h1, h2, h3, h4, h5, h6, h7⟩ := h
  have key : ∀ x y : Int, toInt32 x < 2147483647 → (y = x ∨ y = x + 1) →
      (toInt32 y = toInt32 x ∨ toInt32 y = toInt32 x + 1) := by
    intro x y hx hy
    rcases hy with hy | hy
    · exact Or.inl (by rw [hy])
    · exact Or.inr (by rw [hy, toInt32_succ x hx])
  exact ⟨key _ _ b1 h1, key _ _ b2 h2, key _ _ b3 h3, key _ _ b4 h4, key _ _ b5 h5,
    key _ _ b6 h6, key _ _ b7 h7⟩

/-! ## Tones played in a call: the commands issued -/

theorem generateToneFromId_duration (toneId : LinphoneToneID)
    (h : toneId ≠ LinphoneToneID.Undefined) : 0 < (generateToneFromId toneId).duration := by
  cases toneId
  · exact absurd (Eq.refl _) h
  all_goals decide

theorem doStartNamedTone_stream (env : Env) (s : Session) (toneId : LinphoneToneID)
    (tm : ToneManager) (st : AudioStream) (hst : currentStream env = some st)
    (hd : st.dtmfgen = true)
    (hfile : ∀ tone, getToneFromId tm toneId = some tone → tone.audiofile = none)
    (hid : toneId ≠ LinphoneToneID.Undefined) :
    (doStartNamedTone env s toneId tm).engine
      = tm.engine
        ++ [Cmd.ms_filter_call_method Filter.stream_dtmfgen
              (Method.MS_DTMF_GEN_PLAY_CUSTOM (generateToneFromId toneId)),
            Cmd.ms_filter_remove_notify_callback Filter.stream_dtmfgen Callback.on_play_tone_end,
            Cmd.ms_filter_add_notify_callback Filter.stream_dtmfgen Callback.on_play_tone_end]
        ++ (if 0 < (generateToneFromId toneId).repeat_count ∧ tm.mTimer = none then
              [Cmd.createTimer (cleanupDelay (generateToneFromId toneId))] else []) := by
  have hp := (playTone_stream env s (generateToneFromId toneId) tm st hst hd
    (generateToneFromId_duration toneId hid)).1
  have he : doStartNamedTone env s toneId tm
      = playTone env s (generateToneFromId toneId) tm := by
    cases hg : getToneFromId tm toneId with
    | none => simp [doStartNamedTone, hg]
    | some tone => simp [doStartNamedTone, hg, hfile tone hg]
  rw [he]
  exact hp

theorem doStartErrorTone_stream_file (env : Env) (s : Session) (reason : LinphoneReason)
    (tm : ToneManager) (st : AudioStream) (tone : LinphoneToneDescription) (f : String)
    (hst : currentStream env = some st) (hl : st.local_player = true)
    (hlook : getToneFromReason tm reason = some tone) (hf : tone.audiofile = some f)
    (ho : env.ms_player_open f = 0) :
    (doStartErrorTone env s reason tm).engine
      = tm.engine
        ++ [Cmd.ms_filter_call_method Filter.stream_local_player (Method.MS_PLAYER_SET_LOOP (-1)),
            Cmd.ms_filter_call_method Filter.stream_local_player (Method.MS_PLAYER_OPEN f),
            Cmd.ms_filter_call_method Filter.stream_local_player Method.MS_PLAYER_START]
        ++ (match tm.ringstream with
            | some rs =>
              if rs.source then
                [Cmd.ms_filter_add_notify_callback Filter.ring_source
                  Callback.on_file_player_end]
              else []
            | none => []) := by
  have he : doStartErrorTone env s reason tm = (playFile env f tm).2 := by
    simp [doStartErrorTone, hlook, hf]
  rw [he]
  exact (playFile_stream env f tm st hst hl ho).2.1

theorem doStartErrorTone_stream_tone (env : Env) (s : Session) (reason : LinphoneReason)
    (tm : ToneManager) (st : AudioStream) (tone : LinphoneToneDescription)
    (hst : currentStream env = some st) (hd : st.dtmfgen = true)
    (hlook : getToneFromReason tm reason = some tone) (hf : tone.audiofile = none)
    (hid : tone.toneid ≠ LinphoneToneID.Undefined) :
    (doStartErrorTone env s reason tm).engine
      = tm.engine
        ++ [Cmd.ms_filter_call_method Filter.stream_dtmfgen
              (Method.MS_DTMF_GEN_PLAY_CUSTOM (generateToneFromId tone.toneid)),
            Cmd.ms_filter_remove_notify_callback Filter.stream_dtmfgen Callback.on_play_tone_end,
            Cmd.ms_filter_add_notify_callback Filter.stream_dtmfgen Callback.on_play_tone_end]
        ++ (if 0 < (generateToneFromId tone.toneid).repeat_count ∧ tm.mTimer = none then
              [Cmd.createTimer (cleanupDelay (generateToneFromId tone.toneid))] else []) := by
  have he : doStartErrorTone env s reason tm
      = playTone env s (generateToneFromId tone.toneid) tm := by
    simp [doStartErrorTone, hlook, hf, hid]
  rw [he]
  exact (playTone_stream env s _ tm st hst hd (generateToneFromId_duration _ hid)).1

theorem doStartErrorTone_unregistered (env : Env) (s : Session) (reason : LinphoneReason)
    (tm : ToneManager) (hlook : getToneFromReason tm reason = none) :
    doStartErrorTone env s reason tm = tm := by
  simp [doStartErrorTone, hlook]

theorem getToneFromReason_congr (tm1 tm2 : ToneManager) (h : tm2.tones = tm1.tones)
    (reason : LinphoneReason) : getToneFromReason tm2 reason = getToneFromReason tm1 reason := by
  simp [getToneFromReason, h]

theorem getToneFromId_congr (tm1 tm2 : ToneManager) (h : tm2.tones = tm1.tones)
    (id : LinphoneToneID) : getToneFromId tm2 id = getToneFromId tm1 id := by
  simp [getToneFromId, h]

theorem startErrorTone_stream_file (env : Env) (s : Session) (reason : LinphoneReason)
    (tm : ToneManager) (st : AudioStream) (tone : LinphoneToneDescription) (f : String)
    (ht : env.tone_indications_enabled = true)
    (hst : currentStream env = some st) (hl : st.local_player = true)
    (hlook : getToneFromReason tm reason = some tone) (hf : tone.audiofile = some f)
    (ho : env.ms_player_open f = 0) :
    ∃ mid : List Cmd,
      (startErrorTone env s reason tm).engine
        = tm.engine ++ (if tm.ringstream.isSome then [Cmd.ring_stop] else []) ++ mid
          ++ (if tm.ringtoneplayer_started then [Cmd.linphone_ringtoneplayer_stop] else [])
          ++ [Cmd.ms_filter_call_method Filter.stream_local_player
                (Method.MS_PLAYER_SET_LOOP (-1)),
              Cmd.ms_filter_call_method Filter.stream_local_player (Method.MS_PLAYER_OPEN f),
              Cmd.ms_filter_call_method Filter.stream_local_player Method.MS_PLAYER_START]
      ∧ ∀ c ∈ mid, c.isPlay = false := by
  obtain ⟨hr, _, _, mid, he, hmid, _⟩ := doStopAllTones_stops env (setState s State.Tone tm)
  have ha := (doStopAllTones_spec env (setState s State.Tone tm)).1
  have hlook2 : getToneFromReason (doStopAllTones env (setState s State.Tone tm)) reason
      = some tone := (getToneFromReason_congr _ _ ha.tones reason).trans hlook
  have h1 := doStartErrorTone_stream_file env s reason _ st tone f hst hl hlook2 hf ho
  have heq : startErrorTone env s reason tm = incStartErrorTone
      (doStartErrorTone env s reason (doStopAllTones env (setState s State.Tone tm))) := by
    simp [startErrorTone, ht]
  refine ⟨mid, ?_, fun c hc => (hmid c hc).2 (Eq.refl _)⟩
  rw [heq]
  show (doStartErrorTone env s reason (doStopAllTones env (setState s State.Tone tm))).engine = _
  rw [h1, hr, he]
  simp [setState]

theorem startNamedTone_stream (env : Env) (s : Session) (toneId : LinphoneToneID)
    (tm : ToneManager) (st : AudioStream)
    (ht : env.tone_indications_enabled = true)
    (hst : currentStream env = some st) (hd : st.dtmfgen = true)
    (hfile : ∀ tone, getToneFromId tm toneId = some tone → tone.audiofile = none)
    (hid : toneId ≠ LinphoneToneID.Undefined) :
    ∃ mid : List Cmd,
      (startNamedTone env s toneId tm).engine
        = tm.engine ++ (if tm.ringstream.isSome then [Cmd.ring_stop] else []) ++ mid
          ++ (if tm.ringtoneplayer_started then [Cmd.linphone_ringtoneplayer_stop] else [])
          ++ [Cmd.ms_filter_call_method Filter.stream_dtmfgen
                (Method.MS_DTMF_GEN_PLAY_CUSTOM (generateToneFromId toneId)),
              Cmd.ms_filter_remove_notify_callback Filter.stream_dtmfgen
                Callback.on_play_tone_end,
              Cmd.ms_filter_add_notify_callback Filter.stream_dtmfgen Callback.on_play_tone_end]
          ++ (if 0 < (generateToneFromId toneId).repeat_count ∧ tm.mTimer = none then
                [Cmd.createTimer (cleanupDelay (generateToneFromId toneId))] else [])
      ∧ ∀ c ∈ mid, c.isPlay = false := by
  obtain ⟨_, _, hm, mid, he, hmid, _⟩ := doStopAllTones_stops env (setState s State.Tone tm)
  have ha := (doStopAllTones_spec env (setState s State.Tone tm)).1
  have hfile2 : ∀ tone, getToneFromId (doStopAllTones env (setState s State.Tone tm)) toneId
      = some tone → tone.audiofile = none := by
    intro tone hg
    exact hfile tone ((getToneFromId_congr _ _ ha.tones toneId).symm.trans hg)
  have h1 := doStartNamedTone_stream env s toneId _ st hst hd hfile2 hid
  have heq : startNamedTone env s toneId tm = incStartNamedTone
      (doStartNamedTone env s toneId (doStopAllTones env (setState s State.Tone tm))) := by
    simp [startNamedTone, ht]
  refine ⟨mid, ?_, fun c hc => (hmid c hc).2 (Eq.refl _)⟩
  rw [heq]
  show (doStartNamedTone env s toneId (doStopAllTones env (setState s State.Tone tm))).engine = _
  rw [h1, hm, he]
  simp [setState]

theorem doStop_mTimer (env : Env) (s : Session) (newState : State) (tm : ToneManager) :
    (doStop env s newState tm).mTimer = tm.mTimer := by
  have ht := (doStopTone_stops env tm).2.1
  cases h : getState tm s
  · simp [doStop, h]
  · simp only [doStop, h]
    split
    · exact ht
    · rfl
  · simp only [doStop, h]
    exact (doStopRingbackTone_stops tm).2.2
  · simp only [doStop, h]
    show (doStopRingtone env s tm).mTimer = tm.mTimer
    unfold doStopRingtone
    split
    · exact ht
    · split <;> rfl
  · simp only [doStop, h]
    exact ht

/-! ## Stopping a tone beside a call: what is observed -/

theorem isThereACall_of_getState (tm : ToneManager) (s : Session)
    (h : getState tm s = State.Call) : isThereACall tm = true := by
  have hf : mapFind tm.mSessions s = some State.Call := by
    unfold getState at h
    split at h
    · rename_i v hv
      rw [hv, h]
    · exact absurd h (by decide)
  have hm := mem_of_mapFind _ _ _ hf
  simp only [isThereACall, List.any_eq_true]
  exact ⟨(s, State.Call), hm, by simp⟩

theorem isThereACall_of_other (tm : ToneManager) (s : Session)
    (h : ∃ e ∈ tm.mSessions, e.1 ≠ s ∧ e.2 = State.Call) : isThereACall tm = true := by
  obtain ⟨e, he, _, hst⟩ := h
  simp only [isThereACall, List.any_eq_true]
  exact ⟨e, he, by simp [hst]⟩

theorem doStopTone_observed (env : Env) (tm : ToneManager) (hc : isThereACall tm = true) :
    (doStopTone env tm).ringtoneplayer_started = tm.ringtoneplayer_started
    ∧ (doStopTone env tm).ringstream = none
    ∧ (∃ mid : List Cmd,
        (doStopTone env tm).engine
          = tm.engine ++ (if tm.ringstream.isSome then [Cmd.ring_stop] else []) ++ mid
        ∧ ∀ c ∈ mid, c.isPlay = false)
    ∧ (∀ st : AudioStream, currentStream env = some st → st.local_player = true →
        st.dtmfgen = true →
        (doStopTone env tm).engine
          = tm.engine ++ (if tm.ringstream.isSome then [Cmd.ring_stop] else [])
            ++ [Cmd.ms_filter_call_method Filter.stream_local_player Method.MS_PLAYER_CLOSE,
                Cmd.ms_filter_call_method Filter.stream_dtmfgen Method.MS_DTMF_GEN_STOP]) := by
  obtain ⟨h1, _, ⟨mid, he, hmid⟩, _⟩ := doStopTone_stops env tm
  obtain ⟨_, hb, _⟩ := doStopRingbackTone_stops tm
  refine ⟨(doStopTone_keeps env tm).player, h1, ⟨mid, ?_, fun c hcm => (hmid c hcm).2 (Eq.refl _)⟩,
    fun st hst hl hd => ?_⟩
  · rw [he, hb]
  · rw [doStopTone_stream env tm st hc hst hl hd]
    show (doStopRingbackTone tm).engine
      ++ [Cmd.ms_filter_call_method Filter.stream_local_player Method.MS_PLAYER_CLOSE]
      ++ [Cmd.ms_filter_call_method Filter.stream_dtmfgen Method.MS_DTMF_GEN_STOP] = _
    rw [hb]
    simp

/-! ## Restarts, error tones, ringtone starts, counters and stops: what is observed -/

/-- Claim C8 fails on the code: a second `startRingtone`, `startErrorTone` or
`startNamedTone` on a session already in that state increments the start counter
a second time and repeats the physical stop and start.  The ringtone player is
stopped and started again; the ring stream that plays the file or the tone is
stopped and created again, and the file or the tone is played again. -/
theorem C8_counterexample :
    getState (startRingtone plainEnv 1 (ToneManager.create [])) 1 = State.Ringtone
    ∧ (startRingtone plainEnv 1 (ToneManager.create [])).mStats.number_of_startRingtone = 1
    ∧ (startRingtone plainEnv 1
        (startRingtone plainEnv 1 (ToneManager.create []))).mStats.number_of_startRingtone = 2
    ∧ (startRingtone plainEnv 1 (startRingtone plainEnv 1 (ToneManager.create []))).engine
      = (startRingtone plainEnv 1 (ToneManager.create [])).engine
        ++ [Cmd.linphone_ringtoneplayer_stop,
            Cmd.ms_snd_card_set_stream_type (some 2) StreamType.MS_SND_CARD_STREAM_RING,
            Cmd.linphone_ringtoneplayer_start 2 (some "ring.wav") 2000]
    ∧ getState (startErrorTone plainEnv 1 (LinphoneReason.other 486)
        (ToneManager.create twoErrorTones)) 1 = State.Tone
    ∧ (startErrorTone plainEnv 1 (LinphoneReason.other 486)
        (startErrorTone plainEnv 1 (LinphoneReason.other 486)
          (ToneManager.create twoErrorTones))).mStats.number_of_startErrorTone = 2
    ∧ (startErrorTone plainEnv 1 (LinphoneReason.other 486)
        (startErrorTone plainEnv 1 (LinphoneReason.other 486)
          (ToneManager.create twoErrorTones))).engine
      = (startErrorTone plainEnv 1 (LinphoneReason.other 486)
          (ToneManager.create twoErrorTones)).engine
        ++ [Cmd.ring_stop,
            Cmd.ms_snd_card_set_stream_type (some 1) StreamType.MS_SND_CARD_STREAM_DTMF,
            Cmd.ring_start none 0 (some 1),
            Cmd.ms_filter_call_method Filter.ring_gendtmf
              Method.MS_DTMF_GEN_SET_DEFAULT_AMPLITUDE,
            Cmd.ms_filter_call_method Filter.ring_source (Method.MS_PLAYER_SET_LOOP (-1)),
            Cmd.ms_filter_call_method Filter.ring_source (Method.MS_PLAYER_OPEN "busy.wav"),
            Cmd.ms_filter_call_method Filter.ring_source Method.MS_PLAYER_START,
            Cmd.ms_filter_add_notify_callback Filter.ring_source Callback.on_file_player_end]
    ∧ getState (startNamedTone plainEnv 1 LinphoneToneID.Busy (ToneManager.create [])) 1
      = State.Tone
    ∧ (startNamedTone plainEnv 1 LinphoneToneID.Busy
        (startNamedTone plainEnv 1 LinphoneToneID.Busy
          (ToneManager.create []))).mStats.number_of_startNamedTone = 2
    ∧ (startNamedTone plainEnv 1 LinphoneToneID.Busy
        (startNamedTone plainEnv 1 LinphoneToneID.Busy (ToneManager.create []))).engine
      = (startNamedTone plainEnv 1 LinphoneToneID.Busy (ToneManager.create [])).engine
        ++ [Cmd.ring_stop,
            Cmd.ms_snd_card_set_stream_type (some 1) StreamType.MS_SND_CARD_STREAM_DTMF,
            Cmd.ring_start none 0 (some 1),
            Cmd.ms_filter_call_method Filter.ring_gendtmf
              Method.MS_DTMF_GEN_SET_DEFAULT_AMPLITUDE,
            Cmd.ms_filter_call_method Filter.ring_gendtmf
              (Method.MS_DTMF_GEN_PLAY_CUSTOM (generateToneFromId LinphoneToneID.Busy)),
            Cmd.ms_filter_remove_notify_callback Filter.ring_gendtmf Callback.on_play_tone_end,
            Cmd.ms_filter_add_notify_callback Filter.ring_gendtmf Callback.on_play_tone_end] := by
  decide

/-- Claim C8 as amended: starting a tone state on a session already in that state
leaves every tone state of the table as it was, but it is not idempotent.
`startRingtone s` on `s` in `Ringtone` only writes the table when another
session is in `Ringtone` or `Ringback`; otherwise it runs `doStopAllTones` and
`doStartRingtone` again and adds one to `number_of_startRingtone`, and when
moreover no other session is in `Call`, a ring sound card is set and native
ringing and CallKit are disabled, the ringtone player is stopped if it was
started and started again: the commands issued are `ring_stop` when there was a
ring stream, `linphone_ringtoneplayer_stop` when the player was started, then
the ring stream type and `linphone_ringtoneplayer_start`.  `startErrorTone` and
`startNamedTone` on `s` in `Tone` only write the table when tone indications
are disabled; otherwise they run `doStopAllTones` and `doStartErrorTone` or
`doStartNamedTone` again and add one to their counter, and in a call whose
audio stream has a local player and a tone generator the file registered for the
reason, when it opens, is opened and started again on the local player, and
the built-in tone of an id without a registered file is played again on the
generator. -/
theorem C8_restart_in_same_state (env : Env) (tm : ToneManager) (s : Session) :
    (getState tm s = State.Ringtone →
      (∀ t, getState (startRingtone env s tm) t = getState tm t)
      ∧ (if isAnotherSessionInState tm s State.Ringtone
            || isAnotherSessionInState tm s State.Ringback then
          startRingtone env s tm = setState s State.Ringtone tm
        else
          startRingtone env s tm = incStartRingtone
            (doStartRingtone env s (doStopAllTones env (setState s State.Ringtone tm)))
          ∧ (startRingtone env s tm).mStats.number_of_startRingtone
              = tm.mStats.number_of_startRingtone + 1)
      ∧ (sortedTable tm.mSessions →
          (∀ e ∈ tm.mSessions, e.1 ≠ s →
            e.2 ≠ State.Ringtone ∧ e.2 ≠ State.Ringback ∧ e.2 ≠ State.Call) →
          ∀ rc : SndCard,
            (env.lsd_card = some rc ∨ (env.lsd_card = none ∧ env.ring_sndcard = some rc)) →
            env.native_ringing_enabled = false → env.callkit_enabled = false →
            (startRingtone env s tm).ringtoneplayer_started = true
            ∧ (startRingtone env s tm).engine
              = tm.engine ++ (if tm.ringstream.isSome then [Cmd.ring_stop] else [])
                ++ (if tm.ringtoneplayer_started then [Cmd.linphone_ringtoneplayer_stop]
                    else [])
                ++ [Cmd.ms_snd_card_set_stream_type (some rc)
                      StreamType.MS_SND_CARD_STREAM_RING,
                    Cmd.linphone_ringtoneplayer_start rc env.local_ring 2000]))
    ∧ (getState tm s = State.Tone → ∀ reason : LinphoneReason,
      (∀ t, getState (startErrorTone env s reason tm) t = getState tm t)
      ∧ (if env.tone_indications_enabled then
          startErrorTone env s reason tm = incStartErrorTone
            (doStartErrorTone env s reason (doStopAllTones env (setState s State.Tone tm)))
          ∧ (startErrorTone env s reason tm).mStats.number_of_startErrorTone
              = tm.mStats.number_of_startErrorTone + 1
        else startErrorTone env s reason tm = setState s State.Tone tm)
      ∧ (env.tone_indications_enabled = true →
          ∀ (st : AudioStream) (tone : LinphoneToneDescription) (f : String),
            currentStream env = some st → st.local_player = true →
            getToneFromReason tm reason = some tone → tone.audiofile = some f →
            env.ms_player_open f = 0 →
            ∃ mid : List Cmd,
              (startErrorTone env s reason tm).engine
                = tm.engine ++ (if tm.ringstream.isSome then [Cmd.ring_stop] else []) ++ mid
                  ++ (if tm.ringtoneplayer_started then [Cmd.linphone_ringtoneplayer_stop]
                      else [])
                  ++ [Cmd.ms_filter_call_method Filter.stream_local_player
                        (Method.MS_PLAYER_SET_LOOP (-1)),
                      Cmd.ms_filter_call_method Filter.stream_local_player
                        (Method.MS_PLAYER_OPEN f),
                      Cmd.ms_filter_call_method Filter.stream_local_player
                        Method.MS_PLAYER_START]
              ∧ ∀ c ∈ mid, c.isPlay = false))
    ∧ (getState tm s = State.Tone → ∀ toneId : LinphoneToneID,
      (∀ t, getState (startNamedTone env s toneId tm) t = getState tm t)
      ∧ (if env.tone_indications_enabled then
          startNamedTone env s toneId tm = incStartNamedTone
            (doStartNamedTone env s toneId (doStopAllTones env (setState s State.Tone tm)))
          ∧ (startNamedTone env s toneId tm).mStats.number_of_startNamedTone
              = tm.mStats.number_of_startNamedTone + 1
        else startNamedTone env s toneId tm = setState s State.Tone tm)
      ∧ (env.tone_indications_enabled = true →
          ∀ st : AudioStream, currentStream env = some st → st.dtmfgen = true →
            (∀ tone, getToneFromId tm toneId = some tone → tone.audiofile = none) →
            toneId ≠ LinphoneToneID.Undefined →
            ∃ mid : List Cmd,
              (startNamedTone env s toneId tm).engine
                = tm.engine ++ (if tm.ringstream.isSome then [Cmd.ring_stop] else []) ++ mid
                  ++ (if tm.ringtoneplayer_started then [Cmd.linphone_ringtoneplayer_stop]
                      else [])
                  ++ [Cmd.ms_filter_call_method Filter.stream_dtmfgen
                        (Method.MS_DTMF_GEN_PLAY_CUSTOM (generateToneFromId toneId)),
                      Cmd.ms_filter_remove_notify_callback Filter.stream_dtmfgen
                        Callback.on_play_tone_end,
                      Cmd.ms_filter_add_notify_callback Filter.stream_dtmfgen
                        Callback.on_play_tone_end]
                  ++ (if 0 < (generateToneFromId toneId).repeat_count ∧ tm.mTimer = none then
                        [Cmd.createTimer (cleanupDelay (generateToneFromId toneId))] else [])
              ∧ ∀ c ∈ mid, c.isPlay = false)) := by
  refine ⟨fun hs => ?_, fun hs reason => ?_, fun hs toneId => ?_⟩
  · have ha := (doStopAllTones_spec env (setState s State.Ringtone tm)).1
    have hb := doStartRingtone_audio env s (doStopAllTones env (setState s State.Ringtone tm))
    have hobs : sortedTable tm.mSessions →
        (∀ e ∈ tm.mSessions, e.1 ≠ s →
          e.2 ≠ State.Ringtone ∧ e.2 ≠ State.Ringback ∧ e.2 ≠ State.Call) →
        ∀ rc : SndCard,
          (env.lsd_card = some rc ∨ (env.lsd_card = none ∧ env.ring_sndcard = some rc)) →
          env.native_ringing_enabled = false → env.callkit_enabled = false →
          (startRingtone env s tm).ringtoneplayer_started = true
          ∧ (startRingtone env s tm).engine
            = tm.engine ++ (if tm.ringstream.isSome then [Cmd.ring_stop] else [])
              ++ (if tm.ringtoneplayer_started then [Cmd.linphone_ringtoneplayer_stop]
                  else [])
              ++ [Cmd.ms_snd_card_set_stream_type (some rc)
                    StreamType.MS_SND_CARD_STREAM_RING,
                  Cmd.linphone_ringtoneplayer_start rc env.local_ring 2000] := by
      intro hsort hno rc hcard hn hk
      have h := (startRingtone_alone env tm s hsort
        (isAnotherSessionInState_eq_false tm s _ (fun e he hb => (hno e he hb).1))
        (isAnotherSessionInState_eq_false tm s _ (fun e he hb => (hno e he hb).2.1))
        (isAnotherSessionInState_eq_false tm s _ (fun e he hb => (hno e he hb).2.2))).1
        rc hcard hn hk
      exact ⟨h.1, h.2.2⟩
    by_cases hc : (isAnotherSessionInState tm s State.Ringtone
        || isAnotherSessionInState tm s State.Ringback) = true
    · have he : startRingtone env s tm = setState s State.Ringtone tm := by
        simp only [Bool.or_eq_true] at hc
        rcases hc with hc | hc <;>
          simp [startRingtone, isAnotherSessionInState_setState_self, hc]
      refine ⟨?_, ?_, hobs⟩
      · rw [he]
        exact fun t => getState_setState_same tm s t _ hs
      · rw [if_pos hc]
        exact he
    · have he : startRingtone env s tm = incStartRingtone
            (doStartRingtone env s (doStopAllTones env (setState s State.Ringtone tm))) := by
        simp only [Bool.or_eq_true, not_or, Bool.not_eq_true] at hc
        simp [startRingtone, isAnotherSessionInState_setState_self, hc.1, hc.2]
      refine ⟨fun t => ?_, ?_, hobs⟩
      · rw [he]
        exact (getState_congr _ _ (ha.andThen hb).mSessions t).trans
          (getState_setState_same tm s t _ hs)
      · rw [if_neg hc]
        refine ⟨he, ?_⟩
        rw [he]
        show (doStartRingtone env s (doStopAllTones env
            (setState s State.Ringtone tm))).mStats.number_of_startRingtone + 1 = _
        rw [(ha.andThen hb).mStats]
        rfl
  · have ha := (doStopAllTones_spec env (setState s State.Tone tm)).1
    have hb := (doStartErrorTone_keeps env s reason
      (doStopAllTones env (setState s State.Tone tm))).audio
    have hobs := fun ht st tone f hst hl hlook hf ho =>
      startErrorTone_stream_file env s reason tm st tone f ht hst hl hlook hf ho
    cases hc : env.tone_indications_enabled
    · have he : startErrorTone env s reason tm = setState s State.Tone tm := by
        simp [startErrorTone, hc]
      refine ⟨?_, ?_, fun ht => absurd ht (by simp)⟩
      · rw [he]
        exact fun t => getState_setState_same tm s t _ hs
      · simpa using he
    · have he : startErrorTone env s reason tm = incStartErrorTone
            (doStartErrorTone env s reason (doStopAllTones env (setState s State.Tone tm))) := by
        simp [startErrorTone, hc]
      refine ⟨fun t => ?_, ?_, fun _ => hobs hc⟩
      · rw [he]
        exact (getState_congr _ _ (ha.andThen hb).mSessions t).trans
          (getState_setState_same tm s t _ hs)
      · rw [if_pos (Eq.refl true)]
        refine ⟨he, ?_⟩
        rw [he]
        show (doStartErrorTone env s reason (doStopAllTones env
            (setState s State.Tone tm))).mStats.number_of_startErrorTone + 1 = _
        rw [(ha.andThen hb).mStats]
        rfl
  · have ha := (doStopAllTones_spec env (setState s State.Tone tm)).1
    have hb := (doStartNamedTone_keeps env s toneId
      (doStopAllTones env (setState s State.Tone tm))).audio
    have hobs := fun ht st hst hd hfile hid =>
      startNamedTone_stream env s toneId tm st ht hst hd hfile hid
    cases hc : env.tone_indications_enabled
    · have he : startNamedTone env s toneId tm = setState s State.Tone tm := by
        simp [startNamedTone, hc]
      refine ⟨?_, ?_, fun ht => absurd ht (by simp)⟩
      · rw [he]
        exact fun t => getState_setState_same tm s t _ hs
      · simpa using he
    · have he : startNamedTone env s toneId tm = incStartNamedTone
            (doStartNamedTone env s toneId (doStopAllTones env (setState s State.Tone tm))) := by
        simp [startNamedTone, hc]
      refine ⟨fun t => ?_, ?_, fun _ => hobs hc⟩
      · rw [he]
        exact (getState_congr _ _ (ha.andThen hb).mSessions t).trans
          (getState_setState_same tm s t _ hs)
      · rw [if_pos (Eq.refl true)]
        refine ⟨he, ?_⟩
        rw [he]
        show (doStartNamedTone env s toneId (doStopAllTones env
            (setState s State.Tone tm))).mStats.number_of_startNamedTone + 1 = _
        rw [(ha.andThen hb).mStats]
        rfl

/-- Claim C8 as amended, at a ringing session 1 whose ringtone is started again,
at a session 1 in `Tone` with tone indications disabled, and in a call at a
session 1 in `Tone` whose error file and whose busy tone are played again. -/
theorem C8_restart_in_same_state_witness :
    (startRingtone plainEnv 1
        (startRingtone plainEnv 1 (ToneManager.create []))).mStats.number_of_startRingtone
      = (startRingtone plainEnv 1 (ToneManager.create [])).mStats.number_of_startRingtone + 1
    ∧ (startRingtone plainEnv 1 (startRingtone plainEnv 1 (ToneManager.create []))).engine
      = (startRingtone plainEnv 1 (ToneManager.create [])).engine
        ++ [Cmd.linphone_ringtoneplayer_stop,
            Cmd.ms_snd_card_set_stream_type (some 2) StreamType.MS_SND_CARD_STREAM_RING,
            Cmd.linphone_ringtoneplayer_start 2 (some "ring.wav") 2000]
    ∧ startErrorTone quietEnv 1 (LinphoneReason.other 0)
        (startErrorTone quietEnv 1 (LinphoneReason.other 0) (ToneManager.create []))
      = startErrorTone quietEnv 1 (LinphoneReason.other 0) (ToneManager.create [])
    ∧ (startErrorTone callEnv 1 (LinphoneReason.other 486)
        (startErrorTone callEnv 1 (LinphoneReason.other 486)
          (ToneManager.create twoErrorTones))).engine
      = (startErrorTone callEnv 1 (LinphoneReason.other 486)
          (ToneManager.create twoErrorTones)).engine
        ++ [Cmd.ms_filter_call_method Filter.stream_local_player
              (Method.MS_PLAYER_SET_LOOP (-1)),
            Cmd.ms_filter_call_method Filter.stream_local_player
              (Method.MS_PLAYER_OPEN "busy.wav"),
            Cmd.ms_filter_call_method Filter.stream_local_player Method.MS_PLAYER_START]
    ∧ (startNamedTone callEnv 1 LinphoneToneID.Busy
        (startNamedTone callEnv 1 LinphoneToneID.Busy (ToneManager.create []))).engine
      = (startNamedTone callEnv 1 LinphoneToneID.Busy (ToneManager.create [])).engine
        ++ [Cmd.ms_filter_call_method Filter.stream_dtmfgen
              (Method.MS_DTMF_GEN_PLAY_CUSTOM (generateToneFromId LinphoneToneID.Busy)),
            Cmd.ms_filter_remove_notify_callback Filter.stream_dtmfgen
              Callback.on_play_tone_end,
            Cmd.ms_filter_add_notify_callback Filter.stream_dtmfgen
              Callback.on_play_tone_end]
    ∧ Cmd.linphone_ringtoneplayer_stop
      ∈ (startRingtone plainEnv 1 (startRingtone plainEnv 1 (ToneManager.create []))).engine
    ∧ (startRingtone plainEnv 1
        (startRingtone plainEnv 1 (ToneManager.create []))).ringtoneplayer_started = true :=
  ⟨(((C8_restart_in_same_state plainEnv (startRingtone plainEnv 1 (ToneManager.create []))
      1).1 (by decide)).2.1).2,
    ((((C8_restart_in_same_state plainEnv (startRingtone plainEnv 1 (ToneManager.create []))
      1).1 (by decide)).2.2 (by unfold sortedTable; decide) (by decide) 2
      (Or.inr ⟨Eq.refl _, Eq.refl _⟩) (Eq.refl _) (Eq.refl _)).2).trans (by decide),
    (((C8_restart_in_same_state quietEnv
      (startErrorTone quietEnv 1 (LinphoneReason.other 0) (ToneManager.create [])) 1).2.1
      (by decide) (LinphoneReason.other 0)).2.1).trans (by decide),
    by decide, by decide, by decide, by decide⟩

/-- Claim C16: `update` on a session whose call state is `Error` or `End` leaves
that session in `None` and adds one to `number_of_startErrorTone` when tone
indications are enabled and nothing otherwise.  With tone indications enabled
the error tone is the one registered for the reason `Transferred` when the
transfer state of the session is `Connected`, and else the one registered for
the reason of the session: `doStartErrorTone` runs with that reason after
`doStop`; when nothing is registered for that reason nothing is played,
whatever is registered for other reasons; in a call whose audio stream has a
local player the file of that descriptor, when it opens, is the one opened and
started, and a descriptor without a file has the built-in tone of its id
played on the tone generator of the call. -/
theorem C16_update_on_error_or_end (env : Env) (tm : ToneManager) (s : Session)
    (h : (env.session s).state = CallState.Error ∨ (env.session s).state = CallState.End) :
    getState (update env s tm) s = State.None
    ∧ (update env s tm).mStats.number_of_startErrorTone
        = tm.mStats.number_of_startErrorTone
          + (if env.tone_indications_enabled then 1 else 0)
    ∧ update env s tm
        = (if env.tone_indications_enabled then
            incStartErrorTone (doStartErrorTone env s
              (if (env.session s).transferState = CallState.Connected then
                LinphoneReason.Transferred
               else (env.session s).reason)
              (doStop env s State.None tm))
           else doStop env s State.None tm)
    ∧ (env.tone_indications_enabled = true →
        (getToneFromReason tm
            (if (env.session s).transferState = CallState.Connected then
              LinphoneReason.Transferred
             else (env.session s).reason) = none →
          (update env s tm).engine = (doStop env s State.None tm).engine
          ∧ (update env s tm).ringstream = (doStop env s State.None tm).ringstream)
        ∧ (∀ (st : AudioStream) (tone : LinphoneToneDescription) (f : String),
            getToneFromReason tm
              (if (env.session s).transferState = CallState.Connected then
                LinphoneReason.Transferred
               else (env.session s).reason) = some tone →
            tone.audiofile = some f →
            currentStream env = some st → st.local_player = true →
            env.ms_player_open f = 0 →
            (update env s tm).engine
              = (doStop env s State.None tm).engine
                ++ [Cmd.ms_filter_call_method Filter.stream_local_player
                      (Method.MS_PLAYER_SET_LOOP (-1)),
                    Cmd.ms_filter_call_method Filter.stream_local_player
                      (Method.MS_PLAYER_OPEN f),
                    Cmd.ms_filter_call_method Filter.stream_local_player
                      Method.MS_PLAYER_START]
                ++ (match (doStop env s State.None tm).ringstream with
                    | some rs =>
                      if rs.source then
                        [Cmd.ms_filter_add_notify_callback Filter.ring_source
                          Callback.on_file_player_end]
                      else []
                    | none => []))
        ∧ (∀ (st : AudioStream) (tone : LinphoneToneDescription),
            getToneFromReason tm
              (if (env.session s).transferState = CallState.Connected then
                LinphoneReason.Transferred
               else (env.session s).reason) = some tone →
            tone.audiofile = none → tone.toneid ≠ LinphoneToneID.Undefined →
            currentStream env = some st → st.dtmfgen = true →
            (update env s tm).engine
              = (doStop env s State.None tm).engine
                ++ [Cmd.ms_filter_call_method Filter.stream_dtmfgen
                      (Method.MS_DTMF_GEN_PLAY_CUSTOM (generateToneFromId tone.toneid)),
                    Cmd.ms_filter_remove_notify_callback Filter.stream_dtmfgen
                      Callback.on_play_tone_end,
                    Cmd.ms_filter_add_notify_callback Filter.stream_dtmfgen
                      Callback.on_play_tone_end]
                ++ (if 0 < (generateToneFromId tone.toneid).repeat_count ∧ tm.mTimer = none
                    then [Cmd.createTimer (cleanupDelay (generateToneFromId tone.toneid))]
                    else []))) := by
  have hnone : getState (doStop env s State.None tm) s = State.None := by
    have h1 := (doStop_getState env tm s State.None).1
    split at h1
    · rename_i h0
      rw [h1, h0]
    · exact h1
  have hcount : (doStop env s State.None tm).mStats.number_of_startErrorTone
      = tm.mStats.number_of_startErrorTone := by
    rw [doStop_mStats]
    cases getState tm s
    · rfl
    · simp only []
      split <;> rfl
    · rfl
    · rfl
    · rfl
  have heq : update env s tm
        = (if env.tone_indications_enabled then
            incStartErrorTone (doStartErrorTone env s
              (if (env.session s).transferState = CallState.Connected then
                LinphoneReason.Transferred
               else (env.session s).reason)
              (doStop env s State.None tm))
           else doStop env s State.None tm) := by
    rcases h with h | h <;>
      by_cases ht : (env.session s).transferState = CallState.Connected <;>
      simp [update, h, ht]
  have hk := fun r => doStartErrorTone_keeps env s r (doStop env s State.None tm)
  have hlook := fun r => getToneFromReason_congr tm (doStop env s State.None tm)
    (doStop_tones env s State.None tm) r
  refine ⟨?_, ?_, heq, fun ht => ⟨fun hn => ?_, fun st tone f hl hf hst hp ho => ?_,
    fun st tone hl hf hid hst hd => ?_⟩⟩
  · rw [heq]
    cases env.tone_indications_enabled
    · exact hnone
    · exact (getState_congr _ _ (hk _).audio.mSessions s).trans hnone
  · rw [heq]
    cases env.tone_indications_enabled
    · simpa using hcount
    · show (doStartErrorTone env s _ (doStop env s State.None tm)).mStats.number_of_startErrorTone
          + 1 = _
      rw [(hk _).audio.mStats, hcount]
      rfl
  · rw [heq, ht, if_pos (Eq.refl true),
      doStartErrorTone_unregistered env s _ _ ((hlook _).trans hn)]
    exact ⟨Eq.refl _, Eq.refl _⟩
  · rw [heq, ht, if_pos (Eq.refl true)]
    exact doStartErrorTone_stream_file env s _ _ st tone f hst hp ((hlook _).trans hl) hf ho
  · rw [heq, ht, if_pos (Eq.refl true)]
    have h1 := doStartErrorTone_stream_tone env s _ (doStop env s State.None tm) st tone hst hd
      ((hlook _).trans hl) hf hid
    rw [doStop_mTimer] at h1
    exact h1

/-- Claim C16 at three calls, all with a file registered for `Transferred` and
another for reason 486.  In a call, a session whose call ended with transfer
state `Connected` has the file of `Transferred` opened and started.  Without a
current call the same session in `Ringback` has its ringback stopped and the
file of `Transferred` played on a new ring stream, and a session that failed
with reason 486 and transfer state `Idle` has the file of reason 486 played. -/
theorem C16_update_on_error_or_end_witness :
    getState (update endedCallEnv 1
      (setState 1 State.Call (ToneManager.create twoErrorTones))) 1 = State.None
    ∧ (update endedCallEnv 1
        (setState 1 State.Call (ToneManager.create twoErrorTones))).engine
      = [Cmd.ms_filter_call_method Filter.stream_local_player (Method.MS_PLAYER_SET_LOOP (-1)),
         Cmd.ms_filter_call_method Filter.stream_local_player
           (Method.MS_PLAYER_OPEN "transfer.wav"),
         Cmd.ms_filter_call_method Filter.stream_local_player Method.MS_PLAYER_START]
    ∧ (update endedEnv 1
        (startRingbackTone endedEnv 1
          (ToneManager.create twoErrorTones))).mStats.number_of_startErrorTone = 1
    ∧ (update endedEnv 1
        (startRingbackTone endedEnv 1 (ToneManager.create twoErrorTones))).engine
      = (startRingbackTone endedEnv 1 (ToneManager.create twoErrorTones)).engine
        ++ [Cmd.ring_stop,
            Cmd.ms_snd_card_set_stream_type (some 1) StreamType.MS_SND_CARD_STREAM_DTMF,
            Cmd.ring_start none 0 (some 1),
            Cmd.ms_filter_call_method Filter.ring_gendtmf
              Method.MS_DTMF_GEN_SET_DEFAULT_AMPLITUDE,
            Cmd.ms_filter_call_method Filter.ring_source (Method.MS_PLAYER_SET_LOOP (-1)),
            Cmd.ms_filter_call_method Filter.ring_source (Method.MS_PLAYER_OPEN "transfer.wav"),
            Cmd.ms_filter_call_method Filter.ring_source Method.MS_PLAYER_START,
            Cmd.ms_filter_add_notify_callback Filter.ring_source Callback.on_file_player_end]
    ∧ (update erroredEnv 1
        (startRingbackTone erroredEnv 1 (ToneManager.create twoErrorTones))).engine
      = (startRingbackTone erroredEnv 1 (ToneManager.create twoErrorTones)).engine
        ++ [Cmd.ring_stop,
            Cmd.ms_snd_card_set_stream_type (some 1) StreamType.MS_SND_CARD_STREAM_DTMF,
            Cmd.ring_start none 0 (some 1),
            Cmd.ms_filter_call_method Filter.ring_gendtmf
              Method.MS_DTMF_GEN_SET_DEFAULT_AMPLITUDE,
            Cmd.ms_filter_call_method Filter.ring_source (Method.MS_PLAYER_SET_LOOP (-1)),
            Cmd.ms_filter_call_method Filter.ring_source (Method.MS_PLAYER_OPEN "busy.wav"),
            Cmd.ms_filter_call_method Filter.ring_source Method.MS_PLAYER_START,
            Cmd.ms_filter_add_notify_callback Filter.ring_source Callback.on_file_player_end] :=
  ⟨(C16_update_on_error_or_end endedCallEnv
      (setState 1 State.Call (ToneManager.create twoErrorTones)) 1 (Or.inr (Eq.refl _))).1,
    ((((C16_update_on_error_or_end endedCallEnv
      (setState 1 State.Call (ToneManager.create twoErrorTones)) 1
      (Or.inr (Eq.refl _))).2.2.2 (Eq.refl _)).2.1
      { dtmfgen := true, local_player := true }
      { reason := LinphoneReason.Transferred, toneid := LinphoneToneID.Undefined,
        audiofile := some "transfer.wav" }
      "transfer.wav" (by decide) (Eq.refl _) (Eq.refl _) (Eq.refl _) (Eq.refl _))).trans
      (by decide),
    ((C16_update_on_error_or_end endedEnv
      (startRingbackTone endedEnv 1 (ToneManager.create twoErrorTones)) 1
      (Or.inr (Eq.refl _))).2.1).trans (by decide),
    by decide, by decide⟩

/-- Claim C24 fails on the code at `INT_MAX`: with `number_of_startRingtone` at
2147483647, `startRingtone` increments it and the `int` becomes -2147483648,
which is less than it was. -/
theorem C24_counterexample :
    (intStats ({ ToneManager.create [] with
        mStats := { zeroStats with number_of_startRingtone := 2147483647 } }).mStats
      ).number_of_startRingtone = 2147483647
    ∧ (intStats ((ManagerOp.entry (Op.startRingtone 1)).run plainEnv
        { ToneManager.create [] with
          mStats := { zeroStats with number_of_startRingtone := 2147483647 } }).mStats
      ).number_of_startRingtone = -2147483648
    ∧ ¬ statsLe
        (intStats ({ ToneManager.create [] with
          mStats := { zeroStats with number_of_startRingtone := 2147483647 } }).mStats)
        (intStats ((ManagerOp.entry (Op.startRingtone 1)).run plainEnv
          { ToneManager.create [] with
            mStats := { zeroStats with number_of_startRingtone := 2147483647 } }).mStats) := by
  refine ⟨by decide, by decide, ?_⟩
  unfold statsLe
  decide

/-- Claim C24 as amended: as long as every counter is below `INT_MAX`, no operation
of the tone manager other than `resetStats` decreases a counter: after each
entry point, callback, core-API call, timer callback or `setTone`, every one of
the seven `int` counters is what it was or one more.  A freshly constructed
manager has all seven at 0, and `resetStats` sets all seven to 0 and leaves the
session table (and every other field) as it was. -/
theorem C24_counters_monotone (env : Env) (op : ManagerOp) (tm : ToneManager)
    (tones : List LinphoneToneDescription) (hb : belowIntMax tm.mStats) :
    statsLe (intStats tm.mStats) (intStats (op.run env tm).mStats)
    ∧ statsStep (intStats tm.mStats) (intStats (op.run env tm).mStats)
    ∧ intStats (ToneManager.create tones).mStats
        = { number_of_startRingbackTone := 0, number_of_startRingtone := 0,
            number_of_startErrorTone := 0, number_of_startNamedTone := 0,
            number_of_stopRingbackTone := 0, number_of_stopRingtone := 0,
            number_of_stopTone := 0 }
    ∧ intStats (resetStats tm).mStats
        = { number_of_startRingbackTone := 0, number_of_startRingtone := 0,
            number_of_startErrorTone := 0, number_of_startNamedTone := 0,
            number_of_stopRingbackTone := 0, number_of_stopRingtone := 0,
            number_of_stopTone := 0 }
    ∧ (resetStats tm).mSessions = tm.mSessions
    ∧ { resetStats tm with mStats := tm.mStats } = tm := by
  have hstep := managerOp_statsStep env op tm
  have hz : intStats zeroStats
      = { number_of_startRingbackTone := 0, number_of_startRingtone := 0,
          number_of_startErrorTone := 0, number_of_startNamedTone := 0,
          number_of_stopRingbackTone := 0, number_of_stopRingtone := 0,
          number_of_stopTone := 0 } := by
    decide
  exact ⟨intStats_le_of_step _ _ hb hstep, intStats_step_of_step _ _ hb hstep, hz, hz,
    Eq.refl _, Eq.refl _⟩

/-- Claim C24 as amended, at a fresh manager: after `startRingtone 1` the counter
of ringtone starts is 1 and no counter is smaller than before. -/
theorem C24_counters_monotone_witness :
    belowIntMax (ToneManager.create []).mStats
    ∧ statsLe (intStats (ToneManager.create []).mStats)
        (intStats ((ManagerOp.entry (Op.startRingtone 1)).run plainEnv
          (ToneManager.create [])).mStats)
    ∧ (intStats ((ManagerOp.entry (Op.startRingtone 1)).run plainEnv
          (ToneManager.create [])).mStats).number_of_startRingtone = 1 :=
  ⟨by unfold belowIntMax; decide,
    (C24_counters_monotone plainEnv (ManagerOp.entry (Op.startRingtone 1))
      (ToneManager.create []) [] (by unfold belowIntMax; decide)).1,
    by decide⟩

/-- Claim C25: for a session `s` in `Ringtone`, `doStop s newState` sets `s` to
`newState`, leaves the other sessions as they were and adds one to
`number_of_stopRingtone`, changing no other counter.  When another session is
in `Call` the ringtone player keeps its status and gets no command, and the tone
is stopped instead: afterwards there is no ring stream, `ring_stop` is issued
when there was one, what follows starts no playback, and when the audio stream
of the call has a local player and a tone generator what follows is exactly
`MS_PLAYER_CLOSE` on the player and `MS_DTMF_GEN_STOP` on the generator.  When
no other session is in `Call` the ringtone player is stopped (by
`linphone_ringtoneplayer_stop` when it was started, and by no other command)
and the ring stream is left alone. -/
theorem C25_doStop_from_ringtone (env : Env) (tm : ToneManager) (s : Session)
    (newState : State) (h : getState tm s = State.Ringtone) :
    getState (doStop env s newState tm) s = newState
    ∧ (∀ t, t ≠ s → getState (doStop env s newState tm) t = getState tm t)
    ∧ (doStop env s newState tm).mStats
        = { tm.mStats with number_of_stopRingtone := tm.mStats.number_of_stopRingtone + 1 }
    ∧ ((∃ e ∈ tm.mSessions, e.1 ≠ s ∧ e.2 = State.Call) →
        (doStop env s newState tm).ringtoneplayer_started = tm.ringtoneplayer_started
        ∧ (doStop env s newState tm).ringstream = none
        ∧ Emits (fun c => c.isToneCmd = true) tm (doStop env s newState tm)
        ∧ (∃ mid : List Cmd,
            (doStop env s newState tm).engine
              = tm.engine ++ (if tm.ringstream.isSome then [Cmd.ring_stop] else []) ++ mid
            ∧ ∀ c ∈ mid, c.isPlay = false)
        ∧ (∀ st : AudioStream, currentStream env = some st → st.local_player = true →
            st.dtmfgen = true →
            (doStop env s newState tm).engine
              = tm.engine ++ (if tm.ringstream.isSome then [Cmd.ring_stop] else [])
                ++ [Cmd.ms_filter_call_method Filter.stream_local_player Method.MS_PLAYER_CLOSE,
                    Cmd.ms_filter_call_method Filter.stream_dtmfgen Method.MS_DTMF_GEN_STOP]))
    ∧ ((¬ ∃ e ∈ tm.mSessions, e.1 ≠ s ∧ e.2 = State.Call) →
        (doStop env s newState tm).ringtoneplayer_started = false
        ∧ (doStop env s newState tm).ringstream = tm.ringstream
        ∧ (doStop env s newState tm).engine
          = tm.engine
            ++ (if tm.ringtoneplayer_started then [Cmd.linphone_ringtoneplayer_stop]
                else [])) := by
  have hne : getState tm s ≠ State.None := by
    rw [h]
    decide
  have hg := (doStop_getState env tm s newState).1
  rw [if_neg hne] at hg
  have hst : (doStop env s newState tm).mStats = (incStopRingtone tm).mStats := by
    rw [doStop_mStats, h]
  have heq : doStop env s newState tm
      = incStopRingtone (setState s newState (doStopRingtone env s tm)) := by
    simp [doStop, h]
  refine ⟨hg, (doStop_getState env tm s newState).2, hst, fun hex => ?_, fun hno => ?_⟩
  · have hc := (isAnotherSessionInState_iff tm s State.Call).mpr hex
    have hr : doStopRingtone env s tm = doStopTone env tm := by
      simp [doStopRingtone, hc]
    obtain ⟨o1, o2, o3, o4⟩ := doStopTone_observed env tm (isThereACall_of_other tm s hex)
    rw [heq, hr]
    exact ⟨o1, o2, (doStopTone_emits_tone env tm).append (Emits.of_engine_eq (Eq.refl _)),
      o3, o4⟩
  · have hc : isAnotherSessionInState tm s State.Call = false := by
      rw [← Bool.not_eq_true, isAnotherSessionInState_iff]
      exact hno
    have hr : doStopRingtone env s tm
        = (if tm.ringtoneplayer_started then linphone_ringtoneplayer_stop tm else tm) := by
      simp [doStopRingtone, hc]
    rw [heq, hr]
    cases hp : tm.ringtoneplayer_started
    · simp [incStopRingtone, setState, hp]
    · simp [incStopRingtone, setState, linphone_ringtoneplayer_stop, emit]

/-- Claim C25 at three states.  In a call where session 2 rings with the
call-waiting tone, stopping session 2 closes the local player and stops the
generator of the call.  Without a current call the call-waiting tone plays on a
ring stream, which is stopped.  A ringtone stopped alone stops the ringtone
player. -/
theorem C25_doStop_from_ringtone_witness :
    (doStop callEnv 2 State.None
        (startRingtone callEnv 2 (setState 1 State.Call (ToneManager.create [])))).engine
      = (startRingtone callEnv 2 (setState 1 State.Call (ToneManager.create []))).engine
        ++ [Cmd.ms_filter_call_method Filter.stream_local_player Method.MS_PLAYER_CLOSE,
            Cmd.ms_filter_call_method Filter.stream_dtmfgen Method.MS_DTMF_GEN_STOP]
    ∧ (startRingtone plainEnv 2
        (setState 1 State.Call (ToneManager.create []))).ringstream ≠ none
    ∧ (doStop plainEnv 2 State.None
        (startRingtone plainEnv 2 (setState 1 State.Call (ToneManager.create [])))).ringstream
      = none
    ∧ Cmd.ring_stop ∈ (doStop plainEnv 2 State.None
        (startRingtone plainEnv 2 (setState 1 State.Call (ToneManager.create [])))).engine
    ∧ (doStop plainEnv 2 State.None
        (setState 1 State.Call (startRingtone plainEnv 2
          (ToneManager.create [])))).ringtoneplayer_started = true
    ∧ (doStop plainEnv 2 State.None
        (startRingtone plainEnv 2 (ToneManager.create []))).engine
      = (startRingtone plainEnv 2 (ToneManager.create [])).engine
        ++ [Cmd.linphone_ringtoneplayer_stop]
    ∧ (doStop plainEnv 2 State.None
        (startRingtone plainEnv 2 (ToneManager.create []))).mStats.number_of_stopRingtone
      = 1 :=
  ⟨((((C25_doStop_from_ringtone callEnv
      (startRingtone callEnv 2 (setState 1 State.Call (ToneManager.create []))) 2 State.None
      (by decide)).2.2.2.1 ⟨(1, State.Call), by decide, by decide, Eq.refl _⟩).2.2.2.2
      { dtmfgen := true, local_player := true } (Eq.refl _) (Eq.refl _) (Eq.refl _))).trans
      (by decide),
    by decide,
    ((C25_doStop_from_ringtone plainEnv
      (startRingtone plainEnv 2 (setState 1 State.Call (ToneManager.create []))) 2 State.None
      (by decide)).2.2.2.1 ⟨(1, State.Call), by decide, by decide, Eq.refl _⟩).2.1,
    by decide,
    (((C25_doStop_from_ringtone plainEnv
      (setState 1 State.Call (startRingtone plainEnv 2 (ToneManager.create []))) 2 State.None
      (by decide)).2.2.2.1 ⟨(1, State.Call), by decide, by decide, Eq.refl _⟩).1).trans
      (by decide),
    (((C25_doStop_from_ringtone plainEnv (startRingtone plainEnv 2 (ToneManager.create [])) 2
      State.None (by decide)).2.2.2.2 (by decide)).2.2).trans (by decide),
    (congrArg LinphoneCoreToneManagerStats.number_of_stopRingtone
      (C25_doStop_from_ringtone plainEnv (startRingtone plainEnv 2 (ToneManager.create [])) 2
        State.None (by decide)).2.2.1).trans (by decide)⟩

/-- Claim C26: for a session `s` in `Call`, `doStop s newState` sets `s` to
`newState` and leaves the other sessions as they were.  When another session is
in `Ringtone` it adds one to `number_of_stopTone`, changing no other counter,
and stops the tone: afterwards there is no ring stream, `ring_stop` is issued
when there was one, what follows starts no playback, the ringtone player keeps
its status, and when the audio stream of the call has a local player and a
tone generator what follows is exactly `MS_PLAYER_CLOSE` on the player and
`MS_DTMF_GEN_STOP` on the generator.  Otherwise it only writes the table entry:
no counter and no audio resource changes and no command is issued. -/
theorem C26_doStop_from_call (env : Env) (tm : ToneManager) (s : Session)
    (newState : State) (h : getState tm s = State.Call) :
    getState (doStop env s newState tm) s = newState
    ∧ (∀ t, t ≠ s → getState (doStop env s newState tm) t = getState tm t)
    ∧ ((∃ e ∈ tm.mSessions, e.1 ≠ s ∧ e.2 = State.Ringtone) →
        (doStop env s newState tm).mStats
          = { tm.mStats with number_of_stopTone := tm.mStats.number_of_stopTone + 1 }
        ∧ (doStop env s newState tm).ringstream = none
        ∧ (doStop env s newState tm).ringtoneplayer_started = tm.ringtoneplayer_started
        ∧ (∃ mid : List Cmd,
            (doStop env s newState tm).engine
              = tm.engine ++ (if tm.ringstream.isSome then [Cmd.ring_stop] else []) ++ mid
            ∧ ∀ c ∈ mid, c.isPlay = false)
        ∧ (∀ st : AudioStream, currentStream env = some st → st.local_player = true →
            st.dtmfgen = true →
            (doStop env s newState tm).engine
              = tm.engine ++ (if tm.ringstream.isSome then [Cmd.ring_stop] else [])
                ++ [Cmd.ms_filter_call_method Filter.stream_local_player Method.MS_PLAYER_CLOSE,
                    Cmd.ms_filter_call_method Filter.stream_dtmfgen Method.MS_DTMF_GEN_STOP]))
    ∧ ((¬ ∃ e ∈ tm.mSessions, e.1 ≠ s ∧ e.2 = State.Ringtone) →
        doStop env s newState tm = setState s newState tm
        ∧ (doStop env s newState tm).mStats = tm.mStats
        ∧ (doStop env s newState tm).ringstream = tm.ringstream
        ∧ (doStop env s newState tm).ringtoneplayer_started = tm.ringtoneplayer_started
        ∧ (doStop env s newState tm).engine = tm.engine) := by
  have hne : getState tm s ≠ State.None := by
    rw [h]
    decide
  have hg := (doStop_getState env tm s newState).1
  rw [if_neg hne] at hg
  refine ⟨hg, (doStop_getState env tm s newState).2, fun hex => ?_, fun hno => ?_⟩
  · have hc := (isAnotherSessionInState_iff tm s State.Ringtone).mpr hex
    have heq : doStop env s newState tm
        = setState s newState (incStopTone (doStopTone env tm)) := by
      simp [doStop, h, hc]
    obtain ⟨o1, o2, o3, o4⟩ := doStopTone_observed env tm (isThereACall_of_getState tm s h)
    rw [heq]
    exact ⟨incStopTone_mStats_of _ _ (doStopTone_keeps env tm).audio.mStats, o2, o1, o3, o4⟩
  · have hc : isAnotherSessionInState tm s State.Ringtone = false := by
      rw [← Bool.not_eq_true, isAnotherSessionInState_iff]
      exact hno
    have heq : doStop env s newState tm = setState s newState tm := by
      simp [doStop, h, hc]
    rw [heq]
    exact ⟨Eq.refl _, Eq.refl _, Eq.refl _, Eq.refl _, Eq.refl _⟩

/-- Claim C26 at three states.  In a call where session 2 rings with the
call-waiting tone, ending the call of session 1 closes the local player and
stops the generator of the call and counts one tone stop.  Without a current
call the call-waiting tone plays on a ring stream, which is stopped.  A call
ended alone only writes the table. -/
theorem C26_doStop_from_call_witness :
    (doStop callEnv 1 State.None
        (startRingtone callEnv 2 (setState 1 State.Call (ToneManager.create [])))).engine
      = (startRingtone callEnv 2 (setState 1 State.Call (ToneManager.create []))).engine
        ++ [Cmd.ms_filter_call_method Filter.stream_local_player Method.MS_PLAYER_CLOSE,
            Cmd.ms_filter_call_method Filter.stream_dtmfgen Method.MS_DTMF_GEN_STOP]
    ∧ (doStop callEnv 1 State.None
        (startRingtone callEnv 2
          (setState 1 State.Call (ToneManager.create [])))).mStats.number_of_stopTone = 1
    ∧ (startRingtone plainEnv 2
        (setState 1 State.Call (ToneManager.create []))).ringstream ≠ none
    ∧ (doStop plainEnv 1 State.None
        (startRingtone plainEnv 2 (setState 1 State.Call (ToneManager.create [])))).ringstream
      = none
    ∧ Cmd.ring_stop ∈ (doStop plainEnv 1 State.None
        (startRingtone plainEnv 2 (setState 1 State.Call (ToneManager.create [])))).engine
    ∧ doStop plainEnv 1 State.None (setState 1 State.Call (ToneManager.create []))
      = setState 1 State.None (setState 1 State.Call (ToneManager.create [])) :=
  ⟨((((C26_doStop_from_call callEnv
      (startRingtone callEnv 2 (setState 1 State.Call (ToneManager.create []))) 1 State.None
      (by decide)).2.2.1 ⟨(2, State.Ringtone), by decide, by decide, Eq.refl _⟩).2.2.2.2
      { dtmfgen := true, local_player := true } (Eq.refl _) (Eq.refl _) (Eq.refl _))).trans
      (by decide),
    (congrArg LinphoneCoreToneManagerStats.number_of_stopTone
      ((C26_doStop_from_call callEnv
        (startRingtone callEnv 2 (setState 1 State.Call (ToneManager.create []))) 1 State.None
        (by decide)).2.2.1 ⟨(2, State.Ringtone), by decide, by decide, Eq.refl _⟩).1).trans
      (by decide),
    by decide,
    ((C26_doStop_from_call plainEnv
      (startRingtone plainEnv 2 (setState 1 State.Call (ToneManager.create []))) 1 State.None
      (by decide)).2.2.1 ⟨(2, State.Ringtone), by decide, by decide, Eq.refl _⟩).2.1,
    by decide,
    ((C26_doStop_from_call plainEnv (setState 1 State.Call (ToneManager.create [])) 1
      State.None (by decide)).2.2.2 (by decide)).1⟩

end Linphone
